import Mathlib

/-! Ternary vector executor (duckdb/common/vector_operations/ternary_executor.hpp).

Shallow embedding of `TernaryExecutor::ExecuteLoop`, `TernaryExecutor::Execute`,
`TernaryExecutor::SelectLoop` and `TernaryExecutor::Select`.

* Buffers (`A_TYPE *`, `nullmask_t`, `SelectionVector`) are lists; every read and
  write is bounds-checked and an access outside the buffer (undefined behaviour in
  the C++ source) is the failure `Failure.out_of_range`.
* A bit that is set in a `nullmask_t` marks a NULL (`result_nullmask[i] = true`
  marks row `i` of the result as NULL).
* The combining function of `Execute` may fail (throw); a failure is propagated.
* The loops `for (idx_t i = 0; i < count; i++)` are folds over `List.range count`
  in the `Except Failure` monad.
* The constructor and the method `Copy` of `CreateCollationInfo`
  (parser/parsed_data/create_collation_info.cpp) are embedded in the last section of
  the definitions.
-/

namespace duckdb

/-- Failures of the embedded code. -/
inductive Failure where
  /-- An access outside a buffer. -/
  | out_of_range
  /-- A failed `assert`. -/
  | assertion_failed
  /-- The caller-supplied function failed with the given code. -/
  | function_failed (code : Nat)
  deriving DecidableEq, Repr

/-- The type `idx_t`. -/
abbrev idx_t := Nat

/-- The type `nullmask_t`, a bitset with one bit per physical slot; a set bit marks a NULL. -/
abbrev nullmask_t := List Bool

/-- The method `nullmask_t::any()`: some bit of the mask is set. -/
def nullmask_t.any_set (mask : nullmask_t) : Bool := mask.any (fun bit => bit)

/-- Read `buf[i]`. -/
def read {α : Type} (buf : List α) (i : idx_t) : Except Failure α :=
  match buf[i]? with
  | some v => .ok v
  | none => .error .out_of_range

/-- The assignment `buf[i] = v`. -/
def write {α : Type} (buf : List α) (i : idx_t) (v : α) : Except Failure (List α) :=
  if i < buf.length then .ok (buf.set i v) else .error .out_of_range

/-- Modelled from the spec: the type `SelectionVector` (its header is not among the
sources): an ordered sequence of physical slot indices, one per logical row. The slot
type is wide enough to index the batch capacity, so an entry is a natural number. -/
structure SelectionVector where
  sel_vector : List idx_t
  deriving DecidableEq, Repr

/-- Modelled from the spec: `SelectionVector::get_index(idx)`, the physical slot of
logical row `idx`. -/
def SelectionVector.get_index (sel : SelectionVector) (idx : idx_t) : Except Failure idx_t :=
  read sel.sel_vector idx

/-- Modelled from the spec: `SelectionVector::set_index(idx, loc)`, which stores `loc`
at position `idx`. -/
def SelectionVector.set_index (sel : SelectionVector) (idx loc : idx_t) :
    Except Failure SelectionVector :=
  (write sel.sel_vector idx loc).map SelectionVector.mk

/-- The test `anullmask[aidx] || bnullmask[bidx] || cnullmask[cidx]` with the
short-circuit evaluation of `||`. -/
def any_null (anullmask bnullmask cnullmask : nullmask_t) (aidx bidx cidx : idx_t) :
    Except Failure Bool := do
  if (← read anullmask aidx) then
    pure true
  else if (← read bnullmask bidx) then
    pure true
  else
    read cnullmask cidx

/-- The call `fun(adata[aidx], bdata[bidx], cdata[cidx])`. -/
def apply_at {A B C R : Type} (fn : A → B → C → Except Failure R)
    (adata : List A) (bdata : List B) (cdata : List C) (aidx bidx cidx : idx_t) :
    Except Failure R := do
  let x ← read adata aidx
  let y ← read bdata bidx
  let z ← read cdata cidx
  fn x y z

/-- Body of the null-checking loop of `ExecuteLoop` (lines 28-35) on the state
`(result_data, result_nullmask)`. -/
def ExecuteLoop.checked_body {A B C R : Type} (adata : List A) (bdata : List B)
    (cdata : List C) (asel bsel csel : SelectionVector)
    (anullmask bnullmask cnullmask : nullmask_t) (fn : A → B → C → Except Failure R)
    (st : List R × nullmask_t) (i : idx_t) : Except Failure (List R × nullmask_t) := do
  let aidx ← asel.get_index i
  let bidx ← bsel.get_index i
  let cidx ← csel.get_index i
  if (← any_null anullmask bnullmask cnullmask aidx bidx cidx) then
    let result_nullmask ← write st.2 i true
    pure (st.1, result_nullmask)
  else
    let v ← apply_at fn adata bdata cdata aidx bidx cidx
    let result_data ← write st.1 i v
    pure (result_data, st.2)

/-- Body of the loop of `ExecuteLoop` without null checks (lines 39-42). -/
def ExecuteLoop.fast_body {A B C R : Type} (adata : List A) (bdata : List B)
    (cdata : List C) (asel bsel csel : SelectionVector)
    (fn : A → B → C → Except Failure R)
    (st : List R × nullmask_t) (i : idx_t) : Except Failure (List R × nullmask_t) := do
  let aidx ← asel.get_index i
  let bidx ← bsel.get_index i
  let cidx ← csel.get_index i
  let v ← apply_at fn adata bdata cdata aidx bidx cidx
  let result_data ← write st.1 i v
  pure (result_data, st.2)

/-- The function `TernaryExecutor::ExecuteLoop`; the result is the final
`(result_data, result_nullmask)`. -/
def ExecuteLoop {A B C R : Type} (adata : List A) (bdata : List B) (cdata : List C)
    (result_data : List R) (count : idx_t) (asel bsel csel : SelectionVector)
    (anullmask bnullmask cnullmask : nullmask_t) (result_nullmask : nullmask_t)
    (fn : A → B → C → Except Failure R) : Except Failure (List R × nullmask_t) :=
  if anullmask.any_set || bnullmask.any_set || cnullmask.any_set then
    (List.range count).foldlM
      (ExecuteLoop.checked_body adata bdata cdata asel bsel csel
        anullmask bnullmask cnullmask fn)
      (result_data, result_nullmask)
  else
    (List.range count).foldlM
      (ExecuteLoop.fast_body adata bdata cdata asel bsel csel fn)
      (result_data, result_nullmask)

/-- The enumeration `VectorType`, restricted to the two representations of the spec. -/
inductive VectorType where
  | FLAT_VECTOR
  | CONSTANT_VECTOR
  deriving DecidableEq, Repr

/-- Modelled from the spec: the class `Vector` (its header is not among the sources):
a representation tag, the cardinality `count` returned by `size()`, the data buffer,
the selection vector owned by the vector and the null mask with one bit per physical
slot. A CONSTANT vector holds its single value and its single null bit at slot 0. -/
structure Vector (α : Type) where
  vector_type : VectorType
  count : idx_t
  data : List α
  sel : SelectionVector
  nullmask : nullmask_t
  deriving DecidableEq, Repr

/-- Modelled from the spec: `Vector::SameCardinality`, the two vectors have the same
`count`. -/
def Vector.SameCardinality {α β : Type} (v : Vector α) (w : Vector β) : Bool :=
  v.count == w.count

/-- Modelled from the spec: the struct `VectorData` filled by `Orrify`, the
normalized view `(data, sel, nullmask)` of a vector. -/
structure VectorData (α : Type) where
  data : List α
  sel : SelectionVector
  nullmask : nullmask_t
  deriving DecidableEq, Repr

/-- Modelled from the spec: `ConstantVector::ZeroSelectionVector`, the all-zero
selection vector; its length is the batch capacity `STANDARD_VECTOR_SIZE`, a constant
that is not among the sources and is taken as a parameter. -/
def ZeroSelectionVector (STANDARD_VECTOR_SIZE : Nat) : SelectionVector :=
  ⟨List.replicate STANDARD_VECTOR_SIZE 0⟩

/-- Modelled from the spec: `Vector::Orrify` (section 4.1). A CONSTANT vector yields its
one-value buffer, the all-zero selection vector and its one-bit null mask; a FLAT
vector yields its own buffer, its own selection vector and its own null mask. -/
def Vector.Orrify {α : Type} (STANDARD_VECTOR_SIZE : Nat) (v : Vector α) : VectorData α :=
  match v.vector_type with
  | .CONSTANT_VECTOR => ⟨v.data, ZeroSelectionVector STANDARD_VECTOR_SIZE, v.nullmask⟩
  | .FLAT_VECTOR => ⟨v.data, v.sel, v.nullmask⟩

/-- Modelled from the spec: `ConstantVector::IsNull`, the single null bit of a
CONSTANT vector. -/
def ConstantVector.IsNull {α : Type} (v : Vector α) : Except Failure Bool :=
  read v.nullmask 0

/-- Modelled from the spec: `ConstantVector::SetNull`, which assigns the single null
bit of a CONSTANT vector. -/
def ConstantVector.SetNull {α : Type} (v : Vector α) (is_null : Bool) :
    Except Failure (Vector α) := do
  let mask ← write v.nullmask 0 is_null
  pure { v with nullmask := mask }

/-- The test `ConstantVector::IsNull(a) || ConstantVector::IsNull(b) ||
ConstantVector::IsNull(c)` with short-circuit evaluation. -/
def any_constant_null {A B C : Type} (a : Vector A) (b : Vector B) (c : Vector C) :
    Except Failure Bool := do
  if (← ConstantVector.IsNull a) then
    pure true
  else if (← ConstantVector.IsNull b) then
    pure true
  else
    ConstantVector.IsNull c

/-- The condition of line 51 and of line 125: all three inputs are CONSTANT. -/
def all_constant {A B C : Type} (a : Vector A) (b : Vector B) (c : Vector C) : Bool :=
  a.vector_type == .CONSTANT_VECTOR && b.vector_type == .CONSTANT_VECTOR &&
    c.vector_type == .CONSTANT_VECTOR

/-- The function `TernaryExecutor::Execute`; the value returned is the vector `result`
after the call. -/
def Execute {A B C R : Type} (STANDARD_VECTOR_SIZE : Nat) (a : Vector A) (b : Vector B)
    (c : Vector C) (result : Vector R) (fn : A → B → C → Except Failure R) :
    Except Failure (Vector R) :=
  if !(a.SameCardinality b && a.SameCardinality c && a.SameCardinality result) then
    .error .assertion_failed
  else if all_constant a b c then do
    let result := { result with vector_type := VectorType.CONSTANT_VECTOR }
    if (← any_constant_null a b c) then
      ConstantVector.SetNull result true
    else
      let v ← apply_at fn a.data b.data c.data 0 0 0
      let result_data ← write result.data 0 v
      pure { result with data := result_data }
  else do
    let result := { result with vector_type := VectorType.FLAT_VECTOR }
    let adata := a.Orrify STANDARD_VECTOR_SIZE
    let bdata := b.Orrify STANDARD_VECTOR_SIZE
    let cdata := c.Orrify STANDARD_VECTOR_SIZE
    let out ← ExecuteLoop adata.data bdata.data cdata.data result.data result.count
      adata.sel bdata.sel cdata.sel adata.nullmask bdata.nullmask cdata.nullmask
      result.nullmask fn
    pure { result with data := out.1, nullmask := out.2 }

/-- State of `SelectLoop`: the counters and the two output selection vectors. -/
structure SelectState where
  true_count : idx_t
  false_count : idx_t
  true_sel : SelectionVector
  false_sel : SelectionVector
  deriving DecidableEq, Repr

/-- The statement `true_sel.set_index(true_count++, i)`. -/
def SelectState.push_true (st : SelectState) (i : idx_t) : Except Failure SelectState := do
  let sel ← st.true_sel.set_index st.true_count i
  pure { st with true_sel := sel, true_count := st.true_count + 1 }

/-- The statement `false_sel.set_index(false_count++, i)`. -/
def SelectState.push_false (st : SelectState) (i : idx_t) : Except Failure SelectState := do
  let sel ← st.false_sel.set_index st.false_count i
  pure { st with false_sel := sel, false_count := st.false_count + 1 }

/-- The call `OP::Operation(adata[aidx], bdata[bidx], cdata[cidx])`. -/
def test_at {A B C : Type} (op : A → B → C → Bool)
    (adata : List A) (bdata : List B) (cdata : List C) (aidx bidx cidx : idx_t) :
    Except Failure Bool := do
  let x ← read adata aidx
  let y ← read bdata bidx
  let z ← read cdata cidx
  pure (op x y z)

/-- Body of the null-checking loop of `SelectLoop` (lines 97-105). The condition
`!anullmask[aidx] && !bnullmask[bidx] && !cnullmask[cidx] && OP::Operation(...)`
reads the null bits in this order and stops at the first one that is set. -/
def SelectLoop.checked_body {A B C : Type} (op : A → B → C → Bool) (adata : List A)
    (bdata : List B) (cdata : List C) (asel bsel csel : SelectionVector)
    (anullmask bnullmask cnullmask : nullmask_t)
    (st : SelectState) (i : idx_t) : Except Failure SelectState := do
  let aidx ← asel.get_index i
  let bidx ← bsel.get_index i
  let cidx ← csel.get_index i
  if (← any_null anullmask bnullmask cnullmask aidx bidx cidx) then
    st.push_false i
  else if (← test_at op adata bdata cdata aidx bidx cidx) then
    st.push_true i
  else
    st.push_false i

/-- Body of the loop of `SelectLoop` without null checks (lines 109-116). -/
def SelectLoop.fast_body {A B C : Type} (op : A → B → C → Bool) (adata : List A)
    (bdata : List B) (cdata : List C) (asel bsel csel : SelectionVector)
    (st : SelectState) (i : idx_t) : Except Failure SelectState := do
  let aidx ← asel.get_index i
  let bidx ← bsel.get_index i
  let cidx ← csel.get_index i
  if (← test_at op adata bdata cdata aidx bidx cidx) then
    st.push_true i
  else
    st.push_false i

/-- The function `TernaryExecutor::SelectLoop`; the result is the returned `true_count`
with the final `true_sel` and `false_sel`. -/
def SelectLoop {A B C : Type} (op : A → B → C → Bool) (adata : List A) (bdata : List B)
    (cdata : List C) (count : idx_t) (asel bsel csel : SelectionVector)
    (anullmask bnullmask cnullmask : nullmask_t) (true_sel false_sel : SelectionVector) :
    Except Failure (idx_t × SelectionVector × SelectionVector) := do
  let init : SelectState := ⟨0, 0, true_sel, false_sel⟩
  let st ←
    if anullmask.any_set || bnullmask.any_set || cnullmask.any_set then
      (List.range count).foldlM
        (SelectLoop.checked_body op adata bdata cdata asel bsel csel
          anullmask bnullmask cnullmask) init
    else
      (List.range count).foldlM
        (SelectLoop.fast_body op adata bdata cdata asel bsel csel) init
  pure (st.true_count, st.true_sel, st.false_sel)

/-- The function `TernaryExecutor::Select`; the result is the returned count with
`true_sel` and `false_sel` after the call. -/
def Select {A B C : Type} (STANDARD_VECTOR_SIZE : Nat) (op : A → B → C → Bool)
    (a : Vector A) (b : Vector B) (c : Vector C) (true_sel false_sel : SelectionVector) :
    Except Failure (idx_t × SelectionVector × SelectionVector) :=
  if !(a.SameCardinality b && a.SameCardinality c) then
    .error .assertion_failed
  else if all_constant a b c then do
    if (← any_constant_null a b c) then
      pure (0, true_sel, false_sel)
    else if !(← test_at op a.data b.data c.data 0 0 0) then
      pure (0, true_sel, false_sel)
    else
      pure (a.count, true_sel, false_sel)
  else
    let adata := a.Orrify STANDARD_VECTOR_SIZE
    let bdata := b.Orrify STANDARD_VECTOR_SIZE
    let cdata := c.Orrify STANDARD_VECTOR_SIZE
    SelectLoop op adata.data bdata.data cdata.data a.count adata.sel bdata.sel cdata.sel
      adata.nullmask bdata.nullmask cdata.nullmask true_sel false_sel

/-! ## Logical rows

The views below read an operand at a logical row through its selection vector. They
are used to state the properties of the loops. -/

/-- The null bit of an operand at logical row `i`: the bit of `mask` at the physical
slot `sel[i]`. -/
def null_at (sel : SelectionVector) (mask : nullmask_t) (i : idx_t) : Bool :=
  match sel.sel_vector[i]? with
  | some k => mask[k]? == some true
  | none => false

/-- The value of an operand at logical row `i`: the entry of `data` at the physical
slot `sel[i]`. -/
def value_at {α : Type} (data : List α) (sel : SelectionVector) (i : idx_t) : Option α :=
  match sel.sel_vector[i]? with
  | some k => data[k]?
  | none => none

/-- Some operand of logical row `i` is NULL at its mapped physical slot. -/
def row_null (asel bsel csel : SelectionVector) (anullmask bnullmask cnullmask : nullmask_t)
    (i : idx_t) : Bool :=
  null_at asel anullmask i || null_at bsel bnullmask i || null_at csel cnullmask i

/-- The combining function applied to the three operand values of logical row `i`. -/
def row_result {A B C R : Type} (fn : A → B → C → Except Failure R)
    (adata : List A) (bdata : List B) (cdata : List C) (asel bsel csel : SelectionVector)
    (i : idx_t) : Except Failure R :=
  match value_at adata asel i, value_at bdata bsel i, value_at cdata csel i with
  | some x, some y, some z => fn x y z
  | _, _, _ => .error .out_of_range

/-- The predicate applied to the three operand values of logical row `i`. -/
def row_test {A B C : Type} (op : A → B → C → Bool)
    (adata : List A) (bdata : List B) (cdata : List C) (asel bsel csel : SelectionVector)
    (i : idx_t) : Bool :=
  match value_at adata asel i, value_at bdata bsel i, value_at cdata csel i with
  | some x, some y, some z => op x y z
  | _, _, _ => false

/-- Logical row `i` is selected: no operand is NULL and the predicate is true. -/
def row_selected {A B C : Type} (op : A → B → C → Bool)
    (adata : List A) (bdata : List B) (cdata : List C) (asel bsel csel : SelectionVector)
    (anullmask bnullmask cnullmask : nullmask_t) (i : idx_t) : Bool :=
  !row_null asel bsel csel anullmask bnullmask cnullmask i &&
    row_test op adata bdata cdata asel bsel csel i

/-- The data-model invariant of a normalized input: for every `i < count` the entry
`sel[i]` exists and is a valid index into the data buffer and into the null mask. -/
def rows_in_range {α : Type} (data : List α) (sel : SelectionVector) (mask : nullmask_t)
    (count : idx_t) : Prop :=
  count ≤ sel.sel_vector.length ∧
    ∀ k ∈ sel.sel_vector.take count, k < data.length ∧ k < mask.length

instance {α : Type} (data : List α) (sel : SelectionVector) (mask : nullmask_t)
    (count : idx_t) : Decidable (rows_in_range data sel mask count) := by
  unfold rows_in_range; infer_instance

/-- A combining function that cannot fail. -/
def total_fn {A B C R : Type} (f : A → B → C → R) : A → B → C → Except Failure R :=
  fun x y z => .ok (f x y z)

deriving instance DecidableEq for Except

/-- One iteration of the loops of `ExecuteLoop`, described on the logical row: a row
with a NULL operand sets the null bit of the result, another row stores the value. -/
def execute_row {R : Type} (isnull : Bool) (val : Except Failure R)
    (st : List R × nullmask_t) (i : idx_t) : Except Failure (List R × nullmask_t) :=
  if isnull then do
    let result_nullmask ← write st.2 i true
    pure (st.1, result_nullmask)
  else do
    let v ← val
    let result_data ← write st.1 i v
    pure (result_data, st.2)

/-- One iteration of the loops of `SelectLoop`, described on the logical row. -/
def select_row (selected : Bool) (st : SelectState) (i : idx_t) : Except Failure SelectState :=
  if selected then st.push_true i else st.push_false i

/-! ## Vectors: preconditions and logical views -/

/-- The data-model invariant of an input vector on the general path: in its normalized
view every selection entry below `count` is a valid index into the data buffer and into
the null mask. -/
def Vector.valid {α : Type} (STANDARD_VECTOR_SIZE : Nat) (v : Vector α) : Prop :=
  rows_in_range (v.Orrify STANDARD_VECTOR_SIZE).data (v.Orrify STANDARD_VECTOR_SIZE).sel
    (v.Orrify STANDARD_VECTOR_SIZE).nullmask v.count

instance {α : Type} (n : Nat) (v : Vector α) : Decidable (v.valid n) := by
  unfold Vector.valid; infer_instance

/-- The data buffer and the null mask of a result vector hold `count` slots. -/
def Vector.has_capacity {α : Type} (v : Vector α) : Prop :=
  v.count ≤ v.data.length ∧ v.count ≤ v.nullmask.length

instance {α : Type} (v : Vector α) : Decidable v.has_capacity := by
  unfold Vector.has_capacity; infer_instance

/-- Some operand of logical row `i` is NULL at its mapped physical slot, the inputs
being read through their normalized views. -/
def operand_null {A B C : Type} (STANDARD_VECTOR_SIZE : Nat) (a : Vector A) (b : Vector B)
    (c : Vector C) (i : idx_t) : Bool :=
  row_null (a.Orrify STANDARD_VECTOR_SIZE).sel (b.Orrify STANDARD_VECTOR_SIZE).sel
    (c.Orrify STANDARD_VECTOR_SIZE).sel (a.Orrify STANDARD_VECTOR_SIZE).nullmask
    (b.Orrify STANDARD_VECTOR_SIZE).nullmask (c.Orrify STANDARD_VECTOR_SIZE).nullmask i

/-- The value of an input vector at logical row `i`, read through its normalized view. -/
def Vector.value {α : Type} (STANDARD_VECTOR_SIZE : Nat) (v : Vector α) (i : idx_t) :
    Option α :=
  value_at (v.Orrify STANDARD_VECTOR_SIZE).data (v.Orrify STANDARD_VECTOR_SIZE).sel i

/-- The combining function applied to the operands of logical row `i` of three input
vectors. -/
def operand_result {A B C R : Type} (STANDARD_VECTOR_SIZE : Nat)
    (fn : A → B → C → Except Failure R) (a : Vector A) (b : Vector B) (c : Vector C)
    (i : idx_t) : Except Failure R :=
  row_result fn (a.Orrify STANDARD_VECTOR_SIZE).data (b.Orrify STANDARD_VECTOR_SIZE).data
    (c.Orrify STANDARD_VECTOR_SIZE).data (a.Orrify STANDARD_VECTOR_SIZE).sel
    (b.Orrify STANDARD_VECTOR_SIZE).sel (c.Orrify STANDARD_VECTOR_SIZE).sel i

/-- Logical row `i` of three input vectors is selected by the predicate: no operand is
NULL and the predicate is true on the three values. -/
def operand_selected {A B C : Type} (STANDARD_VECTOR_SIZE : Nat) (op : A → B → C → Bool)
    (a : Vector A) (b : Vector B) (c : Vector C) (i : idx_t) : Bool :=
  row_selected op (a.Orrify STANDARD_VECTOR_SIZE).data (b.Orrify STANDARD_VECTOR_SIZE).data
    (c.Orrify STANDARD_VECTOR_SIZE).data (a.Orrify STANDARD_VECTOR_SIZE).sel
    (b.Orrify STANDARD_VECTOR_SIZE).sel (c.Orrify STANDARD_VECTOR_SIZE).sel
    (a.Orrify STANDARD_VECTOR_SIZE).nullmask (b.Orrify STANDARD_VECTOR_SIZE).nullmask
    (c.Orrify STANDARD_VECTOR_SIZE).nullmask i

/-- The precondition of `Execute`: the cardinalities agree (the assertion of line 50);
on the all-constant path every input holds its single value and its single null bit and
the result has a slot 0; on the general path the inputs satisfy the data-model invariant
and the buffers of the result hold `count` slots. -/
def Execute.precondition {A B C R : Type} (STANDARD_VECTOR_SIZE : Nat) (a : Vector A)
    (b : Vector B) (c : Vector C) (result : Vector R) : Prop :=
  (a.SameCardinality b && a.SameCardinality c && a.SameCardinality result) = true ∧
  if all_constant a b c = true then
    (0 < a.data.length ∧ 0 < a.nullmask.length) ∧
    (0 < b.data.length ∧ 0 < b.nullmask.length) ∧
    (0 < c.data.length ∧ 0 < c.nullmask.length) ∧
    (0 < result.data.length ∧ 0 < result.nullmask.length)
  else
    a.valid STANDARD_VECTOR_SIZE ∧ b.valid STANDARD_VECTOR_SIZE ∧
    c.valid STANDARD_VECTOR_SIZE ∧ result.has_capacity

instance {A B C R : Type} (n : Nat) (a : Vector A) (b : Vector B) (c : Vector C)
    (result : Vector R) : Decidable (Execute.precondition n a b c result) := by
  unfold Execute.precondition; infer_instance

/-- The operand triples without a null member that a call of `Execute` presents: on the
all-constant path the three constants when none of them is null, on the general path the
three operand values of a row `i < count` at which no operand is null. -/
def Execute.non_null_triple {A B C : Type} (STANDARD_VECTOR_SIZE : Nat) (a : Vector A)
    (b : Vector B) (c : Vector C) (x : A) (y : B) (z : C) : Prop :=
  if all_constant a b c = true then
    (a.nullmask[0]? = some false ∧ b.nullmask[0]? = some false ∧
      c.nullmask[0]? = some false) ∧
    a.data[0]? = some x ∧ b.data[0]? = some y ∧ c.data[0]? = some z
  else
    ∃ i, i < a.count ∧ operand_null STANDARD_VECTOR_SIZE a b c i = false ∧
      a.value STANDARD_VECTOR_SIZE i = some x ∧ b.value STANDARD_VECTOR_SIZE i = some y ∧
      c.value STANDARD_VECTOR_SIZE i = some z

/-- Two normalized inputs represent the same logical operand on the rows `0..count`: at
every row the null flag at the mapped slot is the same in both and, where it is clear,
the value at the mapped slot is the same in both. -/
def same_logical_rows {α : Type} (data1 : List α) (sel1 : SelectionVector)
    (mask1 : nullmask_t) (data2 : List α) (sel2 : SelectionVector) (mask2 : nullmask_t)
    (count : idx_t) : Prop :=
  ∀ i, i < count →
    null_at sel1 mask1 i = null_at sel2 mask2 i ∧
    (null_at sel1 mask1 i = false → value_at data1 sel1 i = value_at data2 sel2 i)

instance {α : Type} [DecidableEq α] (data1 : List α) (sel1 : SelectionVector)
    (mask1 : nullmask_t) (data2 : List α) (sel2 : SelectionVector) (mask2 : nullmask_t)
    (count : idx_t) :
    Decidable (same_logical_rows data1 sel1 mask1 data2 sel2 mask2 count) := by
  unfold same_logical_rows; infer_instance

/-- The bit of the null mask of an input vector at the physical slot mapped to logical
row `i`, read through the normalized view. -/
def Vector.mask_bit {α : Type} (STANDARD_VECTOR_SIZE : Nat) (v : Vector α) (i : idx_t) :
    Option Bool :=
  match (v.Orrify STANDARD_VECTOR_SIZE).sel.sel_vector[i]? with
  | some k => (v.Orrify STANDARD_VECTOR_SIZE).nullmask[k]?
  | none => none

/-- The precondition of `Select`: the cardinalities of the inputs agree (the assertion
of line 124); on the all-constant path every input holds its single value and its single
null bit; on the general path the inputs satisfy the data-model invariant and the two
output selections hold `count` slots. -/
def Select.precondition {A B C : Type} (STANDARD_VECTOR_SIZE : Nat) (a : Vector A)
    (b : Vector B) (c : Vector C) (true_sel false_sel : SelectionVector) : Prop :=
  (a.SameCardinality b && a.SameCardinality c) = true ∧
  if all_constant a b c = true then
    (0 < a.data.length ∧ 0 < a.nullmask.length) ∧
    (0 < b.data.length ∧ 0 < b.nullmask.length) ∧
    (0 < c.data.length ∧ 0 < c.nullmask.length)
  else
    a.valid STANDARD_VECTOR_SIZE ∧ b.valid STANDARD_VECTOR_SIZE ∧
    c.valid STANDARD_VECTOR_SIZE ∧
    a.count ≤ true_sel.sel_vector.length ∧ a.count ≤ false_sel.sel_vector.length

instance {A B C : Type} (n : Nat) (a : Vector A) (b : Vector B) (c : Vector C)
    (true_sel false_sel : SelectionVector) :
    Decidable (Select.precondition n a b c true_sel false_sel) := by
  unfold Select.precondition; infer_instance

/-- The state of `SelectLoop` before iteration `i`: the state after the iterations
`0..i` of the loop that the test of line 95 selects. -/
def SelectLoop.state_before {A B C : Type} (op : A → B → C → Bool) (adata : List A)
    (bdata : List B) (cdata : List C) (asel bsel csel : SelectionVector)
    (anullmask bnullmask cnullmask : nullmask_t) (true_sel false_sel : SelectionVector)
    (i : idx_t) : Except Failure SelectState :=
  if anullmask.any_set || bnullmask.any_set || cnullmask.any_set then
    (List.range i).foldlM
      (SelectLoop.checked_body op adata bdata cdata asel bsel csel
        anullmask bnullmask cnullmask) ⟨0, 0, true_sel, false_sel⟩
  else
    (List.range i).foldlM
      (SelectLoop.fast_body op adata bdata cdata asel bsel csel) ⟨0, 0, true_sel, false_sel⟩

/-! ## Example inputs -/

/-- A selection buffer of `n` slots that holds zeros, used as an output buffer. -/
def zeroed_buffer (n : Nat) : SelectionVector := ⟨List.replicate n 0⟩

/-- The identity selection vector on `n` rows. -/
def identity_sel (n : Nat) : SelectionVector := ⟨List.range n⟩

/-- A FLAT vector with one slot per row and the identity selection. -/
def flat_vector {α : Type} (data : List α) (mask : nullmask_t) : Vector α :=
  ⟨.FLAT_VECTOR, data.length, data, identity_sel data.length, mask⟩

/-- A CONSTANT vector of cardinality `count`. -/
def constant_vector {α : Type} (count : idx_t) (value : α) (is_null : Bool) : Vector α :=
  ⟨.CONSTANT_VECTOR, count, [value], identity_sel 1, [is_null]⟩

/-- A fresh result vector of `count` rows: no null bit is set. -/
def fresh_result (count : idx_t) : Vector Int :=
  flat_vector (List.replicate count 0) (List.replicate count false)

/-- The combining function `a + b + c`. -/
def add3 (x y z : Int) : Int := x + y + z

/-- The combining function `a + b * c`. -/
def mul_add (x y z : Int) : Int := x + y * z

/-- The predicate `a < b` (the third operand is ignored). -/
def less_than (x y _z : Int) : Bool := decide (x < y)

/-- Scenario 2 of the spec: `a = [1, NULL, 3]`. -/
def scenario2_a : Vector Int := flat_vector [1, 0, 3] [false, true, false]

/-- Scenario 2 of the spec: `b = [10, 20, 30]`. -/
def scenario2_b : Vector Int := flat_vector [10, 20, 30] [false, false, false]

/-- Scenario 2 of the spec: `c = [100, 200, 300]`. -/
def scenario2_c : Vector Int := flat_vector [100, 200, 300] [false, false, false]

/-- An input without NULL: `a = [1, 2, 3]`. -/
def no_null_a : Vector Int := flat_vector [1, 2, 3] [false, false, false]

/-- The result vector left by `Execute` on scenario 2 of the spec: `[111, NULL, 333]`. -/
def reused_result : Vector Int :=
  ⟨.FLAT_VECTOR, 3, [111, 0, 333], identity_sel 3, [false, true, false]⟩

/-- The result vector left by `Execute` on three constants of which the first is null:
a null constant. -/
def reused_null_constant : Vector Int :=
  ⟨.CONSTANT_VECTOR, 3, [0, 0, 0], identity_sel 3, [true, false, false]⟩

/-- Scenario 3 of the spec: `a = [5, 1, NULL, 9]`. -/
def scenario3_a : Vector Int := flat_vector [5, 1, 0, 9] [false, false, true, false]

/-- Scenario 3 of the spec: `b = [6, 1, 2, 3]`. -/
def scenario3_b : Vector Int := flat_vector [6, 1, 2, 3] [false, false, false, false]

/-- Scenario 3 of the spec: a third operand, which the predicate `a < b` ignores. -/
def scenario3_c : Vector Int := flat_vector [0, 0, 0, 0] [false, false, false, false]

/-- Scenario 1 of the spec: the constant `2`, declared with three rows. -/
def scenario1_a : Vector Int := constant_vector 3 2 false

/-- Scenario 1 of the spec: the constant `3`, declared with three rows. -/
def scenario1_b : Vector Int := constant_vector 3 3 false

/-- Scenario 1 of the spec: the constant `4`, declared with three rows. -/
def scenario1_c : Vector Int := constant_vector 3 4 false

/-- Scenario 5 of the spec: the buffer `[30, 10, 20]` under the selection `[2, 0, 1]`. -/
def scenario5_a : Vector Int :=
  ⟨.FLAT_VECTOR, 3, [30, 10, 20], ⟨[2, 0, 1]⟩, [false, false, false]⟩

/-- A constant forced into flat representation: `count` copies of the value and of the
null bit, with the identity selection. -/
def flat_copy {α : Type} (count : idx_t) (value : α) (is_null : Bool) : Vector α :=
  ⟨.FLAT_VECTOR, count, List.replicate count value, identity_sel count,
    List.replicate count is_null⟩

/-- A combining function that fails when its first argument is `0`. -/
def fails_on_zero (x y z : Int) : Except Failure Int :=
  if x = 0 then .error (.function_failed 1) else .ok (x + y + z)

/-- A physical layout of the logical operand `[20, 30, 10]`: the buffer
`[30, 10, 20, 99]` under the selection `[2, 0, 1]`; slot 3, to which no row maps, has
its null bit set. -/
def layout_data : List Int := [30, 10, 20, 99]

/-- The selection vector of the layout `layout_data`. -/
def layout_sel : SelectionVector := ⟨[2, 0, 1]⟩

/-- The null mask of the layout `layout_data`. -/
def layout_mask : nullmask_t := [false, false, false, true]

/-- A CONSTANT vector marked null, declared with three rows. -/
def null_constant : Vector Int := constant_vector 3 7 true

/-- A result vector without rows and without data buffer. -/
def empty_result : Vector Int := ⟨.FLAT_VECTOR, 0, [], identity_sel 0, [false]⟩

/-! ## Collation info (parser/parsed_data/create_collation_info.cpp) -/

/-- The enumeration `CatalogType`, restricted to the value that
`create_collation_info.cpp` uses. -/
inductive CatalogType where
  | COLLATION_ENTRY
  deriving DecidableEq, Repr

/-- Modelled from the spec: the base class `CreateInfo` (its header is not among the
sources), reduced to the members that `create_collation_info.cpp` names: the catalog
type given to its constructor and the flag `internal`. -/
structure CreateInfo where
  type : CatalogType
  internal : Bool
  deriving DecidableEq, Repr

/-- Modelled from the spec: the constructor `CreateInfo(CatalogType)`; `internal` starts
as `false`. -/
def CreateInfo.CreateInfo (type : CatalogType) : duckdb.CreateInfo := ⟨type, false⟩

/-- The class `CreateCollationInfo`; the type `ScalarFunction` of its member `function`
is a parameter. -/
structure CreateCollationInfo (ScalarFunction : Type) extends CreateInfo where
  name : String
  function : ScalarFunction
  combinable : Bool
  not_required_for_equality : Bool

/-- The set `equality_requires_collation` of line 5. -/
def equality_requires_collation : List String := ["da"]

/-- The constructor `CreateCollationInfo::CreateCollationInfo` (lines 7-16). -/
def CreateCollationInfo.CreateCollationInfo {ScalarFunction : Type} (name_p : String)
    (function_p : ScalarFunction) (combinable_p : Bool) (not_required_for_equality_p : Bool) :
    duckdb.CreateCollationInfo ScalarFunction :=
  let this : duckdb.CreateCollationInfo ScalarFunction :=
    { toCreateInfo := CreateInfo.CreateInfo CatalogType.COLLATION_ENTRY
      name := "", function := function_p, combinable := combinable_p
      not_required_for_equality := not_required_for_equality_p }
  let this := { this with name := name_p }
  let this :=
    if equality_requires_collation.count this.name > 0 then
      { this with not_required_for_equality := false }
    else this
  { this with internal := true }

/-- The method `CreateCollationInfo::Copy` (lines 18-22). The method
`CreateInfo::CopyProperties` of the base class is not among the sources and is a
parameter: it receives the base part of `this` and of the copy and returns the new base
part of the copy. -/
def CreateCollationInfo.Copy {ScalarFunction : Type}
    (CopyProperties : CreateInfo → CreateInfo → CreateInfo)
    (this : duckdb.CreateCollationInfo ScalarFunction) :
    duckdb.CreateCollationInfo ScalarFunction :=
  let result := CreateCollationInfo.CreateCollationInfo this.name this.function
    this.combinable this.not_required_for_equality
  { result with toCreateInfo := CopyProperties this.toCreateInfo result.toCreateInfo }

/-! ## Auxiliary lemmas -/

@[simp] theorem ok_bind {α β : Type} (x : α) (f : α → Except Failure β) :
    (Except.ok x >>= f) = f x := rfl

@[simp] theorem error_bind {α β : Type} (e : Failure) (f : α → Except Failure β) :
    (Except.error e >>= f) = Except.error e := rfl

@[simp] theorem ok_map {α β : Type} (x : α) (f : α → β) :
    (Except.map f (Except.ok x : Except Failure α)) = Except.ok (f x) := rfl

theorem read_of_lt {α : Type} (buf : List α) (i : idx_t) (h : i < buf.length) :
    read buf i = .ok buf[i] := by
  simp [read, List.getElem?_eq_getElem h]

theorem write_of_lt {α : Type} (buf : List α) (i : idx_t) (v : α) (h : i < buf.length) :
    write buf i v = .ok (buf.set i v) := by
  simp [write, h]

/-- Under the data-model invariant the three reads of a row succeed and return the
logical views of the row. -/
theorem row_lookup {α : Type} {data : List α} {sel : SelectionVector} {mask : nullmask_t}
    {count i : idx_t} (h : rows_in_range data sel mask count) (hi : i < count) :
    ∃ k x, sel.get_index i = .ok k ∧ read mask k = .ok (null_at sel mask i) ∧
      read data k = .ok x ∧ value_at data sel i = some x := by
  obtain ⟨hlen, hall⟩ := h
  have hil : i < sel.sel_vector.length := Nat.lt_of_lt_of_le hi hlen
  have hmem : sel.sel_vector[i] ∈ sel.sel_vector.take count := by
    rw [List.mem_take_iff_getElem]
    exact ⟨i, Nat.lt_min.mpr ⟨hi, hil⟩, rfl⟩
  obtain ⟨hd, hm⟩ := hall _ hmem
  refine ⟨sel.sel_vector[i], data[sel.sel_vector[i]], ?_, ?_, ?_, ?_⟩
  · simp [SelectionVector.get_index, read_of_lt _ _ hil]
  · rw [read_of_lt _ _ hm]
    simp [null_at, List.getElem?_eq_getElem hil, List.getElem?_eq_getElem hm]
  · exact read_of_lt _ _ hd
  · simp [value_at, List.getElem?_eq_getElem hil, List.getElem?_eq_getElem hd]

theorem checked_body_eq {A B C R : Type} {adata : List A} {bdata : List B} {cdata : List C}
    {asel bsel csel : SelectionVector} {anullmask bnullmask cnullmask : nullmask_t}
    {count i : idx_t} (fn : A → B → C → Except Failure R) (st : List R × nullmask_t)
    (ha : rows_in_range adata asel anullmask count)
    (hb : rows_in_range bdata bsel bnullmask count)
    (hc : rows_in_range cdata csel cnullmask count) (hi : i < count) :
    ExecuteLoop.checked_body adata bdata cdata asel bsel csel anullmask bnullmask cnullmask
        fn st i =
      execute_row (row_null asel bsel csel anullmask bnullmask cnullmask i)
        (row_result fn adata bdata cdata asel bsel csel i) st i := by
  obtain ⟨ka, x, ha1, ha2, ha3, ha4⟩ := row_lookup ha hi
  obtain ⟨kb, y, hb1, hb2, hb3, hb4⟩ := row_lookup hb hi
  obtain ⟨kc, z, hc1, hc2, hc3, hc4⟩ := row_lookup hc hi
  simp only [ExecuteLoop.checked_body, ha1, hb1, hc1, ok_bind, any_null, ha2, hb2, hc2,
    apply_at, ha3, hb3, hc3, execute_row, row_null, row_result, ha4, hb4, hc4]
  cases null_at asel anullmask i <;> cases null_at bsel bnullmask i <;>
    cases null_at csel cnullmask i <;> rfl

theorem null_at_of_not_any {sel : SelectionVector} {mask : nullmask_t} (i : idx_t)
    (h : mask.any_set = false) : null_at sel mask i = false := by
  unfold null_at
  cases hk : sel.sel_vector[i]? with
  | none => rfl
  | some k =>
    simp only [beq_eq_false_iff_ne, ne_eq]
    intro hm
    have hmem : true ∈ mask := List.getElem?_mem hm
    have := List.any_eq_false.mp h true hmem
    simp at this

theorem fast_body_eq {A B C R : Type} {adata : List A} {bdata : List B} {cdata : List C}
    {asel bsel csel : SelectionVector} {anullmask bnullmask cnullmask : nullmask_t}
    {count i : idx_t} (fn : A → B → C → Except Failure R) (st : List R × nullmask_t)
    (ha : rows_in_range adata asel anullmask count)
    (hb : rows_in_range bdata bsel bnullmask count)
    (hc : rows_in_range cdata csel cnullmask count) (hi : i < count)
    (hany : (anullmask.any_set || bnullmask.any_set || cnullmask.any_set) = false) :
    ExecuteLoop.fast_body adata bdata cdata asel bsel csel fn st i =
      execute_row (row_null asel bsel csel anullmask bnullmask cnullmask i)
        (row_result fn adata bdata cdata asel bsel csel i) st i := by
  obtain ⟨ka, x, ha1, -, ha3, ha4⟩ := row_lookup ha hi
  obtain ⟨kb, y, hb1, -, hb3, hb4⟩ := row_lookup hb hi
  obtain ⟨kc, z, hc1, -, hc3, hc4⟩ := row_lookup hc hi
  simp only [Bool.or_eq_false_iff] at hany
  simp only [ExecuteLoop.fast_body, ha1, hb1, hc1, ok_bind,
    apply_at, ha3, hb3, hc3, execute_row, row_null, row_result, ha4, hb4, hc4,
    null_at_of_not_any i hany.1.1, null_at_of_not_any i hany.1.2, null_at_of_not_any i hany.2]
  rfl

theorem foldlM_range_congr {σ : Type} (f g : σ → Nat → Except Failure σ) (n : Nat)
    (h : ∀ i, i < n → ∀ s, f s i = g s i) (s : σ) :
    (List.range n).foldlM f s = (List.range n).foldlM g s := by
  induction n with
  | zero => rfl
  | succ n ih =>
    rw [List.range_succ, List.foldlM_append, List.foldlM_append,
      ih (fun i hi => h i (Nat.lt_succ_of_lt hi))]
    congr 1
    funext t
    simp [List.foldlM_cons, h n (Nat.lt_succ_self n)]

/-- Under the data-model invariant `ExecuteLoop` is the row-by-row loop over the
logical rows, whichever of its two loops runs. -/
theorem ExecuteLoop_eq_rows {A B C R : Type} {adata : List A} {bdata : List B}
    {cdata : List C} {asel bsel csel : SelectionVector}
    {anullmask bnullmask cnullmask : nullmask_t} {count : idx_t}
    (fn : A → B → C → Except Failure R) (result_data : List R) (result_nullmask : nullmask_t)
    (ha : rows_in_range adata asel anullmask count)
    (hb : rows_in_range bdata bsel bnullmask count)
    (hc : rows_in_range cdata csel cnullmask count) :
    ExecuteLoop adata bdata cdata result_data count asel bsel csel
        anullmask bnullmask cnullmask result_nullmask fn =
      (List.range count).foldlM
        (fun st i => execute_row (row_null asel bsel csel anullmask bnullmask cnullmask i)
          (row_result fn adata bdata cdata asel bsel csel i) st i)
        (result_data, result_nullmask) := by
  unfold ExecuteLoop
  split
  · exact foldlM_range_congr _ _ _ (fun i hi s => checked_body_eq fn s ha hb hc hi) _
  · rename_i hany
    exact foldlM_range_congr _ _ _
      (fun i hi s => fast_body_eq fn s ha hb hc hi (by simpa using hany)) _

theorem foldlM_range_succ {σ : Type} (f : σ → Nat → Except Failure σ) (n : Nat) (s : σ) :
    (List.range (n + 1)).foldlM f s = ((List.range n).foldlM f s >>= fun t => f t n) := by
  rw [List.range_succ, List.foldlM_append]
  congr 1
  funext t
  simp [List.foldlM_cons]

/-- Closed form of the row-by-row loop: it succeeds when the buffers of the result hold
`n` slots and the function succeeds on the rows without a NULL operand; it stores the
value of each such row, sets the null bit of each other row below `n` and leaves
everything else as it was. -/
theorem execute_rows_spec {R : Type} (isnull : Nat → Bool) (val : Nat → Except Failure R)
    (result_data : List R) (result_nullmask : nullmask_t) (n : Nat)
    (hd : n ≤ result_data.length) (hn : n ≤ result_nullmask.length)
    (hval : ∀ i, i < n → isnull i = false → ∃ v, val i = .ok v) :
    ∃ out : List R × nullmask_t,
      (List.range n).foldlM (fun st i => execute_row (isnull i) (val i) st i)
        (result_data, result_nullmask) = .ok out ∧
      out.1.length = result_data.length ∧ out.2.length = result_nullmask.length ∧
      (∀ j, out.1[j]? =
        if j < n ∧ isnull j = false then (val j).toOption else result_data[j]?) ∧
      (∀ j, out.2[j]? =
        if j < n ∧ isnull j = true then some true else result_nullmask[j]?) := by
  induction n with
  | zero => exact ⟨_, rfl, rfl, rfl, by simp, by simp⟩
  | succ n ih =>
    obtain ⟨out, hrun, hl1, hl2, hdata, hmask⟩ :=
      ih (Nat.le_of_succ_le hd) (Nat.le_of_succ_le hn)
        (fun i hi => hval i (Nat.lt_succ_of_lt hi))
    rw [foldlM_range_succ, hrun, ok_bind]
    cases hnull : isnull n with
    | true =>
      have hlt : n < out.2.length := by omega
      refine ⟨(out.1, out.2.set n true), ?_, hl1, ?_, ?_, ?_⟩
      · simp [execute_row, write_of_lt _ _ _ hlt]
      · simp [hl2]
      · intro j
        rw [hdata j]
        by_cases hj : j = n
        · subst hj; simp [hnull]
        · have : (j < n + 1) = (j < n) := by
            apply propext; omega
          simp only [this]
      · intro j
        show (out.2.set n true)[j]? = _
        rw [List.getElem?_set, hmask j]
        by_cases hj : n = j
        · subst hj; simp [hnull, hlt]
        · have : (j < n + 1) = (j < n) := by
            apply propext; omega
          simp only [hj, if_false, this]
    | false =>
      obtain ⟨v, hv⟩ := hval n (Nat.lt_succ_self n) hnull
      have hlt : n < out.1.length := by omega
      refine ⟨(out.1.set n v, out.2), ?_, ?_, hl2, ?_, ?_⟩
      · simp [execute_row, hv, write_of_lt _ _ _ hlt]
      · simp [hl1]
      · intro j
        show (out.1.set n v)[j]? = _
        rw [List.getElem?_set, hdata j]
        by_cases hj : n = j
        · subst hj; simp [hnull, hlt, hv, Except.toOption]
        · have : (j < n + 1) = (j < n) := by
            apply propext; omega
          simp only [hj, if_false, this]
      · intro j
        rw [hmask j]
        by_cases hj : j = n
        · subst hj; simp [hnull]
        · have : (j < n + 1) = (j < n) := by
            apply propext; omega
          simp only [this]

theorem select_checked_body_eq {A B C : Type} {adata : List A} {bdata : List B}
    {cdata : List C} {asel bsel csel : SelectionVector}
    {anullmask bnullmask cnullmask : nullmask_t} {count i : idx_t}
    (op : A → B → C → Bool) (st : SelectState)
    (ha : rows_in_range adata asel anullmask count)
    (hb : rows_in_range bdata bsel bnullmask count)
    (hc : rows_in_range cdata csel cnullmask count) (hi : i < count) :
    SelectLoop.checked_body op adata bdata cdata asel bsel csel anullmask bnullmask cnullmask
        st i =
      select_row (row_selected op adata bdata cdata asel bsel csel
        anullmask bnullmask cnullmask i) st i := by
  obtain ⟨ka, x, ha1, ha2, ha3, ha4⟩ := row_lookup ha hi
  obtain ⟨kb, y, hb1, hb2, hb3, hb4⟩ := row_lookup hb hi
  obtain ⟨kc, z, hc1, hc2, hc3, hc4⟩ := row_lookup hc hi
  simp only [SelectLoop.checked_body, ha1, hb1, hc1, ok_bind, any_null, ha2, hb2, hc2,
    test_at, ha3, hb3, hc3, select_row, row_selected, row_null, row_test, ha4, hb4, hc4]
  cases null_at asel anullmask i <;> cases null_at bsel bnullmask i <;>
    cases null_at csel cnullmask i <;> cases op x y z <;> rfl

theorem select_fast_body_eq {A B C : Type} {adata : List A} {bdata : List B}
    {cdata : List C} {asel bsel csel : SelectionVector}
    {anullmask bnullmask cnullmask : nullmask_t} {count i : idx_t}
    (op : A → B → C → Bool) (st : SelectState)
    (ha : rows_in_range adata asel anullmask count)
    (hb : rows_in_range bdata bsel bnullmask count)
    (hc : rows_in_range cdata csel cnullmask count) (hi : i < count)
    (hany : (anullmask.any_set || bnullmask.any_set || cnullmask.any_set) = false) :
    SelectLoop.fast_body op adata bdata cdata asel bsel csel st i =
      select_row (row_selected op adata bdata cdata asel bsel csel
        anullmask bnullmask cnullmask i) st i := by
  obtain ⟨ka, x, ha1, -, ha3, ha4⟩ := row_lookup ha hi
  obtain ⟨kb, y, hb1, -, hb3, hb4⟩ := row_lookup hb hi
  obtain ⟨kc, z, hc1, -, hc3, hc4⟩ := row_lookup hc hi
  simp only [Bool.or_eq_false_iff] at hany
  simp only [SelectLoop.fast_body, ha1, hb1, hc1, ok_bind,
    test_at, ha3, hb3, hc3, select_row, row_selected, row_null, row_test, ha4, hb4, hc4,
    null_at_of_not_any i hany.1.1, null_at_of_not_any i hany.1.2, null_at_of_not_any i hany.2]
  cases op x y z <;> rfl

/-- Under the data-model invariant `SelectLoop` is the row-by-row loop over the
logical rows, whichever of its two loops runs. -/
theorem SelectLoop_eq_rows {A B C : Type} {adata : List A} {bdata : List B}
    {cdata : List C} {asel bsel csel : SelectionVector}
    {anullmask bnullmask cnullmask : nullmask_t} {count : idx_t}
    (op : A → B → C → Bool) (true_sel false_sel : SelectionVector)
    (ha : rows_in_range adata asel anullmask count)
    (hb : rows_in_range bdata bsel bnullmask count)
    (hc : rows_in_range cdata csel cnullmask count) :
    SelectLoop op adata bdata cdata count asel bsel csel
        anullmask bnullmask cnullmask true_sel false_sel =
      ((List.range count).foldlM
        (fun st i => select_row (row_selected op adata bdata cdata asel bsel csel
          anullmask bnullmask cnullmask i) st i)
        (⟨0, 0, true_sel, false_sel⟩ : SelectState) >>= fun st =>
          pure (st.true_count, st.true_sel, st.false_sel)) := by
  unfold SelectLoop
  split
  · dsimp only
    rw [foldlM_range_congr
      (SelectLoop.checked_body op adata bdata cdata asel bsel csel
        anullmask bnullmask cnullmask) _ _
      (fun i hi s => select_checked_body_eq op s ha hb hc hi)]
  · rename_i hany
    dsimp only
    rw [foldlM_range_congr (SelectLoop.fast_body op adata bdata cdata asel bsel csel) _ _
      (fun i hi s => select_fast_body_eq op s ha hb hc hi (by simpa using hany))]

theorem set_append_drop {α : Type} (taken : List α) (buf : List α) (v : α)
    (h : taken.length < buf.length) :
    (taken ++ buf.drop taken.length).set taken.length v =
      (taken ++ [v]) ++ buf.drop (taken.length + 1) := by
  rw [List.set_append]
  simp only [Nat.lt_irrefl, if_false, Nat.sub_self]
  rw [List.drop_eq_getElem_cons h]
  simp only [List.set_cons_zero, List.append_assoc, List.singleton_append]

theorem filter_range_succ (p : Nat → Bool) (n : Nat) :
    (List.range (n + 1)).filter p =
      (List.range n).filter p ++ (if p n then [n] else []) := by
  rw [List.range_succ, List.filter_append]
  cases h : p n <;> simp [h]

theorem length_filter_add (p : Nat → Bool) (n : Nat) :
    ((List.range n).filter p).length + ((List.range n).filter (fun i => !p i)).length = n := by
  have := (List.filter_append_perm p (List.range n)).length_eq
  simpa using this

/-- Closed form of the row-by-row selection loop on buffers that hold `n` slots: the
selected rows are stored in increasing order at the front of `true_sel`, the other rows
at the front of `false_sel`, the rest of both buffers is unchanged, and the counters are
the numbers of rows stored. -/
theorem select_rows_spec (p : Nat → Bool) (true_sel false_sel : SelectionVector) (n : Nat)
    (ht : n ≤ true_sel.sel_vector.length) (hf : n ≤ false_sel.sel_vector.length) :
    (List.range n).foldlM (fun st i => select_row (p i) st i)
        (⟨0, 0, true_sel, false_sel⟩ : SelectState) =
      .ok ⟨((List.range n).filter p).length,
        ((List.range n).filter (fun i => !p i)).length,
        ⟨(List.range n).filter p ++
          true_sel.sel_vector.drop ((List.range n).filter p).length⟩,
        ⟨(List.range n).filter (fun i => !p i) ++
          false_sel.sel_vector.drop ((List.range n).filter (fun i => !p i)).length⟩⟩ := by
  induction n with
  | zero => rfl
  | succ n ih =>
    rw [foldlM_range_succ, ih (Nat.le_of_succ_le ht) (Nat.le_of_succ_le hf), ok_bind,
      filter_range_succ p, filter_range_succ (fun i => !p i)]
    have hsum := length_filter_add p n
    cases hp : p n with
    | true =>
      have hlt : ((List.range n).filter p).length < true_sel.sel_vector.length := by omega
      simp [select_row, SelectState.push_true, SelectionVector.set_index, write,
        hlt, set_append_drop _ _ _ hlt]
    | false =>
      have hlt : ((List.range n).filter (fun i => !p i)).length <
          false_sel.sel_vector.length := by omega
      simp [select_row, SelectState.push_false, SelectionVector.set_index, write,
        hlt, set_append_drop _ _ _ hlt]

/-- On the general path `Execute` runs `ExecuteLoop` on the normalized views and stores
its outputs in the result, which becomes FLAT. -/
theorem Execute_general {A B C R : Type} (n : Nat) (a : Vector A) (b : Vector B)
    (c : Vector C) (result : Vector R) (fn : A → B → C → Except Failure R)
    (hcard : (a.SameCardinality b && a.SameCardinality c && a.SameCardinality result) = true)
    (hgen : all_constant a b c = false) :
    Execute n a b c result fn =
      (ExecuteLoop (a.Orrify n).data (b.Orrify n).data (c.Orrify n).data result.data
        result.count (a.Orrify n).sel (b.Orrify n).sel (c.Orrify n).sel
        (a.Orrify n).nullmask (b.Orrify n).nullmask (c.Orrify n).nullmask
        result.nullmask fn >>= fun out =>
          pure { result with
            vector_type := VectorType.FLAT_VECTOR, data := out.1, nullmask := out.2 }) := by
  simp [Execute, hcard, hgen]

theorem cardinalities {A B C R : Type} {a : Vector A} {b : Vector B}
    {c : Vector C} {result : Vector R}
    (hcard : (a.SameCardinality b && a.SameCardinality c && a.SameCardinality result) = true) :
    b.count = a.count ∧ c.count = a.count ∧ result.count = a.count := by
  simp only [Vector.SameCardinality, Bool.and_eq_true, beq_iff_eq] at hcard
  obtain ⟨⟨h1, h2⟩, h3⟩ := hcard
  exact ⟨h1.symm, h2.symm, h3.symm⟩

/-- The general path of `Execute` under the data-model invariant: the call succeeds when
the function succeeds on the rows without a NULL operand, the result is FLAT with
unchanged cardinality, each row without a NULL operand holds the value of the function,
each row with a NULL operand has its null bit set, and nothing else changes. -/
theorem Execute_general_spec {A B C R : Type} (n : Nat) (a : Vector A) (b : Vector B)
    (c : Vector C) (result : Vector R) (fn : A → B → C → Except Failure R)
    (hcard : (a.SameCardinality b && a.SameCardinality c && a.SameCardinality result) = true)
    (hgen : all_constant a b c = false)
    (ha : a.valid n) (hb : b.valid n) (hc : c.valid n) (hr : result.has_capacity)
    (hfn : ∀ i, i < result.count → operand_null n a b c i = false →
      ∃ v, operand_result n fn a b c i = .ok v) :
    ∃ r, Execute n a b c result fn = .ok r ∧
      r.vector_type = VectorType.FLAT_VECTOR ∧ r.count = result.count ∧
      r.sel = result.sel ∧
      r.data.length = result.data.length ∧ r.nullmask.length = result.nullmask.length ∧
      (∀ j, r.data[j]? =
        if j < result.count ∧ operand_null n a b c j = false then
          (operand_result n fn a b c j).toOption
        else result.data[j]?) ∧
      (∀ j, r.nullmask[j]? =
        if j < result.count ∧ operand_null n a b c j = true then some true
        else result.nullmask[j]?) := by
  obtain ⟨hbc, hcc, hrc⟩ := cardinalities hcard
  have ha2 : rows_in_range (a.Orrify n).data (a.Orrify n).sel (a.Orrify n).nullmask
      result.count := by rw [hrc]; exact ha
  have hb2 : rows_in_range (b.Orrify n).data (b.Orrify n).sel (b.Orrify n).nullmask
      result.count := by rw [hrc, ← hbc]; exact hb
  have hc2 : rows_in_range (c.Orrify n).data (c.Orrify n).sel (c.Orrify n).nullmask
      result.count := by rw [hrc, ← hcc]; exact hc
  obtain ⟨out, hrun, h1, h2, h3, h4⟩ :=
    execute_rows_spec (operand_null n a b c) (operand_result n fn a b c)
      result.data result.nullmask result.count hr.1 hr.2 hfn
  refine ⟨{ result with
    vector_type := VectorType.FLAT_VECTOR, data := out.1, nullmask := out.2 },
    ?_, rfl, rfl, rfl, h1, h2, h3, h4⟩
  rw [Execute_general n a b c result fn hcard hgen,
    ExecuteLoop_eq_rows fn result.data result.nullmask ha2 hb2 hc2]
  unfold operand_null operand_result at hrun
  rw [hrun]
  rfl

/-- Under the data-model invariant the three operand values of a row exist and the
combining function is applied to them. -/
theorem operand_values {A B C R : Type} {n : Nat} {a : Vector A} {b : Vector B}
    {c : Vector C} {i : idx_t} (fn : A → B → C → Except Failure R)
    (ha : a.valid n) (hb : b.valid n) (hc : c.valid n)
    (hia : i < a.count) (hib : i < b.count) (hic : i < c.count) :
    ∃ x y z, a.value n i = some x ∧ b.value n i = some y ∧ c.value n i = some z ∧
      operand_result n fn a b c i = fn x y z := by
  obtain ⟨_, x, -, -, -, hx⟩ := row_lookup ha hia
  obtain ⟨_, y, -, -, -, hy⟩ := row_lookup hb hib
  obtain ⟨_, z, -, -, -, hz⟩ := row_lookup hc hic
  exact ⟨x, y, z, hx, hy, hz, by simp [operand_result, row_result, hx, hy, hz]⟩

/-- On the general path `Select` runs `SelectLoop` on the normalized views. -/
theorem Select_general {A B C : Type} (n : Nat) (op : A → B → C → Bool) (a : Vector A)
    (b : Vector B) (c : Vector C) (true_sel false_sel : SelectionVector)
    (hcard : (a.SameCardinality b && a.SameCardinality c) = true)
    (hgen : all_constant a b c = false) :
    Select n op a b c true_sel false_sel =
      SelectLoop op (a.Orrify n).data (b.Orrify n).data (c.Orrify n).data a.count
        (a.Orrify n).sel (b.Orrify n).sel (c.Orrify n).sel
        (a.Orrify n).nullmask (b.Orrify n).nullmask (c.Orrify n).nullmask
        true_sel false_sel := by
  simp [Select, hcard, hgen]

/-- The general path of `Select` under the data-model invariant, on output buffers that
hold `count` slots: the call succeeds, the selected rows are stored in increasing order
at the front of `true_sel`, the other rows at the front of `false_sel`, the rest of both
buffers is unchanged and the value returned is the number of selected rows. -/
theorem Select_general_spec {A B C : Type} (n : Nat) (op : A → B → C → Bool) (a : Vector A)
    (b : Vector B) (c : Vector C) (true_sel false_sel : SelectionVector)
    (hcard : (a.SameCardinality b && a.SameCardinality c) = true)
    (hgen : all_constant a b c = false)
    (ha : a.valid n) (hb : b.valid n) (hc : c.valid n)
    (ht : a.count ≤ true_sel.sel_vector.length)
    (hf : a.count ≤ false_sel.sel_vector.length) :
    Select n op a b c true_sel false_sel =
      .ok (((List.range a.count).filter (operand_selected n op a b c)).length,
        ⟨(List.range a.count).filter (operand_selected n op a b c) ++
          true_sel.sel_vector.drop
            ((List.range a.count).filter (operand_selected n op a b c)).length⟩,
        ⟨(List.range a.count).filter (fun i => !operand_selected n op a b c i) ++
          false_sel.sel_vector.drop
            ((List.range a.count).filter
              (fun i => !operand_selected n op a b c i)).length⟩) := by
  have hcard2 := hcard
  simp only [Vector.SameCardinality, Bool.and_eq_true, beq_iff_eq] at hcard
  have hb2 : rows_in_range (b.Orrify n).data (b.Orrify n).sel (b.Orrify n).nullmask
      a.count := by rw [hcard.1]; exact hb
  have hc2 : rows_in_range (c.Orrify n).data (c.Orrify n).sel (c.Orrify n).nullmask
      a.count := by rw [hcard.2]; exact hc
  rw [Select_general n op a b c true_sel false_sel
      hcard2 hgen,
    SelectLoop_eq_rows op true_sel false_sel ha hb2 hc2]
  have := select_rows_spec (operand_selected n op a b c) true_sel false_sel a.count ht hf
  unfold operand_selected at this
  rw [this]
  rfl

/-- Under the data-model invariant a row is selected exactly when no operand is NULL and
the predicate is true on the three operand values. -/
theorem operand_selected_iff {A B C : Type} {n : Nat} {a : Vector A} {b : Vector B}
    {c : Vector C} {i : idx_t} (op : A → B → C → Bool)
    (ha : a.valid n) (hb : b.valid n) (hc : c.valid n)
    (hia : i < a.count) (hib : i < b.count) (hic : i < c.count) :
    ∃ x y z, a.value n i = some x ∧ b.value n i = some y ∧ c.value n i = some z ∧
      operand_selected n op a b c i = (!operand_null n a b c i && op x y z) := by
  obtain ⟨_, x, -, -, -, hx⟩ := row_lookup ha hia
  obtain ⟨_, y, -, -, -, hy⟩ := row_lookup hb hib
  obtain ⟨_, z, -, -, -, hz⟩ := row_lookup hc hic
  exact ⟨x, y, z, hx, hy, hz, by
    simp [operand_selected, row_selected, operand_null, row_test, hx, hy, hz]⟩

theorem take_append_drop_left {α : Type} (front buf : List α) :
    (front ++ buf.drop front.length).take front.length = front := by
  simp

theorem selected_true_iff {A B C : Type} {n : Nat} {a : Vector A} {b : Vector B}
    {c : Vector C} {i : idx_t} (op : A → B → C → Bool)
    (ha : a.valid n) (hb : b.valid n) (hc : c.valid n)
    (hia : i < a.count) (hib : i < b.count) (hic : i < c.count) :
    operand_selected n op a b c i = true ↔
      (operand_null n a b c i = false ∧
        ∃ x y z, a.value n i = some x ∧ b.value n i = some y ∧ c.value n i = some z ∧
          op x y z = true) := by
  obtain ⟨x, y, z, hx, hy, hz, hsel⟩ := operand_selected_iff op ha hb hc hia hib hic
  rw [hsel]
  constructor
  · intro h
    simp only [Bool.and_eq_true, Bool.not_eq_true'] at h
    exact ⟨h.1, x, y, z, hx, hy, hz, h.2⟩
  · rintro ⟨hnull, x2, y2, z2, hx2, hy2, hz2, hop⟩
    rw [hx] at hx2; rw [hy] at hy2; rw [hz] at hz2
    cases hx2; cases hy2; cases hz2
    simp [hnull, hop]

theorem selected_false_iff {A B C : Type} {n : Nat} {a : Vector A} {b : Vector B}
    {c : Vector C} {i : idx_t} (op : A → B → C → Bool)
    (ha : a.valid n) (hb : b.valid n) (hc : c.valid n)
    (hia : i < a.count) (hib : i < b.count) (hic : i < c.count) :
    operand_selected n op a b c i = false ↔
      (operand_null n a b c i = true ∨
        ∃ x y z, a.value n i = some x ∧ b.value n i = some y ∧ c.value n i = some z ∧
          op x y z = false) := by
  obtain ⟨x, y, z, hx, hy, hz, hsel⟩ := operand_selected_iff op ha hb hc hia hib hic
  rw [hsel]
  constructor
  · intro h
    cases hnull : operand_null n a b c i with
    | true => exact Or.inl rfl
    | false =>
      rw [hnull] at h
      exact Or.inr ⟨x, y, z, hx, hy, hz, by simpa using h⟩
  · rintro (hnull | ⟨x2, y2, z2, hx2, hy2, hz2, hop⟩)
    · simp [hnull]
    · rw [hx] at hx2; rw [hy] at hy2; rw [hz] at hz2
      cases hx2; cases hy2; cases hz2
      simp [hop]

theorem filter_range_sorted (p : Nat → Bool) (n : Nat) :
    ((List.range n).filter p).Pairwise (fun i j => i < j) :=
  (List.pairwise_lt_range n).filter p

theorem read_of_getElem? {α : Type} {buf : List α} {i : idx_t} {v : α}
    (h : buf[i]? = some v) : read buf i = .ok v := by
  simp [read, h]

/-- The test of line 53 on three constants whose null bits are `an`, `bn` and `cn`. -/
theorem any_constant_null_eq {A B C : Type} {a : Vector A} {b : Vector B} {c : Vector C}
    {an bn cn : Bool} (hna : a.nullmask[0]? = some an) (hnb : b.nullmask[0]? = some bn)
    (hnc : c.nullmask[0]? = some cn) :
    any_constant_null a b c = .ok (an || bn || cn) := by
  simp only [any_constant_null, ConstantVector.IsNull, read_of_getElem? hna,
    read_of_getElem? hnb, read_of_getElem? hnc, ok_bind]
  cases an <;> cases bn <;> cases cn <;> rfl

/-- The all-constant path of `Execute` when some input is null: the null bit of the
result is set. -/
theorem Execute_constant_null {A B C R : Type} (n : Nat) (a : Vector A) (b : Vector B)
    (c : Vector C) (result : Vector R) (fn : A → B → C → Except Failure R)
    {an bn cn : Bool}
    (hcard : (a.SameCardinality b && a.SameCardinality c && a.SameCardinality result) = true)
    (hconst : all_constant a b c = true)
    (hna : a.nullmask[0]? = some an) (hnb : b.nullmask[0]? = some bn)
    (hnc : c.nullmask[0]? = some cn) (hnull : (an || bn || cn) = true)
    (hrn : 0 < result.nullmask.length) :
    Execute n a b c result fn =
      .ok { result with
        vector_type := VectorType.CONSTANT_VECTOR, nullmask := result.nullmask.set 0 true } := by
  simp only [Execute, hcard, hconst, any_constant_null_eq hna hnb hnc, hnull,
    ConstantVector.SetNull, write_of_lt _ _ _ hrn, ok_bind]
  rfl

/-- The all-constant path of `Execute` when no input is null: the function is applied
to the three values and its value is stored at slot 0 of the result. -/
theorem Execute_constant_value {A B C R : Type} (n : Nat) (a : Vector A) (b : Vector B)
    (c : Vector C) (result : Vector R) (fn : A → B → C → Except Failure R)
    {an bn cn : Bool} {a0 : A} {b0 : B} {c0 : C} {v : R}
    (hcard : (a.SameCardinality b && a.SameCardinality c && a.SameCardinality result) = true)
    (hconst : all_constant a b c = true)
    (hna : a.nullmask[0]? = some an) (hnb : b.nullmask[0]? = some bn)
    (hnc : c.nullmask[0]? = some cn) (hnull : (an || bn || cn) = false)
    (hva : a.data[0]? = some a0) (hvb : b.data[0]? = some b0) (hvc : c.data[0]? = some c0)
    (hfn : fn a0 b0 c0 = .ok v) (hrd : 0 < result.data.length) :
    Execute n a b c result fn =
      .ok { result with
        vector_type := VectorType.CONSTANT_VECTOR, data := result.data.set 0 v } := by
  simp only [Execute, hcard, hconst, any_constant_null_eq hna hnb hnc, hnull, apply_at,
    read_of_getElem? hva, read_of_getElem? hvb, read_of_getElem? hvc, hfn,
    write_of_lt _ _ _ hrd, ok_bind]
  rfl

/-- Scenario 5 of the spec: the selection `[2, 0, 1]` over the buffer `[30, 10, 20]` is
read as the logical values `[20, 30, 10]`. -/
theorem scenario5_logical_values :
    (List.range 3).map (scenario5_a.value 4) = [some 20, some 30, some 10] := by
  decide

/-- Scenario 2 of the spec: the result is `[111, NULL, 333]`. -/
theorem scenario2_result :
    Execute 4 scenario2_a scenario2_b scenario2_c (fresh_result 3) (total_fn add3) =
      .ok ⟨.FLAT_VECTOR, 3, [111, 0, 333], identity_sel 3, [false, true, false]⟩ := by
  decide

/-- Scenario 3 of the spec: `true_selection = [0]`, `false_selection = [1, 2, 3]` and
`true_count = 1`. -/
theorem scenario3_result :
    Select 4 less_than scenario3_a scenario3_b scenario3_c
        (zeroed_buffer 4) (zeroed_buffer 4) =
      .ok (1, ⟨[0, 0, 0, 0]⟩, ⟨[1, 2, 3, 0]⟩) := by
  decide

theorem count_range (n i : Nat) : (List.range n).count i = if i < n then 1 else 0 := by
  split
  · rename_i h
    exact List.count_eq_one_of_mem (List.nodup_range n) (List.mem_range.mpr h)
  · rename_i h
    exact List.count_eq_zero_of_not_mem (fun hm => h (List.mem_range.mp hm))

theorem flat_copy_valid {α : Type} (n count : Nat) (value : α) (is_null : Bool) :
    (flat_copy count value is_null).valid n := by
  refine ⟨by simp [flat_copy, Vector.Orrify, identity_sel], ?_⟩
  intro k hk
  have hk2 : k ∈ List.range count := by
    have := List.mem_of_mem_take hk
    simpa [flat_copy, Vector.Orrify, identity_sel] using this
  have hlt := List.mem_range.mp hk2
  simp [flat_copy, Vector.Orrify, hlt]

theorem flat_copy_null_at {α : Type} (n count i : Nat) (value : α) (is_null : Bool)
    (hi : i < count) :
    null_at ((flat_copy count value is_null).Orrify n).sel
      ((flat_copy count value is_null).Orrify n).nullmask i = is_null := by
  simp [flat_copy, Vector.Orrify, identity_sel, null_at, List.getElem?_range hi,
    List.getElem?_replicate, hi]

theorem flat_copy_value {α : Type} (n count i : Nat) (value : α) (is_null : Bool)
    (hi : i < count) :
    (flat_copy count value is_null).value n i = some value := by
  simp [flat_copy, Vector.value, Vector.Orrify, identity_sel, value_at,
    List.getElem?_range hi, List.getElem?_replicate, hi]

theorem flat_copy_operand_null {A B C : Type} (n count i : Nat) (a0 : A) (b0 : B) (c0 : C)
    (an bn cn : Bool) (hi : i < count) :
    operand_null n (flat_copy count a0 an) (flat_copy count b0 bn) (flat_copy count c0 cn) i =
      (an || bn || cn) := by
  simp only [operand_null, row_null, flat_copy_null_at n count i _ _ hi]

theorem flat_copy_operand_result {A B C R : Type} (n count i : Nat) (a0 : A) (b0 : B)
    (c0 : C) (an bn cn : Bool) (fn : A → B → C → Except Failure R) (hi : i < count) :
    operand_result n fn (flat_copy count a0 an) (flat_copy count b0 bn)
      (flat_copy count c0 cn) i = fn a0 b0 c0 := by
  have ha := flat_copy_value n count i a0 an hi
  have hb := flat_copy_value n count i b0 bn hi
  have hc := flat_copy_value n count i c0 cn hi
  unfold Vector.value at ha hb hc
  simp only [operand_result, row_result, ha, hb, hc]

/-- An iteration of the row-by-row loop uses the value of the function only on a row
without a NULL operand. -/
theorem execute_row_congr {R : Type} (isnull : Bool) (val val2 : Except Failure R)
    (st : List R × nullmask_t) (i : idx_t) (h : isnull = false → val2 = val) :
    execute_row isnull val2 st i = execute_row isnull val st i := by
  cases isnull with
  | true => rfl
  | false => rw [h rfl]

/-- Under the data-model invariant the three operand values of a row exist and every
combining function is applied to them. -/
theorem operand_values_all {A B C : Type} {n : Nat} {a : Vector A} {b : Vector B}
    {c : Vector C} {i : idx_t}
    (ha : a.valid n) (hb : b.valid n) (hc : c.valid n)
    (hia : i < a.count) (hib : i < b.count) (hic : i < c.count) :
    ∃ x y z, a.value n i = some x ∧ b.value n i = some y ∧ c.value n i = some z ∧
      ∀ {R : Type} (fn : A → B → C → Except Failure R),
        operand_result n fn a b c i = fn x y z := by
  obtain ⟨_, x, -, -, -, hx⟩ := row_lookup ha hia
  obtain ⟨_, y, -, -, -, hy⟩ := row_lookup hb hib
  obtain ⟨_, z, -, -, -, hz⟩ := row_lookup hc hic
  exact ⟨x, y, z, hx, hy, hz, fun fn => by simp [operand_result, row_result, hx, hy, hz]⟩

theorem slot_zero {α : Type} {buf : List α} (h : 0 < buf.length) : buf[0]? = some buf[0] :=
  List.getElem?_eq_getElem h

/-- Scenario 2 with the function that fails on `0`: the call succeeds although the slot
of the null operand of row 1 stores `0`. -/
theorem scenario2_fails_on_zero :
    Execute 4 scenario2_a scenario2_b scenario2_c (fresh_result 3) fails_on_zero =
      .ok ⟨.FLAT_VECTOR, 3, [111, 0, 333], identity_sel 3, [false, true, false]⟩ ∧
    fails_on_zero 0 20 200 = .error (.function_failed 1) := by
  decide

theorem row_null_congr {asel1 bsel1 csel1 asel2 bsel2 csel2 : SelectionVector}
    {am1 bm1 cm1 am2 bm2 cm2 : nullmask_t} {i : idx_t}
    (ha : null_at asel1 am1 i = null_at asel2 am2 i)
    (hb : null_at bsel1 bm1 i = null_at bsel2 bm2 i)
    (hc : null_at csel1 cm1 i = null_at csel2 cm2 i) :
    row_null asel1 bsel1 csel1 am1 bm1 cm1 i = row_null asel2 bsel2 csel2 am2 bm2 cm2 i := by
  simp only [row_null, ha, hb, hc]

theorem row_null_false {asel bsel csel : SelectionVector} {am bm cm : nullmask_t}
    {i : idx_t} (h : row_null asel bsel csel am bm cm i = false) :
    null_at asel am i = false ∧ null_at bsel bm i = false ∧ null_at csel cm i = false := by
  simp only [row_null, Bool.or_eq_false_iff] at h
  exact ⟨h.1.1, h.1.2, h.2⟩

/-- In the example layout the unmapped slot makes `any()` true, so `ExecuteLoop` runs its
null-checking loop on it and its other loop on the identity layout; the outcome is the
same. -/
theorem layout_example :
    layout_mask.any_set = true ∧ nullmask_t.any_set [false, false, false] = false ∧
    ExecuteLoop layout_data scenario2_b.data scenario2_c.data [0, 0, 0] 3
        layout_sel scenario2_b.sel scenario2_c.sel
        layout_mask scenario2_b.nullmask scenario2_c.nullmask
        [false, false, false] (total_fn add3) = .ok ([130, 250, 340], [false, false, false]) := by
  decide

/-- The normalized view of a CONSTANT vector maps every logical row below the batch
capacity to physical slot 0. -/
theorem constant_slot {α : Type} (n : Nat) (v : Vector α) (i : idx_t)
    (hconst : v.vector_type = VectorType.CONSTANT_VECTOR) (hi : i < n) :
    (v.Orrify n).sel.sel_vector[i]? = some 0 ∧ (v.Orrify n).data = v.data ∧
      (v.Orrify n).nullmask = v.nullmask := by
  simp [Vector.Orrify, hconst, ZeroSelectionVector, List.getElem?_replicate, hi]

/-- A valid CONSTANT vector has at most `STANDARD_VECTOR_SIZE` rows. -/
theorem constant_count_le {α : Type} (n : Nat) (v : Vector α)
    (hconst : v.vector_type = VectorType.CONSTANT_VECTOR) (hv : v.valid n) : v.count ≤ n := by
  have h := hv.1
  simpa [Vector.Orrify, hconst, ZeroSelectionVector] using h

theorem constant_null_at {α : Type} (n : Nat) (v : Vector α) (i : idx_t)
    (hconst : v.vector_type = VectorType.CONSTANT_VECTOR) (hi : i < n) :
    null_at (v.Orrify n).sel (v.Orrify n).nullmask i = (v.nullmask[0]? == some true) := by
  obtain ⟨h1, -, h3⟩ := constant_slot n v i hconst hi
  simp only [null_at, h1, h3]

theorem constant_value {α : Type} (n : Nat) (v : Vector α) (i : idx_t)
    (hconst : v.vector_type = VectorType.CONSTANT_VECTOR) (hi : i < n) :
    v.value n i = v.data[0]? := by
  obtain ⟨h1, h2, -⟩ := constant_slot n v i hconst hi
  simp only [Vector.value, value_at, h1, h2]

/-- Under the data-model invariant the mask bit of a row exists and is the null flag of
the row. -/
theorem mask_bit_eq {α : Type} {n : Nat} {v : Vector α} {i : idx_t}
    (hv : v.valid n) (hi : i < v.count) :
    v.mask_bit n i = some (null_at (v.Orrify n).sel (v.Orrify n).nullmask i) := by
  obtain ⟨hlen, hall⟩ := hv
  have hil : i < (v.Orrify n).sel.sel_vector.length := Nat.lt_of_lt_of_le hi hlen
  have hmem : (v.Orrify n).sel.sel_vector[i] ∈ (v.Orrify n).sel.sel_vector.take v.count := by
    rw [List.mem_take_iff_getElem]
    exact ⟨i, Nat.lt_min.mpr ⟨hi, hil⟩, rfl⟩
  obtain ⟨-, hm⟩ := hall _ hmem
  simp [Vector.mask_bit, null_at, List.getElem?_eq_getElem hil, List.getElem?_eq_getElem hm]

theorem ExecuteLoop_checked {A B C R : Type} (adata : List A) (bdata : List B)
    (cdata : List C) (result_data : List R) (count : idx_t)
    (asel bsel csel : SelectionVector) (anullmask bnullmask cnullmask : nullmask_t)
    (result_nullmask : nullmask_t) (fn : A → B → C → Except Failure R)
    (h : (anullmask.any_set || bnullmask.any_set || cnullmask.any_set) = true) :
    ExecuteLoop adata bdata cdata result_data count asel bsel csel
        anullmask bnullmask cnullmask result_nullmask fn =
      (List.range count).foldlM
        (ExecuteLoop.checked_body adata bdata cdata asel bsel csel
          anullmask bnullmask cnullmask fn) (result_data, result_nullmask) := by
  simp only [ExecuteLoop, h, if_true]

theorem ExecuteLoop_fast {A B C R : Type} (adata : List A) (bdata : List B)
    (cdata : List C) (result_data : List R) (count : idx_t)
    (asel bsel csel : SelectionVector) (anullmask bnullmask cnullmask : nullmask_t)
    (result_nullmask : nullmask_t) (fn : A → B → C → Except Failure R)
    (h : (anullmask.any_set || bnullmask.any_set || cnullmask.any_set) = false) :
    ExecuteLoop adata bdata cdata result_data count asel bsel csel
        anullmask bnullmask cnullmask result_nullmask fn =
      (List.range count).foldlM
        (ExecuteLoop.fast_body adata bdata cdata asel bsel csel fn)
        (result_data, result_nullmask) := by
  simp [ExecuteLoop, h]

/-- The all-constant path of `Select` on three constants that hold a value and a null
bit at slot 0: the selections are returned as they were. -/
theorem Select_constant_eq {A B C : Type} (n : Nat) (op : A → B → C → Bool)
    (a : Vector A) (b : Vector B) (c : Vector C) (true_sel false_sel : SelectionVector)
    {an bn cn : Bool} {a0 : A} {b0 : B} {c0 : C}
    (hcard : (a.SameCardinality b && a.SameCardinality c) = true)
    (hconst : all_constant a b c = true)
    (hna : a.nullmask[0]? = some an) (hnb : b.nullmask[0]? = some bn)
    (hnc : c.nullmask[0]? = some cn)
    (hva : a.data[0]? = some a0) (hvb : b.data[0]? = some b0) (hvc : c.data[0]? = some c0) :
    Select n op a b c true_sel false_sel =
      .ok (if (!(an || bn || cn) && op a0 b0 c0) = true then a.count else 0,
        true_sel, false_sel) := by
  cases hnull : (an || bn || cn) with
  | true =>
    simp only [Select, hcard, hconst, any_constant_null_eq hna hnb hnc, hnull, ok_bind]
    rfl
  | false =>
    cases hop : op a0 b0 c0 <;>
    · simp only [Select, hcard, hconst, any_constant_null_eq hna hnb hnc, hnull, test_at,
        read_of_getElem? hva, read_of_getElem? hvb, read_of_getElem? hvc, hop, ok_bind]
      rfl

/-- Under the data-model invariant the state of `SelectLoop` before iteration `i` is the
state of the row-by-row loop after `i` rows. -/
theorem state_before_eq_rows {A B C : Type} {adata : List A} {bdata : List B}
    {cdata : List C} {asel bsel csel : SelectionVector}
    {anullmask bnullmask cnullmask : nullmask_t} {count : idx_t}
    (op : A → B → C → Bool) (true_sel false_sel : SelectionVector)
    (ha : rows_in_range adata asel anullmask count)
    (hb : rows_in_range bdata bsel bnullmask count)
    (hc : rows_in_range cdata csel cnullmask count) (i : idx_t) (hi : i ≤ count) :
    SelectLoop.state_before op adata bdata cdata asel bsel csel
        anullmask bnullmask cnullmask true_sel false_sel i =
      (List.range i).foldlM
        (fun st j => select_row (row_selected op adata bdata cdata asel bsel csel
          anullmask bnullmask cnullmask j) st j)
        (⟨0, 0, true_sel, false_sel⟩ : SelectState) := by
  unfold SelectLoop.state_before
  split
  · exact foldlM_range_congr _ _ _
      (fun j hj s => select_checked_body_eq op s ha hb hc (Nat.lt_of_lt_of_le hj hi)) _
  · rename_i hany
    exact foldlM_range_congr _ _ _
      (fun j hj s => select_fast_body_eq op s ha hb hc (Nat.lt_of_lt_of_le hj hi)
        (by simpa using hany)) _

/-- Under its precondition `Execute` succeeds for every combining function that cannot
fail; the result keeps its cardinality and is CONSTANT on the all-constant path and FLAT
on the general path. -/
theorem Execute_succeeds {A B C R : Type} (n : Nat) (a : Vector A) (b : Vector B)
    (c : Vector C) (result : Vector R) (f : A → B → C → R)
    (hpre : Execute.precondition n a b c result) :
    ∃ r, Execute n a b c result (total_fn f) = .ok r ∧ r.count = result.count ∧
      r.vector_type =
        (if all_constant a b c = true then VectorType.CONSTANT_VECTOR
          else VectorType.FLAT_VECTOR) := by
  obtain ⟨hcard, hrest⟩ := hpre
  obtain ⟨hbc, hcc, hrc⟩ := cardinalities hcard
  by_cases hconst : all_constant a b c = true
  · rw [if_pos hconst] at hrest
    obtain ⟨⟨had, han⟩, ⟨hbd, hbn⟩, ⟨hcd, hcn⟩, hrd, hrn⟩ := hrest
    cases hnull : (a.nullmask[0] || b.nullmask[0] || c.nullmask[0]) with
    | true =>
      exact ⟨_, Execute_constant_null n a b c result (total_fn f) hcard hconst
        (slot_zero han) (slot_zero hbn) (slot_zero hcn) hnull hrn, rfl, by rw [if_pos hconst]⟩
    | false =>
      exact ⟨_, Execute_constant_value n a b c result (total_fn f) hcard hconst
        (slot_zero han) (slot_zero hbn) (slot_zero hcn) hnull (slot_zero had) (slot_zero hbd)
        (slot_zero hcd) rfl hrd, rfl, by rw [if_pos hconst]⟩
  · have hgen : all_constant a b c = false := by simpa using hconst
    rw [if_neg hconst] at hrest
    obtain ⟨ha, hb, hc, hr⟩ := hrest
    obtain ⟨r, hrun, hflat, hcount, -⟩ :=
      Execute_general_spec n a b c result (total_fn f) hcard hgen ha hb hc hr
        (fun i hi _ => by
          obtain ⟨x, y, z, -, -, -, hv⟩ :=
            operand_values (total_fn f) ha hb hc (hrc ▸ hi) (hbc ▸ hrc ▸ hi) (hcc ▸ hrc ▸ hi)
          exact ⟨f x y z, hv⟩)
    exact ⟨r, hrun, hcount, by rw [if_neg hconst]; exact hflat⟩

/-- Under its precondition `Select` succeeds. -/
theorem Select_succeeds {A B C : Type} (n : Nat) (op : A → B → C → Bool) (a : Vector A)
    (b : Vector B) (c : Vector C) (true_sel false_sel : SelectionVector)
    (hpre : Select.precondition n a b c true_sel false_sel) :
    ∃ out, Select n op a b c true_sel false_sel = .ok out := by
  obtain ⟨hcard, hrest⟩ := hpre
  by_cases hconst : all_constant a b c = true
  · rw [if_pos hconst] at hrest
    obtain ⟨⟨had, han⟩, ⟨hbd, hbn⟩, ⟨hcd, hcn⟩⟩ := hrest
    exact ⟨_, Select_constant_eq n op a b c true_sel false_sel hcard hconst
      (slot_zero han) (slot_zero hbn) (slot_zero hcn) (slot_zero had) (slot_zero hbd)
      (slot_zero hcd)⟩
  · have hgen : all_constant a b c = false := by simpa using hconst
    rw [if_neg hconst] at hrest
    obtain ⟨ha, hb, hc, ht, hf⟩ := hrest
    exact ⟨_, Select_general_spec n op a b c true_sel false_sel hcard hgen ha hb hc ht hf⟩

/-- The fields of a constructed collation info. -/
theorem constructor_fields {F : Type} (name : String) (function : F)
    (combinable not_required : Bool) :
    CreateCollationInfo.CreateCollationInfo name function combinable not_required =
      { type := CatalogType.COLLATION_ENTRY, internal := true, name := name,
        function := function, combinable := combinable,
        not_required_for_equality := if name = "da" then false else not_required } := by
  unfold CreateCollationInfo.CreateCollationInfo
  by_cases h : name = "da"
  · simp [h, CreateInfo.CreateInfo, equality_requires_collation]
  · simp [h, CreateInfo.CreateInfo, equality_requires_collation]

/-- The constructor on the names "da" and "de" with `not_required_for_equality_p = true`,
and a copy of an info whose field was set to `true` after construction under the name
"da": the copy re-applies the override. -/
theorem collation_examples :
    (CreateCollationInfo.CreateCollationInfo "da" () true true).not_required_for_equality =
      false ∧
    (CreateCollationInfo.CreateCollationInfo "de" () true true).not_required_for_equality =
      true ∧
    (CreateCollationInfo.Copy (fun _ other => other)
      ({ CreateCollationInfo.CreateCollationInfo "da" () true true with
        not_required_for_equality := true })).not_required_for_equality = false := by
  decide

/-- Under the data-model invariant the three operand values of a row of normalized
inputs exist and the combining function is applied to them. -/
theorem row_values {A B C R : Type} {adata : List A} {bdata : List B} {cdata : List C}
    {asel bsel csel : SelectionVector} {anullmask bnullmask cnullmask : nullmask_t}
    {count i : idx_t} (fn : A → B → C → Except Failure R)
    (ha : rows_in_range adata asel anullmask count)
    (hb : rows_in_range bdata bsel bnullmask count)
    (hc : rows_in_range cdata csel cnullmask count) (hi : i < count) :
    ∃ x y z, value_at adata asel i = some x ∧ value_at bdata bsel i = some y ∧
      value_at cdata csel i = some z ∧
      row_result fn adata bdata cdata asel bsel csel i = fn x y z := by
  obtain ⟨_, x, -, -, -, hx⟩ := row_lookup ha hi
  obtain ⟨_, y, -, -, -, hy⟩ := row_lookup hb hi
  obtain ⟨_, z, -, -, -, hz⟩ := row_lookup hc hi
  exact ⟨x, y, z, hx, hy, hz, by simp [row_result, hx, hy, hz]⟩

/-- The result of `ExecuteLoop` on scenario 2 started from a result whose null bits of
rows 2 and 3 are set: the bit of row 1 is added, the bits of rows 2 and 3 stay, and the
data of row 1 and of position 3 are not written. -/
theorem scenario2_frame :
    ExecuteLoop scenario2_a.data scenario2_b.data scenario2_c.data [0, 0, 0, 0] 3
        scenario2_a.sel scenario2_b.sel scenario2_c.sel
        scenario2_a.nullmask scenario2_b.nullmask scenario2_c.nullmask
        [false, false, true, true] (total_fn add3) =
      .ok ([111, 0, 333, 0], [false, true, true, true]) := by
  decide

theorem getElem?_append_drop {α : Type} (front buf : List α) (j : Nat)
    (hj : front.length ≤ j) :
    (front ++ buf.drop front.length)[j]? = buf[j]? := by
  rw [List.getElem?_append_right hj, List.getElem?_drop]
  congr 1
  omega

theorem length_append_drop {α : Type} (front buf : List α)
    (h : front.length ≤ buf.length) :
    (front ++ buf.drop front.length).length = buf.length := by
  rw [List.length_append, List.length_drop]
  omega

theorem length_filter_range_le (p : Nat → Bool) (n : Nat) :
    ((List.range n).filter p).length ≤ n := by
  have h := List.length_filter_le p (List.range n)
  rwa [List.length_range] at h

/-- A CONSTANT vector that holds a value and a null bit at slot 0 and has at most
`STANDARD_VECTOR_SIZE` rows satisfies the data-model invariant. -/
theorem constant_valid {α : Type} (n : Nat) (v : Vector α)
    (hconst : v.vector_type = VectorType.CONSTANT_VECTOR) (hcount : v.count ≤ n)
    (hd : 0 < v.data.length) (hm : 0 < v.nullmask.length) : v.valid n := by
  refine ⟨by simpa [Vector.Orrify, hconst, ZeroSelectionVector] using hcount, ?_⟩
  intro k hk
  have hk2 := List.mem_of_mem_take hk
  simp only [Vector.Orrify, hconst, ZeroSelectionVector] at hk2
  have hk0 : k = 0 := (List.mem_replicate.mp hk2).2
  subst hk0
  simpa [Vector.Orrify, hconst] using And.intro hd hm

theorem all_constant_types {A B C : Type} {a : Vector A} {b : Vector B} {c : Vector C}
    (h : all_constant a b c = true) :
    a.vector_type = VectorType.CONSTANT_VECTOR ∧ b.vector_type = VectorType.CONSTANT_VECTOR ∧
      c.vector_type = VectorType.CONSTANT_VECTOR := by
  simp only [all_constant, Bool.and_eq_true, beq_iff_eq] at h
  exact ⟨h.1.1, h.1.2, h.2⟩

/-- On three constants every row below the batch capacity is selected exactly when no
constant is null and the predicate is true on the three constants. -/
theorem constant_operand_selected {A B C : Type} (n : Nat) (op : A → B → C → Bool)
    (a : Vector A) (b : Vector B) (c : Vector C) {an bn cn : Bool} {a0 : A} {b0 : B} {c0 : C}
    (hconst : all_constant a b c = true)
    (hna : a.nullmask[0]? = some an) (hnb : b.nullmask[0]? = some bn)
    (hnc : c.nullmask[0]? = some cn)
    (hva : a.data[0]? = some a0) (hvb : b.data[0]? = some b0) (hvc : c.data[0]? = some c0)
    (i : idx_t) (hi : i < n) :
    operand_selected n op a b c i = (!(an || bn || cn) && op a0 b0 c0) := by
  obtain ⟨hta, htb, htc⟩ := all_constant_types hconst
  have h1 := constant_value n a i hta hi
  have h2 := constant_value n b i htb hi
  have h3 := constant_value n c i htc hi
  unfold Vector.value at h1 h2 h3
  simp only [operand_selected, row_selected, row_null, row_test,
    constant_null_at n a i hta hi, constant_null_at n b i htb hi,
    constant_null_at n c i htc hi, h1, h2, h3, hna, hnb, hnc, hva, hvb, hvc]
  cases an <;> cases bn <;> cases cn <;> rfl

theorem filter_range_const (p : Nat → Bool) (s : Bool) (n : Nat)
    (h : ∀ i, i < n → p i = s) :
    ((List.range n).filter p).length = if s = true then n else 0 := by
  have hfil : (List.range n).filter p = (List.range n).filter (fun _ => s) :=
    List.filter_congr (fun i hi => h i (List.mem_range.mp hi))
  rw [hfil]
  cases s <;> simp

/-- Closed form of `SelectLoop` under the data-model invariant, on output buffers that
hold `count` slots. -/
theorem SelectLoop_spec {A B C : Type} {adata : List A} {bdata : List B}
    {cdata : List C} {asel bsel csel : SelectionVector}
    {anullmask bnullmask cnullmask : nullmask_t} {count : idx_t}
    (op : A → B → C → Bool) (true_sel false_sel : SelectionVector)
    (ha : rows_in_range adata asel anullmask count)
    (hb : rows_in_range bdata bsel bnullmask count)
    (hc : rows_in_range cdata csel cnullmask count)
    (ht : count ≤ true_sel.sel_vector.length) (hf : count ≤ false_sel.sel_vector.length) :
    SelectLoop op adata bdata cdata count asel bsel csel
        anullmask bnullmask cnullmask true_sel false_sel =
      .ok (((List.range count).filter (row_selected op adata bdata cdata asel bsel csel
          anullmask bnullmask cnullmask)).length,
        ⟨(List.range count).filter (row_selected op adata bdata cdata asel bsel csel
            anullmask bnullmask cnullmask) ++
          true_sel.sel_vector.drop
            ((List.range count).filter (row_selected op adata bdata cdata asel bsel csel
              anullmask bnullmask cnullmask)).length⟩,
        ⟨(List.range count).filter (fun i => !row_selected op adata bdata cdata asel bsel csel
            anullmask bnullmask cnullmask i) ++
          false_sel.sel_vector.drop
            ((List.range count).filter (fun i => !row_selected op adata bdata cdata
              asel bsel csel anullmask bnullmask cnullmask i)).length⟩) := by
  rw [SelectLoop_eq_rows op true_sel false_sel ha hb hc,
    select_rows_spec (row_selected op adata bdata cdata asel bsel csel
      anullmask bnullmask cnullmask) true_sel false_sel count ht hf]
  rfl

/-- The two paths on the constants `1`, `2`, `0` with five rows: both count five rows,
but only the loop writes the selection. -/
theorem constant_select_example :
    Select 8 less_than (constant_vector 5 1 false) (constant_vector 5 2 false)
        (constant_vector 5 0 false) (zeroed_buffer 8) (zeroed_buffer 8) =
      .ok (5, zeroed_buffer 8, zeroed_buffer 8) ∧
    SelectLoop less_than [1] [2] [0] 5 (ZeroSelectionVector 8) (ZeroSelectionVector 8)
        (ZeroSelectionVector 8) [false] [false] [false] (zeroed_buffer 8) (zeroed_buffer 8) =
      .ok (5, ⟨[0, 1, 2, 3, 4, 0, 0, 0]⟩, zeroed_buffer 8) := by
  decide

/-- A null constant with the constants `3` and `4` on the result vector left by scenario 2
of the spec, whose null bits are not uniform: the constant fast path gives a null
constant and the general path on the flat copies marks every row null, so both results
read as three null rows. -/
theorem null_constant_on_reused_result :
    Execute 4 (constant_vector 3 2 true) scenario1_b scenario1_c reused_result
        (total_fn mul_add) =
      .ok ⟨.CONSTANT_VECTOR, 3, [111, 0, 333], identity_sel 3, [true, true, false]⟩ ∧
    Execute 4 (flat_copy 3 2 true) (flat_copy 3 3 false) (flat_copy 3 4 false)
        reused_result (total_fn mul_add) =
      .ok ⟨.FLAT_VECTOR, 3, [111, 0, 333], identity_sel 3, [true, true, true]⟩ := by
  decide

/-! ## Claims -/

/-- C1, as stated, fails: when the result vector left by a first call on scenario 2 of
the spec (`[111, NULL, 333]`) is passed to a second call on the general path with three
inputs without NULL, row 1 of the result is still marked null after the second call
although no operand of row 1 is null. -/
theorem C1_stale_null_bit_counterexample :
    Execute 4 scenario2_a scenario2_b scenario2_c (fresh_result 3) (total_fn add3) =
      .ok reused_result ∧
    all_constant no_null_a scenario2_b scenario2_c = false ∧
    Execute 4 no_null_a scenario2_b scenario2_c reused_result (total_fn add3) =
      .ok ⟨.FLAT_VECTOR, 3, [111, 222, 333], identity_sel 3, [false, true, false]⟩ ∧
    operand_null 4 no_null_a scenario2_b scenario2_c 1 = false := by
  decide

/-- C1, amended: on the general path of `Execute`, with inputs and result of equal
cardinality that satisfy the data-model invariant, the call succeeds and for every row
`i < count` the result's row `i` is marked null after the call if and only if some
operand is null at its mapped physical slot or row `i` of the result was marked null
before the call; hence, for a row whose null bit was clear before the call, if and only
if some operand is null. -/
theorem C1_Execute_null_iff {A B C R : Type} (n : Nat) (a : Vector A) (b : Vector B)
    (c : Vector C) (result : Vector R) (f : A → B → C → R)
    (hcard : (a.SameCardinality b && a.SameCardinality c && a.SameCardinality result) = true)
    (hgen : all_constant a b c = false)
    (ha : a.valid n) (hb : b.valid n) (hc : c.valid n) (hr : result.has_capacity) :
    ∃ r, Execute n a b c result (total_fn f) = .ok r ∧
      (∀ i, i < result.count →
        (r.nullmask[i]? = some true ↔
          (operand_null n a b c i = true ∨ result.nullmask[i]? = some true))) ∧
      (∀ i, i < result.count → result.nullmask[i]? = some false →
        (r.nullmask[i]? = some true ↔ operand_null n a b c i = true)) := by
  obtain ⟨hbc, hcc, hrc⟩ := cardinalities hcard
  obtain ⟨r, hrun, -, -, -, -, -, -, hmask⟩ :=
    Execute_general_spec n a b c result (total_fn f) hcard hgen ha hb hc hr
      (fun i hi _ => by
        obtain ⟨x, y, z, -, -, -, hv⟩ :=
          operand_values (total_fn f) ha hb hc (hrc ▸ hi) (hbc ▸ hrc ▸ hi) (hcc ▸ hrc ▸ hi)
        exact ⟨f x y z, hv⟩)
  have key : ∀ i, i < result.count →
      (r.nullmask[i]? = some true ↔
        (operand_null n a b c i = true ∨ result.nullmask[i]? = some true)) := by
    intro i hi
    rw [hmask i]
    cases hnull : operand_null n a b c i <;> simp [hi]
  refine ⟨r, hrun, key, ?_⟩
  intro i hi hclear
  rw [key i hi, hclear]
  simp

/-- Witness of C1 on scenario 2 of the spec: `a = [1, NULL, 3]`, `b = [10, 20, 30]`,
`c = [100, 200, 300]` and a fresh result. -/
theorem C1_Execute_null_iff_witness :
    ((scenario2_a.SameCardinality scenario2_b && scenario2_a.SameCardinality scenario2_c &&
        scenario2_a.SameCardinality (fresh_result 3)) = true ∧
      all_constant scenario2_a scenario2_b scenario2_c = false ∧
      scenario2_a.valid 4 ∧ scenario2_b.valid 4 ∧ scenario2_c.valid 4 ∧
      (fresh_result 3).has_capacity) ∧
    ∃ r, Execute 4 scenario2_a scenario2_b scenario2_c (fresh_result 3) (total_fn add3) =
        .ok r ∧
      (∀ i, i < (fresh_result 3).count →
        (r.nullmask[i]? = some true ↔
          (operand_null 4 scenario2_a scenario2_b scenario2_c i = true ∨
            (fresh_result 3).nullmask[i]? = some true))) ∧
      (∀ i, i < (fresh_result 3).count → (fresh_result 3).nullmask[i]? = some false →
        (r.nullmask[i]? = some true ↔
          operand_null 4 scenario2_a scenario2_b scenario2_c i = true)) :=
  ⟨by decide,
    C1_Execute_null_iff 4 scenario2_a scenario2_b scenario2_c (fresh_result 3) add3
      (by decide) (by decide) (by decide) (by decide) (by decide) (by decide)⟩

/-- C2: on the general path of `Select`, under the data-model invariant and with output
buffers of `count` slots, the call succeeds, the returned `true_count` is the number of
rows `i < count` at which no operand is null and the predicate is true, and
`true_sel[0..true_count)` is the list of these rows in increasing order: a row is in it
if and only if no operand is null and the predicate is true on its three values. -/
theorem C2_Select_true_selection {A B C : Type} (n : Nat) (op : A → B → C → Bool)
    (a : Vector A) (b : Vector B) (c : Vector C) (true_sel false_sel : SelectionVector)
    (hcard : (a.SameCardinality b && a.SameCardinality c) = true)
    (hgen : all_constant a b c = false)
    (ha : a.valid n) (hb : b.valid n) (hc : c.valid n)
    (ht : a.count ≤ true_sel.sel_vector.length)
    (hf : a.count ≤ false_sel.sel_vector.length) :
    ∃ true_count true_out false_out,
      Select n op a b c true_sel false_sel = .ok (true_count, true_out, false_out) ∧
      true_count = ((List.range a.count).filter (operand_selected n op a b c)).length ∧
      true_out.sel_vector.take true_count =
        (List.range a.count).filter (operand_selected n op a b c) ∧
      (true_out.sel_vector.take true_count).Pairwise (fun i j => i < j) ∧
      (∀ i, i ∈ true_out.sel_vector.take true_count ↔
        (i < a.count ∧ operand_null n a b c i = false ∧
          ∃ x y z, a.value n i = some x ∧ b.value n i = some y ∧ c.value n i = some z ∧
            op x y z = true)) := by
  have hcard2 := hcard
  simp only [Vector.SameCardinality, Bool.and_eq_true, beq_iff_eq] at hcard2
  refine ⟨_, _, _, Select_general_spec n op a b c true_sel false_sel hcard hgen ha hb hc ht hf,
    rfl, ?_, ?_, ?_⟩
  · exact take_append_drop_left _ _
  · rw [take_append_drop_left]
    exact filter_range_sorted _ _
  · intro i
    rw [take_append_drop_left, List.mem_filter, List.mem_range]
    constructor
    · rintro ⟨hi, hsel⟩
      exact ⟨hi, (selected_true_iff op ha hb hc hi (hcard2.1 ▸ hi) (hcard2.2 ▸ hi)).mp hsel⟩
    · rintro ⟨hi, hrest⟩
      exact ⟨hi, (selected_true_iff op ha hb hc hi (hcard2.1 ▸ hi) (hcard2.2 ▸ hi)).mpr hrest⟩

/-- Witness of C2 on scenario 3 of the spec: predicate `a < b` over `a = [5, 1, NULL, 9]`
and `b = [6, 1, 2, 3]`. -/
theorem C2_Select_true_selection_witness :
    ((scenario3_a.SameCardinality scenario3_b && scenario3_a.SameCardinality scenario3_c) =
        true ∧
      all_constant scenario3_a scenario3_b scenario3_c = false ∧
      scenario3_a.valid 4 ∧ scenario3_b.valid 4 ∧ scenario3_c.valid 4 ∧
      scenario3_a.count ≤ (zeroed_buffer 4).sel_vector.length ∧
      scenario3_a.count ≤ (zeroed_buffer 4).sel_vector.length) ∧
    ∃ true_count true_out false_out,
      Select 4 less_than scenario3_a scenario3_b scenario3_c
        (zeroed_buffer 4) (zeroed_buffer 4) =
          .ok (true_count, true_out, false_out) ∧
      true_count = ((List.range scenario3_a.count).filter
        (operand_selected 4 less_than scenario3_a scenario3_b scenario3_c)).length ∧
      true_out.sel_vector.take true_count =
        (List.range scenario3_a.count).filter
          (operand_selected 4 less_than scenario3_a scenario3_b scenario3_c) ∧
      (true_out.sel_vector.take true_count).Pairwise (fun i j => i < j) ∧
      (∀ i, i ∈ true_out.sel_vector.take true_count ↔
        (i < scenario3_a.count ∧
          operand_null 4 scenario3_a scenario3_b scenario3_c i = false ∧
          ∃ x y z, scenario3_a.value 4 i = some x ∧ scenario3_b.value 4 i = some y ∧
            scenario3_c.value 4 i = some z ∧ less_than x y z = true)) :=
  ⟨by decide,
    C2_Select_true_selection 4 less_than scenario3_a scenario3_b scenario3_c
      (zeroed_buffer 4) (zeroed_buffer 4)
      (by decide) (by decide) (by decide) (by decide) (by decide) (by decide) (by decide)⟩

/-- C3, as stated, fails: when the result vector left by a first call on three
constants of which one is null (a null constant) is passed to a second call with the
three non-null constants `(2, 3, 4)`, the result is CONSTANT with value `14` at slot 0
but it is still null after the second call. -/
theorem C3_stale_null_bit_counterexample :
    Execute 4 (constant_vector 3 2 true) scenario1_b scenario1_c (fresh_result 3)
        (total_fn mul_add) = .ok reused_null_constant ∧
    Execute 4 scenario1_a scenario1_b scenario1_c reused_null_constant (total_fn mul_add) =
      .ok ⟨.CONSTANT_VECTOR, 3, [14, 0, 0], identity_sel 3, [true, false, false]⟩ ∧
    ConstantVector.IsNull (⟨.CONSTANT_VECTOR, 3, [14, 0, 0], identity_sel 3,
      [true, false, false]⟩ : Vector Int) = .ok true := by
  decide

/-- C3, amended: for three CONSTANT inputs with values `a0`, `b0`, `c0` and null bits
`an`, `bn`, `cn`, of the cardinality of the result, `Execute` succeeds and makes the
result CONSTANT with unchanged cardinality; the result is null if some input is null;
otherwise its single value is `fn(a0, b0, c0)` and its null bit is the one it had before
the call, so that it is non-null when this bit was clear. -/
theorem C3_Execute_constant {A B C R : Type} (n : Nat) (a : Vector A) (b : Vector B)
    (c : Vector C) (result : Vector R) (f : A → B → C → R)
    (an bn cn rn : Bool) (a0 : A) (b0 : B) (c0 : C)
    (hcard : (a.SameCardinality b && a.SameCardinality c && a.SameCardinality result) = true)
    (hconst : all_constant a b c = true)
    (hna : a.nullmask[0]? = some an) (hnb : b.nullmask[0]? = some bn)
    (hnc : c.nullmask[0]? = some cn)
    (hva : a.data[0]? = some a0) (hvb : b.data[0]? = some b0) (hvc : c.data[0]? = some c0)
    (hrn : result.nullmask[0]? = some rn) (hrd : 0 < result.data.length) :
    ∃ r, Execute n a b c result (total_fn f) = .ok r ∧
      r.vector_type = VectorType.CONSTANT_VECTOR ∧ r.count = a.count ∧
      ConstantVector.IsNull r = .ok (an || bn || cn || rn) ∧
      ((an || bn || cn) = false → r.data[0]? = some (f a0 b0 c0)) ∧
      ((an || bn || cn) = false → rn = false → ConstantVector.IsNull r = .ok false) := by
  obtain ⟨-, -, hrc⟩ := cardinalities hcard
  have hrn2 : 0 < result.nullmask.length := by
    obtain ⟨h, -⟩ := List.getElem?_eq_some.mp hrn
    exact h
  cases hnull : (an || bn || cn) with
  | true =>
    refine ⟨_, Execute_constant_null n a b c result (total_fn f) hcard hconst hna hnb hnc
      hnull hrn2, rfl, hrc, ?_, ?_, ?_⟩
    · simp [ConstantVector.IsNull, read, hrn2]
    · intro h; cases h
    · intro h; cases h
  | false =>
    refine ⟨_, Execute_constant_value n a b c result (total_fn f) hcard hconst hna hnb hnc
      hnull hva hvb hvc rfl hrd, rfl, hrc, ?_, ?_, ?_⟩
    · simp [ConstantVector.IsNull, read, hrn]
    · intro _
      simp [hrd]
    · intro _ hclear
      simp [ConstantVector.IsNull, read, hrn, hclear]

/-- Witness of C3 on scenario 1 of the spec: the constants `(2, 3, 4)` with
`fn = a + b * c` and a fresh result. -/
theorem C3_Execute_constant_witness :
    ((scenario1_a.SameCardinality scenario1_b && scenario1_a.SameCardinality scenario1_c &&
        scenario1_a.SameCardinality (fresh_result 3)) = true ∧
      all_constant scenario1_a scenario1_b scenario1_c = true ∧
      scenario1_a.nullmask[0]? = some false ∧ scenario1_b.nullmask[0]? = some false ∧
      scenario1_c.nullmask[0]? = some false ∧
      scenario1_a.data[0]? = some 2 ∧ scenario1_b.data[0]? = some 3 ∧
      scenario1_c.data[0]? = some 4 ∧
      (fresh_result 3).nullmask[0]? = some false ∧ 0 < (fresh_result 3).data.length) ∧
    ∃ r, Execute 4 scenario1_a scenario1_b scenario1_c (fresh_result 3) (total_fn mul_add) =
        .ok r ∧
      r.vector_type = VectorType.CONSTANT_VECTOR ∧ r.count = scenario1_a.count ∧
      ConstantVector.IsNull r = .ok (false || false || false || false) ∧
      ((false || false || false) = false → r.data[0]? = some (mul_add 2 3 4)) ∧
      ((false || false || false) = false → false = false →
        ConstantVector.IsNull r = .ok false) :=
  ⟨by decide,
    C3_Execute_constant 4 scenario1_a scenario1_b scenario1_c (fresh_result 3) mul_add
      false false false false 2 3 4
      (by decide) (by decide) (by decide) (by decide) (by decide) (by decide) (by decide)
      (by decide) (by decide) (by decide)⟩

/-- C4: on the general path of `Execute`, under the data-model invariant, the call
succeeds, the result becomes FLAT, and for every row `i < count` at which no operand is
null the value of the result at position `i` is `fn` applied to the three operand values
read through the selection vectors; no assumption is made on the null masks, so the
statement covers both loops of `ExecuteLoop`. -/
theorem C4_Execute_values {A B C R : Type} (n : Nat) (a : Vector A) (b : Vector B)
    (c : Vector C) (result : Vector R) (f : A → B → C → R)
    (hcard : (a.SameCardinality b && a.SameCardinality c && a.SameCardinality result) = true)
    (hgen : all_constant a b c = false)
    (ha : a.valid n) (hb : b.valid n) (hc : c.valid n) (hr : result.has_capacity) :
    ∃ r, Execute n a b c result (total_fn f) = .ok r ∧
      r.vector_type = VectorType.FLAT_VECTOR ∧
      ∀ i, i < result.count → operand_null n a b c i = false →
        ∃ x y z, a.value n i = some x ∧ b.value n i = some y ∧ c.value n i = some z ∧
          r.data[i]? = some (f x y z) := by
  obtain ⟨hbc, hcc, hrc⟩ := cardinalities hcard
  have hvals : ∀ i, i < result.count →
      ∃ x y z, a.value n i = some x ∧ b.value n i = some y ∧ c.value n i = some z ∧
        operand_result n (total_fn f) a b c i = .ok (f x y z) := fun i hi =>
    operand_values (total_fn f) ha hb hc (hrc ▸ hi) (hbc ▸ hrc ▸ hi) (hcc ▸ hrc ▸ hi)
  obtain ⟨r, hrun, hflat, -, -, -, -, hdata, -⟩ :=
    Execute_general_spec n a b c result (total_fn f) hcard hgen ha hb hc hr
      (fun i hi _ => by
        obtain ⟨x, y, z, -, -, -, hv⟩ := hvals i hi
        exact ⟨f x y z, hv⟩)
  refine ⟨r, hrun, hflat, ?_⟩
  intro i hi hnull
  obtain ⟨x, y, z, hx, hy, hz, hv⟩ := hvals i hi
  refine ⟨x, y, z, hx, hy, hz, ?_⟩
  rw [hdata i, hv]
  simp [hi, hnull, Except.toOption]

/-- Witness of C4 on scenario 5 of the spec: the buffer `[30, 10, 20]` read through the
selection `[2, 0, 1]`. -/
theorem C4_Execute_values_witness :
    ((scenario5_a.SameCardinality scenario2_b && scenario5_a.SameCardinality scenario2_c &&
        scenario5_a.SameCardinality (fresh_result 3)) = true ∧
      all_constant scenario5_a scenario2_b scenario2_c = false ∧
      scenario5_a.valid 4 ∧ scenario2_b.valid 4 ∧ scenario2_c.valid 4 ∧
      (fresh_result 3).has_capacity) ∧
    ∃ r, Execute 4 scenario5_a scenario2_b scenario2_c (fresh_result 3) (total_fn add3) =
        .ok r ∧
      r.vector_type = VectorType.FLAT_VECTOR ∧
      ∀ i, i < (fresh_result 3).count →
        operand_null 4 scenario5_a scenario2_b scenario2_c i = false →
        ∃ x y z, scenario5_a.value 4 i = some x ∧ scenario2_b.value 4 i = some y ∧
          scenario2_c.value 4 i = some z ∧ r.data[i]? = some (add3 x y z) :=
  ⟨by decide,
    C4_Execute_values 4 scenario5_a scenario2_b scenario2_c (fresh_result 3) add3
      (by decide) (by decide) (by decide) (by decide) (by decide) (by decide)⟩

/-- C5: on the general path of `Select`, under the data-model invariant and with output
buffers of `count` slots, both selections are filled contiguously from index 0:
`false_sel[0..count - true_count)` is the list, in increasing order, of the rows at
which some operand is null or the predicate is false, `true_sel[0..true_count)` is the
list of the other rows, and every row with a null operand is in the former and not in
the latter. -/
theorem C5_Select_false_selection {A B C : Type} (n : Nat) (op : A → B → C → Bool)
    (a : Vector A) (b : Vector B) (c : Vector C) (true_sel false_sel : SelectionVector)
    (hcard : (a.SameCardinality b && a.SameCardinality c) = true)
    (hgen : all_constant a b c = false)
    (ha : a.valid n) (hb : b.valid n) (hc : c.valid n)
    (ht : a.count ≤ true_sel.sel_vector.length)
    (hf : a.count ≤ false_sel.sel_vector.length) :
    ∃ true_count true_out false_out,
      Select n op a b c true_sel false_sel = .ok (true_count, true_out, false_out) ∧
      false_out.sel_vector.take (a.count - true_count) =
        (List.range a.count).filter (fun i => !operand_selected n op a b c i) ∧
      true_out.sel_vector.take true_count =
        (List.range a.count).filter (operand_selected n op a b c) ∧
      (false_out.sel_vector.take (a.count - true_count)).Pairwise (fun i j => i < j) ∧
      (∀ i, i ∈ false_out.sel_vector.take (a.count - true_count) ↔
        (i < a.count ∧ (operand_null n a b c i = true ∨
          ∃ x y z, a.value n i = some x ∧ b.value n i = some y ∧ c.value n i = some z ∧
            op x y z = false))) ∧
      (∀ i, i < a.count → operand_null n a b c i = true →
        i ∈ false_out.sel_vector.take (a.count - true_count) ∧
        i ∉ true_out.sel_vector.take true_count) := by
  have hcard2 := hcard
  simp only [Vector.SameCardinality, Bool.and_eq_true, beq_iff_eq] at hcard2
  have hlen : a.count - ((List.range a.count).filter (operand_selected n op a b c)).length =
      ((List.range a.count).filter (fun i => !operand_selected n op a b c i)).length := by
    have hsum := length_filter_add (operand_selected n op a b c) a.count
    exact Nat.sub_eq_of_eq_add (by rw [Nat.add_comm]; exact hsum.symm)
  have hmem : ∀ i, i ∈ (List.range a.count).filter (fun i => !operand_selected n op a b c i) ↔
      (i < a.count ∧ (operand_null n a b c i = true ∨
        ∃ x y z, a.value n i = some x ∧ b.value n i = some y ∧ c.value n i = some z ∧
          op x y z = false)) := by
    intro i
    rw [List.mem_filter, List.mem_range]
    constructor
    · rintro ⟨hi, hsel⟩
      exact ⟨hi, (selected_false_iff op ha hb hc hi (hcard2.1 ▸ hi) (hcard2.2 ▸ hi)).mp
        (by simpa using hsel)⟩
    · rintro ⟨hi, hrest⟩
      exact ⟨hi, by
        simpa using (selected_false_iff op ha hb hc hi (hcard2.1 ▸ hi) (hcard2.2 ▸ hi)).mpr
          hrest⟩
  refine ⟨_, _, _, Select_general_spec n op a b c true_sel false_sel hcard hgen ha hb hc ht hf,
    ?_, ?_, ?_, ?_, ?_⟩
  · rw [hlen]; exact take_append_drop_left _ _
  · exact take_append_drop_left _ _
  · rw [hlen, take_append_drop_left]
    exact filter_range_sorted _ _
  · intro i
    rw [hlen, take_append_drop_left]
    exact hmem i
  · intro i hi hnull
    rw [hlen, take_append_drop_left, take_append_drop_left]
    refine ⟨(hmem i).mpr ⟨hi, Or.inl hnull⟩, ?_⟩
    rw [List.mem_filter]
    rintro ⟨-, hsel⟩
    have := (selected_true_iff op ha hb hc hi (hcard2.1 ▸ hi) (hcard2.2 ▸ hi)).mp hsel
    rw [hnull] at this
    exact Bool.noConfusion this.1

/-- Witness of C5 on scenario 3 of the spec. -/
theorem C5_Select_false_selection_witness :
    ((scenario3_a.SameCardinality scenario3_b && scenario3_a.SameCardinality scenario3_c) =
        true ∧
      all_constant scenario3_a scenario3_b scenario3_c = false ∧
      scenario3_a.valid 4 ∧ scenario3_b.valid 4 ∧ scenario3_c.valid 4 ∧
      scenario3_a.count ≤ (zeroed_buffer 4).sel_vector.length ∧
      scenario3_a.count ≤ (zeroed_buffer 4).sel_vector.length) ∧
    ∃ true_count true_out false_out,
      Select 4 less_than scenario3_a scenario3_b scenario3_c
        (zeroed_buffer 4) (zeroed_buffer 4) =
          .ok (true_count, true_out, false_out) ∧
      false_out.sel_vector.take (scenario3_a.count - true_count) =
        (List.range scenario3_a.count).filter
          (fun i => !operand_selected 4 less_than scenario3_a scenario3_b scenario3_c i) ∧
      true_out.sel_vector.take true_count =
        (List.range scenario3_a.count).filter
          (operand_selected 4 less_than scenario3_a scenario3_b scenario3_c) ∧
      (false_out.sel_vector.take (scenario3_a.count - true_count)).Pairwise
        (fun i j => i < j) ∧
      (∀ i, i ∈ false_out.sel_vector.take (scenario3_a.count - true_count) ↔
        (i < scenario3_a.count ∧
          (operand_null 4 scenario3_a scenario3_b scenario3_c i = true ∨
            ∃ x y z, scenario3_a.value 4 i = some x ∧ scenario3_b.value 4 i = some y ∧
              scenario3_c.value 4 i = some z ∧ less_than x y z = false))) ∧
      (∀ i, i < scenario3_a.count →
        operand_null 4 scenario3_a scenario3_b scenario3_c i = true →
        i ∈ false_out.sel_vector.take (scenario3_a.count - true_count) ∧
        i ∉ true_out.sel_vector.take true_count) :=
  ⟨by decide,
    C5_Select_false_selection 4 less_than scenario3_a scenario3_b scenario3_c
      (zeroed_buffer 4) (zeroed_buffer 4)
      (by decide) (by decide) (by decide) (by decide) (by decide) (by decide) (by decide)⟩

/-- C6, as stated, fails on the all-constant path: for three non-null constants on which
the predicate is true and two rows, `Select` returns `2` and writes neither selection, so
with buffers that hold zeros row 1 appears in neither output and row 0 appears twice. -/
theorem C6_constant_path_counterexample :
    Select 4 less_than (constant_vector 2 1 false) (constant_vector 2 2 false)
        (constant_vector 2 0 false) (zeroed_buffer 2) (zeroed_buffer 2) =
      .ok (2, ⟨[0, 0]⟩, ⟨[0, 0]⟩) ∧
    (([0, 0] : List idx_t).take 2 ++ ([0, 0] : List idx_t).take (2 - 2)).count 1 = 0 ∧
    (([0, 0] : List idx_t).take 2 ++ ([0, 0] : List idx_t).take (2 - 2)).count 0 = 2 := by
  decide

/-- C6, amended: on the general path of `Select` (not all three inputs CONSTANT), under
the data-model invariant and with output buffers of `count` slots, the concatenation of
`true_sel[0..true_count)` and `false_sel[0..count - true_count)` is a permutation of the
rows `0..count`: every row index below `count` appears exactly once in it and no other
value appears. -/
theorem C6_Select_totality {A B C : Type} (n : Nat) (op : A → B → C → Bool)
    (a : Vector A) (b : Vector B) (c : Vector C) (true_sel false_sel : SelectionVector)
    (hcard : (a.SameCardinality b && a.SameCardinality c) = true)
    (hgen : all_constant a b c = false)
    (ha : a.valid n) (hb : b.valid n) (hc : c.valid n)
    (ht : a.count ≤ true_sel.sel_vector.length)
    (hf : a.count ≤ false_sel.sel_vector.length) :
    ∃ true_count true_out false_out,
      Select n op a b c true_sel false_sel = .ok (true_count, true_out, false_out) ∧
      (true_out.sel_vector.take true_count ++
        false_out.sel_vector.take (a.count - true_count)).Perm (List.range a.count) ∧
      (∀ i, (true_out.sel_vector.take true_count ++
        false_out.sel_vector.take (a.count - true_count)).count i =
          if i < a.count then 1 else 0) := by
  have hlen : a.count - ((List.range a.count).filter (operand_selected n op a b c)).length =
      ((List.range a.count).filter (fun i => !operand_selected n op a b c i)).length := by
    have hsum := length_filter_add (operand_selected n op a b c) a.count
    exact Nat.sub_eq_of_eq_add (by rw [Nat.add_comm]; exact hsum.symm)
  have hperm : (((⟨(List.range a.count).filter (operand_selected n op a b c) ++
        true_sel.sel_vector.drop
          ((List.range a.count).filter (operand_selected n op a b c)).length⟩ :
          SelectionVector).sel_vector.take
        ((List.range a.count).filter (operand_selected n op a b c)).length) ++
      ((⟨(List.range a.count).filter (fun i => !operand_selected n op a b c i) ++
        false_sel.sel_vector.drop
          ((List.range a.count).filter
            (fun i => !operand_selected n op a b c i)).length⟩ :
          SelectionVector).sel_vector.take
        (a.count - ((List.range a.count).filter
          (operand_selected n op a b c)).length))).Perm (List.range a.count) := by
    rw [hlen, take_append_drop_left, take_append_drop_left]
    exact List.filter_append_perm _ _
  refine ⟨_, _, _, Select_general_spec n op a b c true_sel false_sel hcard hgen ha hb hc ht hf,
    hperm, ?_⟩
  intro i
  rw [hperm.count_eq, count_range]

/-- Witness of C6 on scenario 3 of the spec. -/
theorem C6_Select_totality_witness :
    ((scenario3_a.SameCardinality scenario3_b && scenario3_a.SameCardinality scenario3_c) =
        true ∧
      all_constant scenario3_a scenario3_b scenario3_c = false ∧
      scenario3_a.valid 4 ∧ scenario3_b.valid 4 ∧ scenario3_c.valid 4 ∧
      scenario3_a.count ≤ (zeroed_buffer 4).sel_vector.length ∧
      scenario3_a.count ≤ (zeroed_buffer 4).sel_vector.length) ∧
    ∃ true_count true_out false_out,
      Select 4 less_than scenario3_a scenario3_b scenario3_c
        (zeroed_buffer 4) (zeroed_buffer 4) =
          .ok (true_count, true_out, false_out) ∧
      (true_out.sel_vector.take true_count ++
        false_out.sel_vector.take (scenario3_a.count - true_count)).Perm
          (List.range scenario3_a.count) ∧
      (∀ i, (true_out.sel_vector.take true_count ++
        false_out.sel_vector.take (scenario3_a.count - true_count)).count i =
          if i < scenario3_a.count then 1 else 0) :=
  ⟨by decide,
    C6_Select_totality 4 less_than scenario3_a scenario3_b scenario3_c
      (zeroed_buffer 4) (zeroed_buffer 4)
      (by decide) (by decide) (by decide) (by decide) (by decide) (by decide) (by decide)⟩

/-- C7: for three CONSTANT inputs of cardinality `count` with values `a0`, `b0`, `c0`
and null bits `an`, `bn`, `cn`, `Select` succeeds and returns `0` if some input is null
or the predicate is false on `(a0, b0, c0)`, and returns `count` otherwise. -/
theorem C7_Select_constant {A B C : Type} (n : Nat) (op : A → B → C → Bool)
    (a : Vector A) (b : Vector B) (c : Vector C) (true_sel false_sel : SelectionVector)
    (an bn cn : Bool) (a0 : A) (b0 : B) (c0 : C)
    (hcard : (a.SameCardinality b && a.SameCardinality c) = true)
    (hconst : all_constant a b c = true)
    (hna : a.nullmask[0]? = some an) (hnb : b.nullmask[0]? = some bn)
    (hnc : c.nullmask[0]? = some cn)
    (hva : a.data[0]? = some a0) (hvb : b.data[0]? = some b0) (hvc : c.data[0]? = some c0) :
    ∃ returned true_out false_out,
      Select n op a b c true_sel false_sel = .ok (returned, true_out, false_out) ∧
      (((an || bn || cn) = true ∨ op a0 b0 c0 = false) → returned = 0) ∧
      (((an || bn || cn) = false ∧ op a0 b0 c0 = true) → returned = a.count) := by
  cases hnull : (an || bn || cn) with
  | true =>
    refine ⟨0, true_sel, false_sel, ?_, fun _ => rfl, ?_⟩
    · simp only [Select, hcard, hconst, any_constant_null_eq hna hnb hnc, hnull, ok_bind]
      rfl
    · rintro ⟨h, -⟩; cases h
  | false =>
    cases hop : op a0 b0 c0 with
    | false =>
      refine ⟨0, true_sel, false_sel, ?_, fun _ => rfl, ?_⟩
      · simp only [Select, hcard, hconst, any_constant_null_eq hna hnb hnc, hnull, test_at,
          read_of_getElem? hva, read_of_getElem? hvb, read_of_getElem? hvc, hop, ok_bind]
        rfl
      · rintro ⟨-, h⟩; cases h
    | true =>
      refine ⟨a.count, true_sel, false_sel, ?_, ?_, fun _ => rfl⟩
      · simp only [Select, hcard, hconst, any_constant_null_eq hna hnb hnc, hnull, test_at,
          read_of_getElem? hva, read_of_getElem? hvb, read_of_getElem? hvc, hop, ok_bind]
        rfl
      · rintro (h | h) <;> cases h

/-- Witness of C7: the non-null constants `1`, `2`, `0` with the predicate `a < b` and
five rows; all five rows match. -/
theorem C7_Select_constant_witness :
    (((constant_vector 5 (1 : Int) false).SameCardinality (constant_vector 5 (2 : Int) false) &&
        (constant_vector 5 (1 : Int) false).SameCardinality
          (constant_vector 5 (0 : Int) false)) = true ∧
      all_constant (constant_vector 5 (1 : Int) false) (constant_vector 5 (2 : Int) false)
        (constant_vector 5 (0 : Int) false) = true ∧
      (constant_vector 5 (1 : Int) false).nullmask[0]? = some false ∧
      (constant_vector 5 (2 : Int) false).nullmask[0]? = some false ∧
      (constant_vector 5 (0 : Int) false).nullmask[0]? = some false ∧
      (constant_vector 5 (1 : Int) false).data[0]? = some 1 ∧
      (constant_vector 5 (2 : Int) false).data[0]? = some 2 ∧
      (constant_vector 5 (0 : Int) false).data[0]? = some 0) ∧
    ∃ returned true_out false_out,
      Select 8 less_than (constant_vector 5 1 false) (constant_vector 5 2 false)
        (constant_vector 5 0 false) (zeroed_buffer 8) (zeroed_buffer 8) =
          .ok (returned, true_out, false_out) ∧
      (((false || false || false) = true ∨ less_than 1 2 0 = false) → returned = 0) ∧
      (((false || false || false) = false ∧ less_than 1 2 0 = true) →
        returned = (constant_vector 5 (1 : Int) false).count) :=
  ⟨by decide,
    C7_Select_constant 8 less_than (constant_vector 5 1 false) (constant_vector 5 2 false)
      (constant_vector 5 0 false) (zeroed_buffer 8) (zeroed_buffer 8)
      false false false 1 2 0
      (by decide) (by decide) (by decide) (by decide) (by decide) (by decide) (by decide)
      (by decide)⟩

/-- C8, as stated, fails: with the non-null constants `(2, 3, 4)`, three rows and the
result vector left by an earlier call on scenario 2 of the spec, whose null bit of row 1
is set, the constant fast path gives a non-null constant (all rows non-null) while the
general path on the flat copies leaves row 1 of the result null. -/
theorem C8_stale_null_bit_counterexample :
    Execute 4 scenario1_a scenario1_b scenario1_c reused_result (total_fn mul_add) =
      .ok ⟨.CONSTANT_VECTOR, 3, [14, 0, 333], identity_sel 3, [false, true, false]⟩ ∧
    Execute 4 (flat_copy 3 2 false) (flat_copy 3 3 false) (flat_copy 3 4 false)
        reused_result (total_fn mul_add) =
      .ok ⟨.FLAT_VECTOR, 3, [14, 14, 14], identity_sel 3, [false, true, false]⟩ ∧
    ([false, true, false] : nullmask_t)[0]? = some false ∧
    ([false, true, false] : nullmask_t)[1]? = some true := by
  decide

/-- C8, amended: for three CONSTANT inputs with values `a0`, `b0`, `c0` and null bits
`an`, `bn`, `cn`, the constant fast path and the general path on the inputs forced into
flat representation both succeed, and for every row `i < count` the null flag of the
flat result at row `i` is the null flag of the constant result and, where this flag is
clear, the value of the flat result at row `i` is the single value of the constant
result. When some constant is null this holds for every result vector; when no constant
is null it holds provided that, before the call, the null bits of the result at the rows
`0..count` all equal its bit at slot 0 (for instance a fresh result, with all bits
clear). -/
theorem C8_constant_path_equivalence {A B C R : Type} (n : Nat) (a : Vector A)
    (b : Vector B) (c : Vector C) (result : Vector R) (f : A → B → C → R)
    (an bn cn : Bool) (a0 : A) (b0 : B) (c0 : C)
    (hcard : (a.SameCardinality b && a.SameCardinality c && a.SameCardinality result) = true)
    (hconst : all_constant a b c = true)
    (hna : a.nullmask[0]? = some an) (hnb : b.nullmask[0]? = some bn)
    (hnc : c.nullmask[0]? = some cn)
    (hva : a.data[0]? = some a0) (hvb : b.data[0]? = some b0) (hvc : c.data[0]? = some c0)
    (hr : result.has_capacity)
    (hrd : 0 < result.data.length) (hrn : 0 < result.nullmask.length)
    (huniform : (an || bn || cn) = false →
      ∀ i, i < result.count → result.nullmask[i]? = result.nullmask[0]?) :
    ∃ r1 r2,
      Execute n a b c result (total_fn f) = .ok r1 ∧
      Execute n (flat_copy a.count a0 an) (flat_copy a.count b0 bn)
        (flat_copy a.count c0 cn) result (total_fn f) = .ok r2 ∧
      r1.vector_type = VectorType.CONSTANT_VECTOR ∧
      r2.vector_type = VectorType.FLAT_VECTOR ∧
      ∀ i, i < a.count →
        r2.nullmask[i]? = r1.nullmask[0]? ∧
        (r1.nullmask[0]? = some false → r2.data[i]? = r1.data[0]?) := by
  obtain ⟨-, -, hrc⟩ := cardinalities hcard
  have hcard2 : ((flat_copy a.count a0 an).SameCardinality (flat_copy a.count b0 bn) &&
      (flat_copy a.count a0 an).SameCardinality (flat_copy a.count c0 cn) &&
      (flat_copy a.count a0 an).SameCardinality result) = true := by
    simp [Vector.SameCardinality, flat_copy, hrc]
  obtain ⟨r2, hrun2, hflat, -, -, -, -, hdata, hmask⟩ :=
    Execute_general_spec n (flat_copy a.count a0 an) (flat_copy a.count b0 bn)
      (flat_copy a.count c0 cn) result (total_fn f) hcard2 rfl
      (flat_copy_valid n _ _ _) (flat_copy_valid n _ _ _) (flat_copy_valid n _ _ _) hr
      (fun i hi _ => ⟨f a0 b0 c0, by
        rw [flat_copy_operand_result n a.count i a0 b0 c0 an bn cn _ (hrc ▸ hi)]; rfl⟩)
  cases hnull : (an || bn || cn) with
  | true =>
    refine ⟨_, r2, Execute_constant_null n a b c result (total_fn f) hcard hconst hna hnb hnc
      hnull hrn, hrun2, rfl, hflat, ?_⟩
    intro i hi
    have hi2 : i < result.count := hrc ▸ hi
    rw [hmask i, flat_copy_operand_null n a.count i a0 b0 c0 an bn cn hi, hnull]
    simp [hi2, hrn]
  | false =>
    refine ⟨_, r2, Execute_constant_value n a b c result (total_fn f) hcard hconst hna hnb
      hnc hnull hva hvb hvc rfl hrd, hrun2, rfl, hflat, ?_⟩
    intro i hi
    have hi2 : i < result.count := hrc ▸ hi
    rw [hmask i, hdata i, flat_copy_operand_null n a.count i a0 b0 c0 an bn cn hi,
      flat_copy_operand_result n a.count i a0 b0 c0 an bn cn _ hi, hnull]
    refine ⟨?_, fun _ => ?_⟩
    · simpa [hi2] using huniform hnull i hi2
    · simp [hi2, hrd, total_fn, Except.toOption]

/-- Witness of C8 on scenario 1 of the spec with a fresh result. -/
theorem C8_constant_path_equivalence_witness :
    ((scenario1_a.SameCardinality scenario1_b && scenario1_a.SameCardinality scenario1_c &&
        scenario1_a.SameCardinality (fresh_result 3)) = true ∧
      all_constant scenario1_a scenario1_b scenario1_c = true ∧
      scenario1_a.nullmask[0]? = some false ∧ scenario1_b.nullmask[0]? = some false ∧
      scenario1_c.nullmask[0]? = some false ∧
      scenario1_a.data[0]? = some 2 ∧ scenario1_b.data[0]? = some 3 ∧
      scenario1_c.data[0]? = some 4 ∧
      (fresh_result 3).has_capacity ∧
      0 < (fresh_result 3).data.length ∧ 0 < (fresh_result 3).nullmask.length ∧
      ((false || false || false) = false → ∀ i, i < (fresh_result 3).count →
        (fresh_result 3).nullmask[i]? = (fresh_result 3).nullmask[0]?)) ∧
    ∃ r1 r2,
      Execute 4 scenario1_a scenario1_b scenario1_c (fresh_result 3) (total_fn mul_add) =
        .ok r1 ∧
      Execute 4 (flat_copy scenario1_a.count 2 false) (flat_copy scenario1_a.count 3 false)
        (flat_copy scenario1_a.count 4 false) (fresh_result 3) (total_fn mul_add) = .ok r2 ∧
      r1.vector_type = VectorType.CONSTANT_VECTOR ∧
      r2.vector_type = VectorType.FLAT_VECTOR ∧
      ∀ i, i < scenario1_a.count →
        r2.nullmask[i]? = r1.nullmask[0]? ∧
        (r1.nullmask[0]? = some false → r2.data[i]? = r1.data[0]?) :=
  ⟨by decide,
    C8_constant_path_equivalence 4 scenario1_a scenario1_b scenario1_c (fresh_result 3)
      mul_add false false false 2 3 4
      (by decide) (by decide) (by decide) (by decide) (by decide) (by decide) (by decide)
      (by decide) (by decide) (by decide) (by decide) (by decide)⟩

/-- C9: under the precondition of `Execute`, when the fallible combining function
succeeds on every operand triple without a null member (the three operand values of each
row `i < count` at which no operand is null, respectively the three constants when none
of them is null), `Execute` succeeds, whatever the function does on other values; and
the outcome of `Execute` is the same for every function that agrees with it on these
triples, so the function is not evaluated at a row with a null operand. -/
theorem C9_Execute_skips_null_rows {A B C R : Type} (n : Nat) (a : Vector A) (b : Vector B)
    (c : Vector C) (result : Vector R) (fn : A → B → C → Except Failure R)
    (hpre : Execute.precondition n a b c result)
    (hfn : ∀ x y z, Execute.non_null_triple n a b c x y z → ∃ v, fn x y z = .ok v) :
    (∃ r, Execute n a b c result fn = .ok r) ∧
    ∀ fn2 : A → B → C → Except Failure R,
      (∀ x y z, Execute.non_null_triple n a b c x y z → fn2 x y z = fn x y z) →
      Execute n a b c result fn2 = Execute n a b c result fn := by
  obtain ⟨hcard, hrest⟩ := hpre
  obtain ⟨hbc, hcc, hrc⟩ := cardinalities hcard
  by_cases hconst : all_constant a b c = true
  · rw [if_pos hconst] at hrest
    obtain ⟨⟨had, han⟩, ⟨hbd, hbn⟩, ⟨hcd, hcn⟩, hrd, hrn⟩ := hrest
    cases hnull : (a.nullmask[0] || b.nullmask[0] || c.nullmask[0]) with
    | true =>
      have hrun := fun f : A → B → C → Except Failure R =>
        Execute_constant_null n a b c result f hcard hconst (slot_zero han) (slot_zero hbn)
          (slot_zero hcn) hnull hrn
      exact ⟨⟨_, hrun fn⟩, fun fn2 _ => by rw [hrun fn2, hrun fn]⟩
    | false =>
      have hbits := hnull
      simp only [Bool.or_eq_false_iff] at hbits
      have htriple : Execute.non_null_triple n a b c a.data[0] b.data[0] c.data[0] := by
        unfold Execute.non_null_triple
        rw [if_pos hconst]
        refine ⟨⟨?_, ?_, ?_⟩, slot_zero had, slot_zero hbd, slot_zero hcd⟩
        · rw [slot_zero han, hbits.1.1]
        · rw [slot_zero hbn, hbits.1.2]
        · rw [slot_zero hcn, hbits.2]
      obtain ⟨v, hv⟩ := hfn _ _ _ htriple
      have hrun := fun (f : A → B → C → Except Failure R)
          (hf : f a.data[0] b.data[0] c.data[0] = .ok v) =>
        Execute_constant_value n a b c result f hcard hconst (slot_zero han) (slot_zero hbn)
          (slot_zero hcn) hnull (slot_zero had) (slot_zero hbd) (slot_zero hcd) hf hrd
      refine ⟨⟨_, hrun fn hv⟩, fun fn2 h2 => ?_⟩
      rw [hrun fn2 ((h2 _ _ _ htriple).trans hv), hrun fn hv]
  · have hgen : all_constant a b c = false := by simpa using hconst
    rw [if_neg hconst] at hrest
    obtain ⟨ha, hb, hc, hr⟩ := hrest
    have hrows : ∀ i, i < result.count → operand_null n a b c i = false →
        ∃ x y z, Execute.non_null_triple n a b c x y z ∧
          ∀ f : A → B → C → Except Failure R, operand_result n f a b c i = f x y z := by
      intro i hi hnull
      obtain ⟨x, y, z, hx, hy, hz, hall⟩ :=
        operand_values_all ha hb hc (hrc ▸ hi) (hbc ▸ hrc ▸ hi) (hcc ▸ hrc ▸ hi)
      refine ⟨x, y, z, ?_, fun f => hall f⟩
      unfold Execute.non_null_triple
      rw [if_neg hconst]
      exact ⟨i, hrc ▸ hi, hnull, hx, hy, hz⟩
    constructor
    · obtain ⟨r, hrun, -⟩ :=
        Execute_general_spec n a b c result fn hcard hgen ha hb hc hr (fun i hi hnull => by
          obtain ⟨x, y, z, ht, hall⟩ := hrows i hi hnull
          obtain ⟨v, hv⟩ := hfn x y z ht
          exact ⟨v, (hall fn).trans hv⟩)
      exact ⟨r, hrun⟩
    · intro fn2 h2
      have ha2 : rows_in_range (a.Orrify n).data (a.Orrify n).sel (a.Orrify n).nullmask
          result.count := by rw [hrc]; exact ha
      have hb2 : rows_in_range (b.Orrify n).data (b.Orrify n).sel (b.Orrify n).nullmask
          result.count := by rw [hrc, ← hbc]; exact hb
      have hc2 : rows_in_range (c.Orrify n).data (c.Orrify n).sel (c.Orrify n).nullmask
          result.count := by rw [hrc, ← hcc]; exact hc
      rw [Execute_general n a b c result fn2 hcard hgen,
        Execute_general n a b c result fn hcard hgen,
        ExecuteLoop_eq_rows fn2 result.data result.nullmask ha2 hb2 hc2,
        ExecuteLoop_eq_rows fn result.data result.nullmask ha2 hb2 hc2]
      congr 1
      apply foldlM_range_congr
      intro i hi st
      apply execute_row_congr
      intro hnull
      obtain ⟨x, y, z, ht, hall⟩ := hrows i hi hnull
      have h1 := hall fn2
      have h3 := hall fn
      unfold operand_result at h1 h3
      rw [h1, h3]
      exact h2 x y z ht

/-- Witness of C9 on scenario 2 of the spec, where the slot of the null operand of row 1
stores `0`, with a function that fails on a first argument `0`. -/
theorem C9_Execute_skips_null_rows_witness :
    (Execute.precondition 4 scenario2_a scenario2_b scenario2_c (fresh_result 3) ∧
      (∀ x y z, Execute.non_null_triple 4 scenario2_a scenario2_b scenario2_c x y z →
        ∃ v, fails_on_zero x y z = .ok v)) ∧
    ((∃ r, Execute 4 scenario2_a scenario2_b scenario2_c (fresh_result 3) fails_on_zero =
        .ok r) ∧
      ∀ fn2 : Int → Int → Int → Except Failure Int,
        (∀ x y z, Execute.non_null_triple 4 scenario2_a scenario2_b scenario2_c x y z →
          fn2 x y z = fails_on_zero x y z) →
        Execute 4 scenario2_a scenario2_b scenario2_c (fresh_result 3) fn2 =
          Execute 4 scenario2_a scenario2_b scenario2_c (fresh_result 3) fails_on_zero) := by
  have hfn : ∀ x y z, Execute.non_null_triple 4 scenario2_a scenario2_b scenario2_c x y z →
      ∃ v, fails_on_zero x y z = .ok v := by
    intro x y z h
    unfold Execute.non_null_triple at h
    rw [if_neg (by decide)] at h
    obtain ⟨i, hi, hnull, hx, -, -⟩ := h
    have hi3 : i < 3 := hi
    interval_cases i
    · have hval : scenario2_a.value 4 0 = some 1 := by decide
      rw [hval] at hx
      cases hx
      exact ⟨_, rfl⟩
    · exact absurd hnull (by decide)
    · have hval : scenario2_a.value 4 2 = some 3 := by decide
      rw [hval] at hx
      cases hx
      exact ⟨_, rfl⟩
  exact ⟨⟨by decide, hfn⟩,
    C9_Execute_skips_null_rows 4 scenario2_a scenario2_b scenario2_c (fresh_result 3)
      fails_on_zero (by decide) hfn⟩

/-- C10: for two triples of normalized inputs that satisfy the data-model invariant and
represent the same logical batch on the rows `0..count`, `ExecuteLoop` started from the
same result buffers has the same outcome (result data and result null mask) for every
fallible combining function, and `SelectLoop` started from the same output buffers has
the same outcome (`true_count`, `true_sel` and `false_sel`) for every predicate; nothing
is assumed on the physical slots that no row maps to. -/
theorem C10_indirection_transparency {A B C R : Type} (fn : A → B → C → Except Failure R)
    (op : A → B → C → Bool) (count : idx_t)
    (adata1 adata2 : List A) (bdata1 bdata2 : List B) (cdata1 cdata2 : List C)
    (asel1 asel2 bsel1 bsel2 csel1 csel2 : SelectionVector)
    (am1 am2 bm1 bm2 cm1 cm2 : nullmask_t)
    (result_data : List R) (result_nullmask : nullmask_t)
    (true_sel false_sel : SelectionVector)
    (ha1 : rows_in_range adata1 asel1 am1 count) (ha2 : rows_in_range adata2 asel2 am2 count)
    (hb1 : rows_in_range bdata1 bsel1 bm1 count) (hb2 : rows_in_range bdata2 bsel2 bm2 count)
    (hc1 : rows_in_range cdata1 csel1 cm1 count) (hc2 : rows_in_range cdata2 csel2 cm2 count)
    (ha : same_logical_rows adata1 asel1 am1 adata2 asel2 am2 count)
    (hb : same_logical_rows bdata1 bsel1 bm1 bdata2 bsel2 bm2 count)
    (hc : same_logical_rows cdata1 csel1 cm1 cdata2 csel2 cm2 count) :
    ExecuteLoop adata1 bdata1 cdata1 result_data count asel1 bsel1 csel1 am1 bm1 cm1
        result_nullmask fn =
      ExecuteLoop adata2 bdata2 cdata2 result_data count asel2 bsel2 csel2 am2 bm2 cm2
        result_nullmask fn ∧
    SelectLoop op adata1 bdata1 cdata1 count asel1 bsel1 csel1 am1 bm1 cm1
        true_sel false_sel =
      SelectLoop op adata2 bdata2 cdata2 count asel2 bsel2 csel2 am2 bm2 cm2
        true_sel false_sel := by
  have hnull : ∀ i, i < count →
      row_null asel1 bsel1 csel1 am1 bm1 cm1 i = row_null asel2 bsel2 csel2 am2 bm2 cm2 i :=
    fun i hi => row_null_congr (ha i hi).1 (hb i hi).1 (hc i hi).1
  have hvals : ∀ i, i < count → row_null asel1 bsel1 csel1 am1 bm1 cm1 i = false →
      value_at adata1 asel1 i = value_at adata2 asel2 i ∧
      value_at bdata1 bsel1 i = value_at bdata2 bsel2 i ∧
      value_at cdata1 csel1 i = value_at cdata2 csel2 i := by
    intro i hi h
    obtain ⟨h1, h2, h3⟩ := row_null_false h
    exact ⟨(ha i hi).2 h1, (hb i hi).2 h2, (hc i hi).2 h3⟩
  constructor
  · rw [ExecuteLoop_eq_rows fn result_data result_nullmask ha1 hb1 hc1,
      ExecuteLoop_eq_rows fn result_data result_nullmask ha2 hb2 hc2]
    apply foldlM_range_congr
    intro i hi st
    rw [hnull i hi]
    apply execute_row_congr
    intro h
    obtain ⟨h1, h2, h3⟩ := hvals i hi ((hnull i hi).trans h)
    simp only [row_result, h1, h2, h3]
  · rw [SelectLoop_eq_rows op true_sel false_sel ha1 hb1 hc1,
      SelectLoop_eq_rows op true_sel false_sel ha2 hb2 hc2]
    congr 1
    apply foldlM_range_congr
    intro i hi st
    congr 1
    unfold row_selected
    rw [hnull i hi]
    cases h : row_null asel2 bsel2 csel2 am2 bm2 cm2 i with
    | true => rfl
    | false =>
      obtain ⟨h1, h2, h3⟩ := hvals i hi ((hnull i hi).trans h)
      simp only [row_test, h1, h2, h3]

/-- Witness of C10: the logical operand `[20, 30, 10]` given once as the buffer
`[30, 10, 20, 99]` under the selection `[2, 0, 1]`, with the null bit of the unmapped
slot 3 set, and once as the buffer `[20, 30, 10]` under the identity selection. -/
theorem C10_indirection_transparency_witness :
    (rows_in_range layout_data layout_sel layout_mask 3 ∧
      rows_in_range [20, 30, 10] (identity_sel 3) [false, false, false] 3 ∧
      rows_in_range scenario2_b.data scenario2_b.sel scenario2_b.nullmask 3 ∧
      rows_in_range scenario2_b.data scenario2_b.sel scenario2_b.nullmask 3 ∧
      rows_in_range scenario2_c.data scenario2_c.sel scenario2_c.nullmask 3 ∧
      rows_in_range scenario2_c.data scenario2_c.sel scenario2_c.nullmask 3 ∧
      same_logical_rows layout_data layout_sel layout_mask
        [20, 30, 10] (identity_sel 3) [false, false, false] 3 ∧
      same_logical_rows scenario2_b.data scenario2_b.sel scenario2_b.nullmask
        scenario2_b.data scenario2_b.sel scenario2_b.nullmask 3 ∧
      same_logical_rows scenario2_c.data scenario2_c.sel scenario2_c.nullmask
        scenario2_c.data scenario2_c.sel scenario2_c.nullmask 3) ∧
    (ExecuteLoop layout_data scenario2_b.data scenario2_c.data [0, 0, 0] 3
        layout_sel scenario2_b.sel scenario2_c.sel
        layout_mask scenario2_b.nullmask scenario2_c.nullmask
        [false, false, false] (total_fn add3) =
      ExecuteLoop [20, 30, 10] scenario2_b.data scenario2_c.data [0, 0, 0] 3
        (identity_sel 3) scenario2_b.sel scenario2_c.sel
        [false, false, false] scenario2_b.nullmask scenario2_c.nullmask
        [false, false, false] (total_fn add3) ∧
    SelectLoop less_than layout_data scenario2_b.data scenario2_c.data 3
        layout_sel scenario2_b.sel scenario2_c.sel
        layout_mask scenario2_b.nullmask scenario2_c.nullmask
        (zeroed_buffer 3) (zeroed_buffer 3) =
      SelectLoop less_than [20, 30, 10] scenario2_b.data scenario2_c.data 3
        (identity_sel 3) scenario2_b.sel scenario2_c.sel
        [false, false, false] scenario2_b.nullmask scenario2_c.nullmask
        (zeroed_buffer 3) (zeroed_buffer 3)) :=
  ⟨by decide,
    C10_indirection_transparency (total_fn add3) less_than 3
      layout_data [20, 30, 10] scenario2_b.data scenario2_b.data
      scenario2_c.data scenario2_c.data
      layout_sel (identity_sel 3) scenario2_b.sel scenario2_b.sel
      scenario2_c.sel scenario2_c.sel
      layout_mask [false, false, false] scenario2_b.nullmask scenario2_b.nullmask
      scenario2_c.nullmask scenario2_c.nullmask
      [0, 0, 0] [false, false, false] (zeroed_buffer 3) (zeroed_buffer 3)
      (by decide) (by decide) (by decide) (by decide) (by decide) (by decide)
      (by decide) (by decide) (by decide)⟩

/-- C11: on the general path of `Execute`, under the data-model invariant, when one of
the inputs is a CONSTANT vector marked null, its normalized view maps every row to
physical slot 0 and therefore every result row `i < count` is marked null after the
call, whatever the values and null flags of the other operands and whatever the
(possibly failing) combining function. -/
theorem C11_null_constant_nulls_every_row {A B C R : Type} (n : Nat) (a : Vector A)
    (b : Vector B) (c : Vector C) (result : Vector R) (fn : A → B → C → Except Failure R)
    (hcard : (a.SameCardinality b && a.SameCardinality c && a.SameCardinality result) = true)
    (hgen : all_constant a b c = false)
    (ha : a.valid n) (hb : b.valid n) (hc : c.valid n) (hr : result.has_capacity)
    (hnull : (a.vector_type = VectorType.CONSTANT_VECTOR ∧ a.nullmask[0]? = some true) ∨
      (b.vector_type = VectorType.CONSTANT_VECTOR ∧ b.nullmask[0]? = some true) ∨
      (c.vector_type = VectorType.CONSTANT_VECTOR ∧ c.nullmask[0]? = some true)) :
    ∃ r, Execute n a b c result fn = .ok r ∧
      r.vector_type = VectorType.FLAT_VECTOR ∧
      ∀ i, i < result.count → r.nullmask[i]? = some true := by
  obtain ⟨hbc, hcc, hrc⟩ := cardinalities hcard
  have hrows : ∀ i, i < result.count → operand_null n a b c i = true := by
    intro i hi
    have hia : i < a.count := hrc ▸ hi
    unfold operand_null row_null
    rcases hnull with ⟨hk, hbit⟩ | ⟨hk, hbit⟩ | ⟨hk, hbit⟩
    · have hin : i < n := Nat.lt_of_lt_of_le hia (constant_count_le n a hk ha)
      rw [constant_null_at n a i hk hin, hbit]
      simp
    · have hin : i < n :=
        Nat.lt_of_lt_of_le (hbc ▸ hia) (constant_count_le n b hk hb)
      rw [constant_null_at n b i hk hin, hbit]
      simp
    · have hin : i < n :=
        Nat.lt_of_lt_of_le (hcc ▸ hia) (constant_count_le n c hk hc)
      rw [constant_null_at n c i hk hin, hbit]
      simp
  obtain ⟨r, hrun, hflat, -, -, -, -, -, hmask⟩ :=
    Execute_general_spec n a b c result fn hcard hgen ha hb hc hr
      (fun i hi hfalse => by rw [hrows i hi] at hfalse; cases hfalse)
  refine ⟨r, hrun, hflat, fun i hi => ?_⟩
  rw [hmask i, hrows i hi]
  simp [hi]

/-- Witness of C11 (scenario 4 of the spec): a null constant composed with the flat
inputs `[10, 20, 30]` and `[100, 200, 300]` under a function that fails on `0`. -/
theorem C11_null_constant_nulls_every_row_witness :
    ((null_constant.SameCardinality scenario2_b && null_constant.SameCardinality scenario2_c &&
        null_constant.SameCardinality (fresh_result 3)) = true ∧
      all_constant null_constant scenario2_b scenario2_c = false ∧
      null_constant.valid 4 ∧ scenario2_b.valid 4 ∧ scenario2_c.valid 4 ∧
      (fresh_result 3).has_capacity ∧
      ((null_constant.vector_type = VectorType.CONSTANT_VECTOR ∧
          null_constant.nullmask[0]? = some true) ∨
        (scenario2_b.vector_type = VectorType.CONSTANT_VECTOR ∧
          scenario2_b.nullmask[0]? = some true) ∨
        (scenario2_c.vector_type = VectorType.CONSTANT_VECTOR ∧
          scenario2_c.nullmask[0]? = some true))) ∧
    ∃ r, Execute 4 null_constant scenario2_b scenario2_c (fresh_result 3) fails_on_zero =
        .ok r ∧
      r.vector_type = VectorType.FLAT_VECTOR ∧
      ∀ i, i < (fresh_result 3).count → r.nullmask[i]? = some true :=
  ⟨by decide,
    C11_null_constant_nulls_every_row 4 null_constant scenario2_b scenario2_c
      (fresh_result 3) fails_on_zero
      (by decide) (by decide) (by decide) (by decide) (by decide) (by decide) (by decide)⟩

/-- C12, as stated, fails: a set mask bit does not mean that the value is present. With
one row whose three mask bits are all set, the function is not computed (the result data
keeps `0` instead of `111`) and the row is marked null; with one row whose three mask
bits are all unset the function is computed and the row is not marked null. -/
theorem C12_set_bit_counterexample :
    (flat_vector [(1 : Int)] [true]).mask_bit 4 0 = some true ∧
    (flat_vector [(10 : Int)] [true]).mask_bit 4 0 = some true ∧
    (flat_vector [(100 : Int)] [true]).mask_bit 4 0 = some true ∧
    Execute 4 (flat_vector [1] [true]) (flat_vector [10] [true]) (flat_vector [100] [true])
        (fresh_result 1) (total_fn add3) =
      .ok ⟨.FLAT_VECTOR, 1, [0], identity_sel 1, [true]⟩ ∧
    (flat_vector [(1 : Int)] [false]).mask_bit 4 0 = some false ∧
    Execute 4 (flat_vector [1] [false]) (flat_vector [10] [false]) (flat_vector [100] [false])
        (fresh_result 1) (total_fn add3) =
      .ok ⟨.FLAT_VECTOR, 1, [111], identity_sel 1, [false]⟩ := by
  decide

/-- C12, amended: the null encoding of the code is 'set = NULL'. On the general path of
`Execute`, under the data-model invariant, for every row `i < count`: when the mask bits
of the three operands at their mapped slots are all unset, `fn` is computed for row `i`
and stored, and the null bit of the row is left as it was; when the bit of some operand
is set, row `i` is marked null and its data is left as it was. The any-set test on the
three masks selects the null-checking loop, and the loop without null checks runs when no
bit of any mask is set. -/
theorem C12_set_bit_marks_null {A B C R : Type} (n : Nat) (a : Vector A) (b : Vector B)
    (c : Vector C) (result : Vector R) (f : A → B → C → R)
    (hcard : (a.SameCardinality b && a.SameCardinality c && a.SameCardinality result) = true)
    (hgen : all_constant a b c = false)
    (ha : a.valid n) (hb : b.valid n) (hc : c.valid n) (hr : result.has_capacity) :
    (∃ r, Execute n a b c result (total_fn f) = .ok r ∧
      ∀ i, i < result.count →
        ∃ ba bb bc x y z,
          a.mask_bit n i = some ba ∧ b.mask_bit n i = some bb ∧ c.mask_bit n i = some bc ∧
          a.value n i = some x ∧ b.value n i = some y ∧ c.value n i = some z ∧
          ((ba = false ∧ bb = false ∧ bc = false) →
            r.data[i]? = some (f x y z) ∧ r.nullmask[i]? = result.nullmask[i]?) ∧
          ((ba = true ∨ bb = true ∨ bc = true) →
            r.nullmask[i]? = some true ∧ r.data[i]? = result.data[i]?)) ∧
    (∀ (adata : List A) (bdata : List B) (cdata : List C) (result_data : List R)
        (count : idx_t) (asel bsel csel : SelectionVector)
        (anullmask bnullmask cnullmask result_nullmask : nullmask_t),
      ((anullmask.any_set || bnullmask.any_set || cnullmask.any_set) = true →
        ExecuteLoop adata bdata cdata result_data count asel bsel csel
            anullmask bnullmask cnullmask result_nullmask (total_fn f) =
          (List.range count).foldlM
            (ExecuteLoop.checked_body adata bdata cdata asel bsel csel
              anullmask bnullmask cnullmask (total_fn f)) (result_data, result_nullmask)) ∧
      ((anullmask.any_set || bnullmask.any_set || cnullmask.any_set) = false →
        ExecuteLoop adata bdata cdata result_data count asel bsel csel
            anullmask bnullmask cnullmask result_nullmask (total_fn f) =
          (List.range count).foldlM
            (ExecuteLoop.fast_body adata bdata cdata asel bsel csel (total_fn f))
            (result_data, result_nullmask))) := by
  obtain ⟨hbc, hcc, hrc⟩ := cardinalities hcard
  have hvals : ∀ i, i < result.count →
      ∃ x y z, a.value n i = some x ∧ b.value n i = some y ∧ c.value n i = some z ∧
        operand_result n (total_fn f) a b c i = .ok (f x y z) := fun i hi =>
    operand_values (total_fn f) ha hb hc (hrc ▸ hi) (hbc ▸ hrc ▸ hi) (hcc ▸ hrc ▸ hi)
  obtain ⟨r, hrun, -, -, -, -, -, hdata, hmask⟩ :=
    Execute_general_spec n a b c result (total_fn f) hcard hgen ha hb hc hr
      (fun i hi _ => by
        obtain ⟨x, y, z, -, -, -, hv⟩ := hvals i hi
        exact ⟨f x y z, hv⟩)
  refine ⟨⟨r, hrun, ?_⟩, fun _ _ _ _ _ _ _ _ _ _ _ _ =>
    ⟨ExecuteLoop_checked _ _ _ _ _ _ _ _ _ _ _ _ _, ExecuteLoop_fast _ _ _ _ _ _ _ _ _ _ _ _ _⟩⟩
  intro i hi
  obtain ⟨x, y, z, hx, hy, hz, hv⟩ := hvals i hi
  refine ⟨_, _, _, x, y, z, mask_bit_eq ha (hrc ▸ hi), mask_bit_eq hb (hbc ▸ hrc ▸ hi),
    mask_bit_eq hc (hcc ▸ hrc ▸ hi), hx, hy, hz, ?_, ?_⟩
  · rintro ⟨h1, h2, h3⟩
    have hnull : operand_null n a b c i = false := by
      simp only [operand_null, row_null, h1, h2, h3]; rfl
    rw [hdata i, hmask i, hv, hnull]
    simp [hi, Except.toOption]
  · intro h
    have hnull : operand_null n a b c i = true := by
      simp only [operand_null, row_null, Bool.or_eq_true]
      rcases h with h | h | h
      · exact Or.inl (Or.inl h)
      · exact Or.inl (Or.inr h)
      · exact Or.inr h
    rw [hdata i, hmask i, hnull]
    simp [hi]

/-- Witness of C12 on scenario 2 of the spec, where the mask bit of row 1 of `a` is
set. -/
theorem C12_set_bit_marks_null_witness :
    ((scenario2_a.SameCardinality scenario2_b && scenario2_a.SameCardinality scenario2_c &&
        scenario2_a.SameCardinality (fresh_result 3)) = true ∧
      all_constant scenario2_a scenario2_b scenario2_c = false ∧
      scenario2_a.valid 4 ∧ scenario2_b.valid 4 ∧ scenario2_c.valid 4 ∧
      (fresh_result 3).has_capacity) ∧
    ((∃ r, Execute 4 scenario2_a scenario2_b scenario2_c (fresh_result 3) (total_fn add3) =
        .ok r ∧
      ∀ i, i < (fresh_result 3).count →
        ∃ ba bb bc x y z,
          scenario2_a.mask_bit 4 i = some ba ∧ scenario2_b.mask_bit 4 i = some bb ∧
          scenario2_c.mask_bit 4 i = some bc ∧
          scenario2_a.value 4 i = some x ∧ scenario2_b.value 4 i = some y ∧
          scenario2_c.value 4 i = some z ∧
          ((ba = false ∧ bb = false ∧ bc = false) →
            r.data[i]? = some (add3 x y z) ∧
            r.nullmask[i]? = (fresh_result 3).nullmask[i]?) ∧
          ((ba = true ∨ bb = true ∨ bc = true) →
            r.nullmask[i]? = some true ∧ r.data[i]? = (fresh_result 3).data[i]?)) ∧
    (∀ (adata : List Int) (bdata : List Int) (cdata : List Int) (result_data : List Int)
        (count : idx_t) (asel bsel csel : SelectionVector)
        (anullmask bnullmask cnullmask result_nullmask : nullmask_t),
      ((anullmask.any_set || bnullmask.any_set || cnullmask.any_set) = true →
        ExecuteLoop adata bdata cdata result_data count asel bsel csel
            anullmask bnullmask cnullmask result_nullmask (total_fn add3) =
          (List.range count).foldlM
            (ExecuteLoop.checked_body adata bdata cdata asel bsel csel
              anullmask bnullmask cnullmask (total_fn add3))
            (result_data, result_nullmask)) ∧
      ((anullmask.any_set || bnullmask.any_set || cnullmask.any_set) = false →
        ExecuteLoop adata bdata cdata result_data count asel bsel csel
            anullmask bnullmask cnullmask result_nullmask (total_fn add3) =
          (List.range count).foldlM
            (ExecuteLoop.fast_body adata bdata cdata asel bsel csel (total_fn add3))
            (result_data, result_nullmask)))) :=
  ⟨by decide,
    C12_set_bit_marks_null 4 scenario2_a scenario2_b scenario2_c (fresh_result 3) add3
      (by decide) (by decide) (by decide) (by decide) (by decide) (by decide)⟩

/-- C13, as stated, fails: with three non-null constants of cardinality 0 and a result
of cardinality 0 whose data buffer has no slot, the stated precondition holds (equal
cardinalities, nothing to check on the selections, capacity at least `count = 0`), yet
the all-constant path writes `result_data[0]`, which is out of range. -/
theorem C13_empty_result_counterexample :
    ((constant_vector 0 (2 : Int) false).SameCardinality (constant_vector 0 (3 : Int) false) &&
      (constant_vector 0 (2 : Int) false).SameCardinality (constant_vector 0 (4 : Int) false) &&
      (constant_vector 0 (2 : Int) false).SameCardinality empty_result) = true ∧
    (constant_vector 0 (2 : Int) false).valid 4 ∧
    (constant_vector 0 (3 : Int) false).valid 4 ∧
    (constant_vector 0 (4 : Int) false).valid 4 ∧
    empty_result.has_capacity ∧
    Execute 4 (constant_vector 0 2 false) (constant_vector 0 3 false)
        (constant_vector 0 4 false) empty_result (total_fn mul_add) =
      .error .out_of_range := by
  decide

/-- C13, amended: under the preconditions of `Execute` and `Select` (shared cardinality;
on the general path valid selection entries and output buffers of `count` slots; on the
all-constant path a slot 0 in every input and in the result), for every pattern of nulls
both calls succeed, so that no access is out of range; and on the general path of
`Select`, before every iteration `i < count` the loop state exists and its write indices
satisfy `true_count + false_count = i`, so that neither exceeds `count - 1` at the time
of a write. -/
theorem C13_accesses_in_bounds {A B C R : Type} (n : Nat) (a : Vector A) (b : Vector B)
    (c : Vector C) (result : Vector R) (f : A → B → C → R) (op : A → B → C → Bool)
    (true_sel false_sel : SelectionVector)
    (hexec : Execute.precondition n a b c result)
    (hsel : Select.precondition n a b c true_sel false_sel) :
    (∃ r, Execute n a b c result (total_fn f) = .ok r) ∧
    (∃ out, Select n op a b c true_sel false_sel = .ok out) ∧
    (all_constant a b c = false → ∀ i, i < a.count →
      ∃ st, SelectLoop.state_before op (a.Orrify n).data (b.Orrify n).data (c.Orrify n).data
          (a.Orrify n).sel (b.Orrify n).sel (c.Orrify n).sel
          (a.Orrify n).nullmask (b.Orrify n).nullmask (c.Orrify n).nullmask
          true_sel false_sel i = .ok st ∧
        st.true_count + st.false_count = i ∧
        st.true_count ≤ a.count - 1 ∧ st.false_count ≤ a.count - 1) := by
  obtain ⟨r, hrun, -⟩ := Execute_succeeds n a b c result f hexec
  refine ⟨⟨r, hrun⟩, Select_succeeds n op a b c true_sel false_sel hsel, ?_⟩
  intro hgen i hi
  obtain ⟨hcard, hrest⟩ := hsel
  rw [if_neg (by simp [hgen])] at hrest
  obtain ⟨ha, hb, hc, ht, hf⟩ := hrest
  simp only [Vector.SameCardinality, Bool.and_eq_true, beq_iff_eq] at hcard
  have hb2 : rows_in_range (b.Orrify n).data (b.Orrify n).sel (b.Orrify n).nullmask
      a.count := by rw [hcard.1]; exact hb
  have hc2 : rows_in_range (c.Orrify n).data (c.Orrify n).sel (c.Orrify n).nullmask
      a.count := by rw [hcard.2]; exact hc
  have hile : i ≤ a.count := Nat.le_of_lt hi
  have hsum := length_filter_add (operand_selected n op a b c) i
  have hstate := select_rows_spec (operand_selected n op a b c) true_sel false_sel i
    (Nat.le_trans hile ht) (Nat.le_trans hile hf)
  have h1 : ((List.range i).filter (operand_selected n op a b c)).length ≤ i :=
    Nat.le.intro hsum
  have h2 : ((List.range i).filter (fun j => !operand_selected n op a b c j)).length ≤ i :=
    Nat.le.intro ((Nat.add_comm _ _).trans hsum)
  exact ⟨_, (state_before_eq_rows op true_sel false_sel ha hb2 hc2 i hile).trans hstate,
    hsum, Nat.le_trans h1 (Nat.le_sub_one_of_lt hi), Nat.le_trans h2 (Nat.le_sub_one_of_lt hi)⟩

/-- Witness of C13 on scenario 3 of the spec. -/
theorem C13_accesses_in_bounds_witness :
    (Execute.precondition 4 scenario3_a scenario3_b scenario3_c (fresh_result 4) ∧
      Select.precondition 4 scenario3_a scenario3_b scenario3_c
        (zeroed_buffer 4) (zeroed_buffer 4)) ∧
    ((∃ r, Execute 4 scenario3_a scenario3_b scenario3_c (fresh_result 4) (total_fn add3) =
        .ok r) ∧
    (∃ out, Select 4 less_than scenario3_a scenario3_b scenario3_c
        (zeroed_buffer 4) (zeroed_buffer 4) = .ok out) ∧
    (all_constant scenario3_a scenario3_b scenario3_c = false →
      ∀ i, i < scenario3_a.count →
      ∃ st, SelectLoop.state_before less_than (scenario3_a.Orrify 4).data
          (scenario3_b.Orrify 4).data (scenario3_c.Orrify 4).data
          (scenario3_a.Orrify 4).sel (scenario3_b.Orrify 4).sel (scenario3_c.Orrify 4).sel
          (scenario3_a.Orrify 4).nullmask (scenario3_b.Orrify 4).nullmask
          (scenario3_c.Orrify 4).nullmask (zeroed_buffer 4) (zeroed_buffer 4) i = .ok st ∧
        st.true_count + st.false_count = i ∧
        st.true_count ≤ scenario3_a.count - 1 ∧ st.false_count ≤ scenario3_a.count - 1)) :=
  ⟨by decide,
    C13_accesses_in_bounds 4 scenario3_a scenario3_b scenario3_c (fresh_result 4) add3
      less_than (zeroed_buffer 4) (zeroed_buffer 4) (by decide) (by decide)⟩

/-- C14: under the precondition of `Execute` (in particular the shared cardinality that
line 50 asserts), on either path the call succeeds and the cardinality of the result
after the call is the shared cardinality of the inputs; on the general path the loop
processes exactly the rows `0..count` with `count = a.size()`: every row below `count`
with a null operand is marked null, every other row below `count` receives the value of
the function, and no position from `count` on is changed. -/
theorem C14_cardinality_preserved {A B C R : Type} (n : Nat) (a : Vector A) (b : Vector B)
    (c : Vector C) (result : Vector R) (f : A → B → C → R)
    (hpre : Execute.precondition n a b c result) :
    ∃ r, Execute n a b c result (total_fn f) = .ok r ∧
      r.count = a.count ∧ r.count = b.count ∧ r.count = c.count ∧
      result.count = a.count ∧
      (all_constant a b c = false →
        (∀ i, i < a.count →
          (operand_null n a b c i = true → r.nullmask[i]? = some true) ∧
          (operand_null n a b c i = false →
            ∃ x y z, a.value n i = some x ∧ b.value n i = some y ∧ c.value n i = some z ∧
              r.data[i]? = some (f x y z))) ∧
        (∀ j, a.count ≤ j →
          r.data[j]? = result.data[j]? ∧ r.nullmask[j]? = result.nullmask[j]?)) := by
  have hpre2 := hpre
  obtain ⟨hcard, hrest⟩ := hpre
  obtain ⟨hbc, hcc, hrc⟩ := cardinalities hcard
  by_cases hconst : all_constant a b c = true
  · obtain ⟨r, hrun, hcount, -⟩ := Execute_succeeds n a b c result f hpre2
    refine ⟨r, hrun, hcount.trans hrc, ?_, ?_, hrc, ?_⟩
    · rw [hcount, hrc, hbc]
    · rw [hcount, hrc, hcc]
    · intro hgen; rw [hgen] at hconst; cases hconst
  · have hgen : all_constant a b c = false := by simpa using hconst
    rw [if_neg hconst] at hrest
    obtain ⟨ha, hb, hc, hr⟩ := hrest
    have hvals : ∀ i, i < result.count →
        ∃ x y z, a.value n i = some x ∧ b.value n i = some y ∧ c.value n i = some z ∧
          operand_result n (total_fn f) a b c i = .ok (f x y z) := fun i hi =>
      operand_values (total_fn f) ha hb hc (hrc ▸ hi) (hbc ▸ hrc ▸ hi) (hcc ▸ hrc ▸ hi)
    obtain ⟨r, hrun, -, hcount, -, -, -, hdata, hmask⟩ :=
      Execute_general_spec n a b c result (total_fn f) hcard hgen ha hb hc hr
        (fun i hi _ => by
          obtain ⟨x, y, z, -, -, -, hv⟩ := hvals i hi
          exact ⟨f x y z, hv⟩)
    refine ⟨r, hrun, hcount.trans hrc, ?_, ?_, hrc, fun _ => ⟨?_, ?_⟩⟩
    · rw [hcount, hrc, hbc]
    · rw [hcount, hrc, hcc]
    · intro i hi
      have hi2 : i < result.count := hrc.symm ▸ hi
      refine ⟨fun hnull => ?_, fun hnull => ?_⟩
      · rw [hmask i, hnull]; simp [hi2]
      · obtain ⟨x, y, z, hx, hy, hz, hv⟩ := hvals i hi2
        refine ⟨x, y, z, hx, hy, hz, ?_⟩
        rw [hdata i, hv, hnull]
        simp [hi2, Except.toOption]
    · intro j hj
      have hj2 : ¬ j < result.count := by rw [hrc]; exact Nat.not_lt.mpr hj
      rw [hdata j, hmask j]
      simp [hj2]

/-- Witness of C14 on scenario 2 of the spec. -/
theorem C14_cardinality_preserved_witness :
    Execute.precondition 4 scenario2_a scenario2_b scenario2_c (fresh_result 3) ∧
    ∃ r, Execute 4 scenario2_a scenario2_b scenario2_c (fresh_result 3) (total_fn add3) =
        .ok r ∧
      r.count = scenario2_a.count ∧ r.count = scenario2_b.count ∧
      r.count = scenario2_c.count ∧ (fresh_result 3).count = scenario2_a.count ∧
      (all_constant scenario2_a scenario2_b scenario2_c = false →
        (∀ i, i < scenario2_a.count →
          (operand_null 4 scenario2_a scenario2_b scenario2_c i = true →
            r.nullmask[i]? = some true) ∧
          (operand_null 4 scenario2_a scenario2_b scenario2_c i = false →
            ∃ x y z, scenario2_a.value 4 i = some x ∧ scenario2_b.value 4 i = some y ∧
              scenario2_c.value 4 i = some z ∧ r.data[i]? = some (add3 x y z))) ∧
        (∀ j, scenario2_a.count ≤ j →
          r.data[j]? = (fresh_result 3).data[j]? ∧
          r.nullmask[j]? = (fresh_result 3).nullmask[j]?)) :=
  ⟨by decide,
    C14_cardinality_preserved 4 scenario2_a scenario2_b scenario2_c (fresh_result 3) add3
      (by decide)⟩

/-- C15: the constructor of `CreateCollationInfo` special-cases the name "da": for the
name "da" the constructed info has `not_required_for_equality = false` whatever value was
passed, for every other name the field is the value passed; in all cases `name`,
`function` and `combinable` are the arguments passed and `internal` is true. -/
theorem C15_constructor_special_cases_da {F : Type} (name : String) (function : F)
    (combinable not_required : Bool) :
    (CreateCollationInfo.CreateCollationInfo name function combinable
        not_required).not_required_for_equality =
      (if name = "da" then false else not_required) ∧
    (CreateCollationInfo.CreateCollationInfo "da" function combinable
        not_required).not_required_for_equality = false ∧
    (CreateCollationInfo.CreateCollationInfo name function combinable not_required).name =
      name ∧
    (CreateCollationInfo.CreateCollationInfo name function combinable
        not_required).function = function ∧
    (CreateCollationInfo.CreateCollationInfo name function combinable
        not_required).combinable = combinable ∧
    (CreateCollationInfo.CreateCollationInfo name function combinable
        not_required).internal = true := by
  rw [constructor_fields name, constructor_fields "da"]
  exact ⟨rfl, by simp, rfl, rfl, rfl, rfl⟩

/-- C20: for every info produced by the constructor and every behaviour of
`CopyProperties` on the base part, the copy has the same `name`, the same `combinable`
and the same `not_required_for_equality` as the original; constructing again from the
fields of a constructed info gives the same info, so the "da" override is idempotent. -/
theorem C20_Copy_preserves_fields {F : Type} (CopyProperties : CreateInfo → CreateInfo → CreateInfo)
    (name : String) (function : F) (combinable not_required : Bool) :
    (CreateCollationInfo.Copy CopyProperties
        (CreateCollationInfo.CreateCollationInfo name function combinable not_required)).name =
      (CreateCollationInfo.CreateCollationInfo name function combinable not_required).name ∧
    (CreateCollationInfo.Copy CopyProperties
        (CreateCollationInfo.CreateCollationInfo name function combinable
          not_required)).combinable =
      (CreateCollationInfo.CreateCollationInfo name function combinable
        not_required).combinable ∧
    (CreateCollationInfo.Copy CopyProperties
        (CreateCollationInfo.CreateCollationInfo name function combinable
          not_required)).not_required_for_equality =
      (CreateCollationInfo.CreateCollationInfo name function combinable
        not_required).not_required_for_equality ∧
    CreateCollationInfo.CreateCollationInfo
        (CreateCollationInfo.CreateCollationInfo name function combinable not_required).name
        (CreateCollationInfo.CreateCollationInfo name function combinable
          not_required).function
        (CreateCollationInfo.CreateCollationInfo name function combinable
          not_required).combinable
        (CreateCollationInfo.CreateCollationInfo name function combinable
          not_required).not_required_for_equality =
      CreateCollationInfo.CreateCollationInfo name function combinable not_required := by
  have hidem : CreateCollationInfo.CreateCollationInfo
        (CreateCollationInfo.CreateCollationInfo name function combinable not_required).name
        (CreateCollationInfo.CreateCollationInfo name function combinable
          not_required).function
        (CreateCollationInfo.CreateCollationInfo name function combinable
          not_required).combinable
        (CreateCollationInfo.CreateCollationInfo name function combinable
          not_required).not_required_for_equality =
      CreateCollationInfo.CreateCollationInfo name function combinable not_required := by
    rw [constructor_fields name function combinable not_required]
    rw [constructor_fields]
    by_cases h : name = "da" <;> simp [h]
  refine ⟨?_, ?_, ?_, hidem⟩
  · show (CreateCollationInfo.CreateCollationInfo _ _ _ _).name = _
    rw [hidem]
  · show (CreateCollationInfo.CreateCollationInfo _ _ _ _).combinable = _
    rw [hidem]
  · show (CreateCollationInfo.CreateCollationInfo _ _ _ _).not_required_for_equality = _
    rw [hidem]

/-- C16: for all normalized inputs that satisfy the data-model invariant, every count,
every (possibly failing) combining function, every predicate and all initial outputs,
`ExecuteLoop` has the outcome of its null-checking loop (lines 27-36) run
unconditionally, and `SelectLoop` has the outcome of its null-checking loop
(lines 96-106) run unconditionally: the branch chosen by the test
`anullmask.any() || bnullmask.any() || cnullmask.any()` is unobservable. -/
theorem C16_fast_loops_unobservable {A B C R : Type} (fn : A → B → C → Except Failure R)
    (op : A → B → C → Bool) (count : idx_t)
    (adata : List A) (bdata : List B) (cdata : List C)
    (asel bsel csel : SelectionVector) (anullmask bnullmask cnullmask : nullmask_t)
    (result_data : List R) (result_nullmask : nullmask_t)
    (true_sel false_sel : SelectionVector)
    (ha : rows_in_range adata asel anullmask count)
    (hb : rows_in_range bdata bsel bnullmask count)
    (hc : rows_in_range cdata csel cnullmask count) :
    ExecuteLoop adata bdata cdata result_data count asel bsel csel
        anullmask bnullmask cnullmask result_nullmask fn =
      (List.range count).foldlM
        (ExecuteLoop.checked_body adata bdata cdata asel bsel csel
          anullmask bnullmask cnullmask fn) (result_data, result_nullmask) ∧
    SelectLoop op adata bdata cdata count asel bsel csel
        anullmask bnullmask cnullmask true_sel false_sel =
      ((List.range count).foldlM
        (SelectLoop.checked_body op adata bdata cdata asel bsel csel
          anullmask bnullmask cnullmask)
        (⟨0, 0, true_sel, false_sel⟩ : SelectState) >>= fun st =>
          pure (st.true_count, st.true_sel, st.false_sel)) := by
  constructor
  · rw [ExecuteLoop_eq_rows fn result_data result_nullmask ha hb hc]
    exact (foldlM_range_congr _ _ _ (fun i hi s => checked_body_eq fn s ha hb hc hi) _).symm
  · rw [SelectLoop_eq_rows op true_sel false_sel ha hb hc,
      foldlM_range_congr
        (SelectLoop.checked_body op adata bdata cdata asel bsel csel
          anullmask bnullmask cnullmask) _ _
        (fun i hi s => select_checked_body_eq op s ha hb hc hi)]

/-- Witness of C16 on inputs without any null bit, for which both functions run their
loop without null checks. -/
theorem C16_fast_loops_unobservable_witness :
    (rows_in_range no_null_a.data no_null_a.sel no_null_a.nullmask 3 ∧
      rows_in_range scenario2_b.data scenario2_b.sel scenario2_b.nullmask 3 ∧
      rows_in_range scenario2_c.data scenario2_c.sel scenario2_c.nullmask 3) ∧
    (ExecuteLoop no_null_a.data scenario2_b.data scenario2_c.data [0, 0, 0] 3
        no_null_a.sel scenario2_b.sel scenario2_c.sel
        no_null_a.nullmask scenario2_b.nullmask scenario2_c.nullmask
        [false, false, false] fails_on_zero =
      (List.range 3).foldlM
        (ExecuteLoop.checked_body no_null_a.data scenario2_b.data scenario2_c.data
          no_null_a.sel scenario2_b.sel scenario2_c.sel
          no_null_a.nullmask scenario2_b.nullmask scenario2_c.nullmask fails_on_zero)
        ([0, 0, 0], [false, false, false]) ∧
    SelectLoop less_than no_null_a.data scenario2_b.data scenario2_c.data 3
        no_null_a.sel scenario2_b.sel scenario2_c.sel
        no_null_a.nullmask scenario2_b.nullmask scenario2_c.nullmask
        (zeroed_buffer 3) (zeroed_buffer 3) =
      ((List.range 3).foldlM
        (SelectLoop.checked_body less_than no_null_a.data scenario2_b.data scenario2_c.data
          no_null_a.sel scenario2_b.sel scenario2_c.sel
          no_null_a.nullmask scenario2_b.nullmask scenario2_c.nullmask)
        (⟨0, 0, zeroed_buffer 3, zeroed_buffer 3⟩ : SelectState) >>= fun st =>
          pure (st.true_count, st.true_sel, st.false_sel))) :=
  ⟨by decide,
    C16_fast_loops_unobservable fails_on_zero less_than 3
      no_null_a.data scenario2_b.data scenario2_c.data
      no_null_a.sel scenario2_b.sel scenario2_c.sel
      no_null_a.nullmask scenario2_b.nullmask scenario2_c.nullmask
      [0, 0, 0] [false, false, false] (zeroed_buffer 3) (zeroed_buffer 3)
      (by decide) (by decide) (by decide)⟩

/-- C17: for all normalized inputs that satisfy the data-model invariant and every
initial result of `count` slots, `ExecuteLoop` succeeds; it sets the null bit of exactly
the rows `i < count` that have a null operand and leaves every other bit of the result
null mask as it was (it never clears a bit); it overwrites the result data at exactly the
rows `i < count` without a null operand, with the value of the function, and leaves the
data of rows with a null operand and of positions from `count` on as they were.
Consequently 'row `i` is null iff some operand is null' holds for all rows below `count`
exactly when, before the call, no null bit was set at a row below `count` without a null
operand. -/
theorem C17_ExecuteLoop_frame {A B C R : Type} (f : A → B → C → R) (count : idx_t)
    (adata : List A) (bdata : List B) (cdata : List C)
    (asel bsel csel : SelectionVector) (anullmask bnullmask cnullmask : nullmask_t)
    (result_data : List R) (result_nullmask : nullmask_t)
    (ha : rows_in_range adata asel anullmask count)
    (hb : rows_in_range bdata bsel bnullmask count)
    (hc : rows_in_range cdata csel cnullmask count)
    (hd : count ≤ result_data.length) (hn : count ≤ result_nullmask.length) :
    ∃ out, ExecuteLoop adata bdata cdata result_data count asel bsel csel
        anullmask bnullmask cnullmask result_nullmask (total_fn f) = .ok out ∧
      out.1.length = result_data.length ∧ out.2.length = result_nullmask.length ∧
      (∀ i, i < count → row_null asel bsel csel anullmask bnullmask cnullmask i = true →
        out.2[i]? = some true) ∧
      (∀ j, (count ≤ j ∨ row_null asel bsel csel anullmask bnullmask cnullmask j = false) →
        out.2[j]? = result_nullmask[j]?) ∧
      (∀ i, i < count → row_null asel bsel csel anullmask bnullmask cnullmask i = false →
        ∃ x y z, value_at adata asel i = some x ∧ value_at bdata bsel i = some y ∧
          value_at cdata csel i = some z ∧ out.1[i]? = some (f x y z)) ∧
      (∀ j, (count ≤ j ∨ row_null asel bsel csel anullmask bnullmask cnullmask j = true) →
        out.1[j]? = result_data[j]?) ∧
      ((∀ i, i < count →
          (out.2[i]? = some true ↔
            row_null asel bsel csel anullmask bnullmask cnullmask i = true)) ↔
        (∀ i, i < count → row_null asel bsel csel anullmask bnullmask cnullmask i = false →
          result_nullmask[i]? = some false)) := by
  have hvals : ∀ i, i < count →
      ∃ x y z, value_at adata asel i = some x ∧ value_at bdata bsel i = some y ∧
        value_at cdata csel i = some z ∧
        row_result (total_fn f) adata bdata cdata asel bsel csel i = .ok (f x y z) :=
    fun i hi => row_values (total_fn f) ha hb hc hi
  obtain ⟨out, hrun, hl1, hl2, hdata, hmask⟩ :=
    execute_rows_spec (row_null asel bsel csel anullmask bnullmask cnullmask)
      (row_result (total_fn f) adata bdata cdata asel bsel csel)
      result_data result_nullmask count hd hn
      (fun i hi _ => by
        obtain ⟨x, y, z, -, -, -, hv⟩ := hvals i hi
        exact ⟨f x y z, hv⟩)
  have hset : ∀ i, i < count →
      row_null asel bsel csel anullmask bnullmask cnullmask i = true →
      out.2[i]? = some true := by
    intro i hi hnull
    rw [hmask i, hnull]; simp [hi]
  have hkeep : ∀ j,
      (count ≤ j ∨ row_null asel bsel csel anullmask bnullmask cnullmask j = false) →
      out.2[j]? = result_nullmask[j]? := by
    intro j hj
    rw [hmask j]
    rcases hj with hj | hj
    · simp [Nat.not_lt.mpr hj]
    · simp [hj]
  refine ⟨out, ?_, hl1, hl2, hset, hkeep, ?_, ?_, ?_⟩
  · rw [ExecuteLoop_eq_rows (total_fn f) result_data result_nullmask ha hb hc]
    exact hrun
  · intro i hi hnull
    obtain ⟨x, y, z, hx, hy, hz, hv⟩ := hvals i hi
    refine ⟨x, y, z, hx, hy, hz, ?_⟩
    rw [hdata i, hv, hnull]
    simp [hi, Except.toOption]
  · intro j hj
    rw [hdata j]
    rcases hj with hj | hj
    · simp [Nat.not_lt.mpr hj]
    · simp [hj]
  · constructor
    · intro hpost i hi hnull
      have hbit : out.2[i]? = result_nullmask[i]? := hkeep i (Or.inr hnull)
      have hlt : i < result_nullmask.length := Nat.lt_of_lt_of_le hi hn
      have hne : out.2[i]? ≠ some true := by
        intro h
        have := (hpost i hi).mp h
        rw [hnull] at this
        cases this
      rw [hbit, List.getElem?_eq_getElem hlt] at hne
      rw [List.getElem?_eq_getElem hlt]
      cases hb : result_nullmask[i] with
      | false => rfl
      | true => rw [hb] at hne; exact absurd rfl hne
    · intro hclear i hi
      cases hnull : row_null asel bsel csel anullmask bnullmask cnullmask i with
      | true => simp [hset i hi hnull]
      | false =>
        rw [hkeep i (Or.inr hnull), hclear i hi hnull]
        simp

/-- Witness of C17 on the normalized views of scenario 2 of the spec. -/
theorem C17_ExecuteLoop_frame_witness :
    (rows_in_range scenario2_a.data scenario2_a.sel scenario2_a.nullmask 3 ∧
      rows_in_range scenario2_b.data scenario2_b.sel scenario2_b.nullmask 3 ∧
      rows_in_range scenario2_c.data scenario2_c.sel scenario2_c.nullmask 3 ∧
      3 ≤ ([0, 0, 0, 0] : List Int).length ∧
      3 ≤ ([false, false, true, true] : nullmask_t).length) ∧
    ∃ out, ExecuteLoop scenario2_a.data scenario2_b.data scenario2_c.data [0, 0, 0, 0] 3
        scenario2_a.sel scenario2_b.sel scenario2_c.sel
        scenario2_a.nullmask scenario2_b.nullmask scenario2_c.nullmask
        [false, false, true, true] (total_fn add3) = .ok out ∧
      out.1.length = ([0, 0, 0, 0] : List Int).length ∧
      out.2.length = ([false, false, true, true] : nullmask_t).length ∧
      (∀ i, i < 3 → row_null scenario2_a.sel scenario2_b.sel scenario2_c.sel
          scenario2_a.nullmask scenario2_b.nullmask scenario2_c.nullmask i = true →
        out.2[i]? = some true) ∧
      (∀ j, (3 ≤ j ∨ row_null scenario2_a.sel scenario2_b.sel scenario2_c.sel
          scenario2_a.nullmask scenario2_b.nullmask scenario2_c.nullmask j = false) →
        out.2[j]? = ([false, false, true, true] : nullmask_t)[j]?) ∧
      (∀ i, i < 3 → row_null scenario2_a.sel scenario2_b.sel scenario2_c.sel
          scenario2_a.nullmask scenario2_b.nullmask scenario2_c.nullmask i = false →
        ∃ x y z, value_at scenario2_a.data scenario2_a.sel i = some x ∧
          value_at scenario2_b.data scenario2_b.sel i = some y ∧
          value_at scenario2_c.data scenario2_c.sel i = some z ∧
          out.1[i]? = some (add3 x y z)) ∧
      (∀ j, (3 ≤ j ∨ row_null scenario2_a.sel scenario2_b.sel scenario2_c.sel
          scenario2_a.nullmask scenario2_b.nullmask scenario2_c.nullmask j = true) →
        out.1[j]? = ([0, 0, 0, 0] : List Int)[j]?) ∧
      ((∀ i, i < 3 →
          (out.2[i]? = some true ↔
            row_null scenario2_a.sel scenario2_b.sel scenario2_c.sel
              scenario2_a.nullmask scenario2_b.nullmask scenario2_c.nullmask i = true)) ↔
        (∀ i, i < 3 → row_null scenario2_a.sel scenario2_b.sel scenario2_c.sel
            scenario2_a.nullmask scenario2_b.nullmask scenario2_c.nullmask i = false →
          ([false, false, true, true] : nullmask_t)[i]? = some false)) :=
  ⟨by decide,
    C17_ExecuteLoop_frame add3 3 scenario2_a.data scenario2_b.data scenario2_c.data
      scenario2_a.sel scenario2_b.sel scenario2_c.sel
      scenario2_a.nullmask scenario2_b.nullmask scenario2_c.nullmask
      [0, 0, 0, 0] [false, false, true, true]
      (by decide) (by decide) (by decide) (by decide) (by decide)⟩

/-- C18: under the precondition of `Select`, the call succeeds and modifies `true_sel`
at no position `>= true_count` and `false_sel` at no position `>= count - true_count`
(the lengths of both buffers are unchanged); on the all-constant path neither selection
is modified at any position, also when the value returned is `count`. -/
theorem C18_Select_writes_only_fronts {A B C : Type} (n : Nat) (op : A → B → C → Bool)
    (a : Vector A) (b : Vector B) (c : Vector C) (true_sel false_sel : SelectionVector)
    (hpre : Select.precondition n a b c true_sel false_sel) :
    ∃ true_count true_out false_out,
      Select n op a b c true_sel false_sel = .ok (true_count, true_out, false_out) ∧
      true_out.sel_vector.length = true_sel.sel_vector.length ∧
      false_out.sel_vector.length = false_sel.sel_vector.length ∧
      (∀ j, true_count ≤ j → true_out.sel_vector[j]? = true_sel.sel_vector[j]?) ∧
      (∀ j, a.count - true_count ≤ j →
        false_out.sel_vector[j]? = false_sel.sel_vector[j]?) ∧
      (all_constant a b c = true → true_out = true_sel ∧ false_out = false_sel) := by
  obtain ⟨hcard, hrest⟩ := hpre
  by_cases hconst : all_constant a b c = true
  · rw [if_pos hconst] at hrest
    obtain ⟨⟨had, han⟩, ⟨hbd, hbn⟩, ⟨hcd, hcn⟩⟩ := hrest
    exact ⟨_, true_sel, false_sel, Select_constant_eq n op a b c true_sel false_sel hcard hconst
      (slot_zero han) (slot_zero hbn) (slot_zero hcn) (slot_zero had) (slot_zero hbd)
      (slot_zero hcd), rfl, rfl, fun _ _ => rfl, fun _ _ => rfl, fun _ => ⟨rfl, rfl⟩⟩
  · have hgen : all_constant a b c = false := by simpa using hconst
    rw [if_neg hconst] at hrest
    obtain ⟨ha, hb, hc, ht, hf⟩ := hrest
    have hlen : a.count - ((List.range a.count).filter (operand_selected n op a b c)).length =
        ((List.range a.count).filter (fun i => !operand_selected n op a b c i)).length := by
      have hsum := length_filter_add (operand_selected n op a b c) a.count
      exact Nat.sub_eq_of_eq_add (by rw [Nat.add_comm]; exact hsum.symm)
    refine ⟨_, _, _,
      Select_general_spec n op a b c true_sel false_sel hcard hgen ha hb hc ht hf,
      ?_, ?_, ?_, ?_, ?_⟩
    · exact length_append_drop _ _ (Nat.le_trans (length_filter_range_le _ _) ht)
    · exact length_append_drop _ _ (Nat.le_trans (length_filter_range_le _ _) hf)
    · intro j hj
      exact getElem?_append_drop _ _ j hj
    · intro j hj
      rw [hlen] at hj
      exact getElem?_append_drop _ _ j hj
    · intro h; rw [hgen] at h; cases h

/-- Witness of C18 on scenario 3 of the spec with output buffers of six slots. -/
theorem C18_Select_writes_only_fronts_witness :
    Select.precondition 4 scenario3_a scenario3_b scenario3_c
      (zeroed_buffer 6) (zeroed_buffer 6) ∧
    ∃ true_count true_out false_out,
      Select 4 less_than scenario3_a scenario3_b scenario3_c
        (zeroed_buffer 6) (zeroed_buffer 6) = .ok (true_count, true_out, false_out) ∧
      true_out.sel_vector.length = (zeroed_buffer 6).sel_vector.length ∧
      false_out.sel_vector.length = (zeroed_buffer 6).sel_vector.length ∧
      (∀ j, true_count ≤ j → true_out.sel_vector[j]? = (zeroed_buffer 6).sel_vector[j]?) ∧
      (∀ j, scenario3_a.count - true_count ≤ j →
        false_out.sel_vector[j]? = (zeroed_buffer 6).sel_vector[j]?) ∧
      (all_constant scenario3_a scenario3_b scenario3_c = true →
        true_out = zeroed_buffer 6 ∧ false_out = zeroed_buffer 6) :=
  ⟨by decide,
    C18_Select_writes_only_fronts 4 less_than scenario3_a scenario3_b scenario3_c
      (zeroed_buffer 6) (zeroed_buffer 6) (by decide)⟩

/-- C19: for three CONSTANT inputs of at most `STANDARD_VECTOR_SIZE` rows that hold a
value and a null bit at slot 0, and output buffers of `count` slots, the value returned
by `Select` on its all-constant path is the `true_count` that `SelectLoop` returns on the
normalized views of the same inputs (single-slot buffer, all-zero selection vector,
one-bit null mask) with the same `count`. -/
theorem C19_Select_constant_agrees_with_loop {A B C : Type} (n : Nat)
    (op : A → B → C → Bool) (a : Vector A) (b : Vector B) (c : Vector C)
    (true_sel false_sel : SelectionVector)
    (an bn cn : Bool) (a0 : A) (b0 : B) (c0 : C)
    (hcard : (a.SameCardinality b && a.SameCardinality c) = true)
    (hconst : all_constant a b c = true)
    (hna : a.nullmask[0]? = some an) (hnb : b.nullmask[0]? = some bn)
    (hnc : c.nullmask[0]? = some cn)
    (hva : a.data[0]? = some a0) (hvb : b.data[0]? = some b0) (hvc : c.data[0]? = some c0)
    (hcap : a.count ≤ n)
    (ht : a.count ≤ true_sel.sel_vector.length)
    (hf : a.count ≤ false_sel.sel_vector.length) :
    ∃ returned true_out false_out true_loop false_loop,
      Select n op a b c true_sel false_sel = .ok (returned, true_out, false_out) ∧
      SelectLoop op (a.Orrify n).data (b.Orrify n).data (c.Orrify n).data a.count
        (a.Orrify n).sel (b.Orrify n).sel (c.Orrify n).sel
        (a.Orrify n).nullmask (b.Orrify n).nullmask (c.Orrify n).nullmask
        true_sel false_sel = .ok (returned, true_loop, false_loop) := by
  obtain ⟨hta, htb, htc⟩ := all_constant_types hconst
  have hcard2 := hcard
  simp only [Vector.SameCardinality, Bool.and_eq_true, beq_iff_eq] at hcard2
  have pos : ∀ {α : Type} {l : List α} {x : α}, l[0]? = some x → 0 < l.length :=
    fun h => (List.getElem?_eq_some.mp h).1
  have ha : a.valid n := constant_valid n a hta hcap (pos hva) (pos hna)
  have hb : rows_in_range (b.Orrify n).data (b.Orrify n).sel (b.Orrify n).nullmask
      a.count := by
    rw [hcard2.1]
    exact constant_valid n b htb (hcard2.1 ▸ hcap) (pos hvb) (pos hnb)
  have hc : rows_in_range (c.Orrify n).data (c.Orrify n).sel (c.Orrify n).nullmask
      a.count := by
    rw [hcard2.2]
    exact constant_valid n c htc (hcard2.2 ▸ hcap) (pos hvc) (pos hnc)
  have hcount := filter_range_const (operand_selected n op a b c)
    (!(an || bn || cn) && op a0 b0 c0) a.count
    (fun i hi => constant_operand_selected n op a b c hconst hna hnb hnc hva hvb hvc i
      (Nat.lt_of_lt_of_le hi hcap))
  have hloop := SelectLoop_spec op true_sel false_sel ha hb hc ht hf
  unfold operand_selected at hcount
  rw [hcount] at hloop
  exact ⟨_, true_sel, false_sel, _, _,
    Select_constant_eq n op a b c true_sel false_sel hcard hconst hna hnb hnc hva hvb hvc,
    hloop⟩

/-- Witness of C19: the non-null constants `1`, `2`, `0` with the predicate `a < b` and
five rows. -/
theorem C19_Select_constant_agrees_with_loop_witness :
    (((constant_vector 5 (1 : Int) false).SameCardinality (constant_vector 5 (2 : Int) false) &&
        (constant_vector 5 (1 : Int) false).SameCardinality
          (constant_vector 5 (0 : Int) false)) = true ∧
      all_constant (constant_vector 5 (1 : Int) false) (constant_vector 5 (2 : Int) false)
        (constant_vector 5 (0 : Int) false) = true ∧
      (constant_vector 5 (1 : Int) false).nullmask[0]? = some false ∧
      (constant_vector 5 (2 : Int) false).nullmask[0]? = some false ∧
      (constant_vector 5 (0 : Int) false).nullmask[0]? = some false ∧
      (constant_vector 5 (1 : Int) false).data[0]? = some 1 ∧
      (constant_vector 5 (2 : Int) false).data[0]? = some 2 ∧
      (constant_vector 5 (0 : Int) false).data[0]? = some 0 ∧
      (constant_vector 5 (1 : Int) false).count ≤ 8 ∧
      (constant_vector 5 (1 : Int) false).count ≤ (zeroed_buffer 8).sel_vector.length ∧
      (constant_vector 5 (1 : Int) false).count ≤ (zeroed_buffer 8).sel_vector.length) ∧
    ∃ returned true_out false_out true_loop false_loop,
      Select 8 less_than (constant_vector 5 1 false) (constant_vector 5 2 false)
        (constant_vector 5 0 false) (zeroed_buffer 8) (zeroed_buffer 8) =
          .ok (returned, true_out, false_out) ∧
      SelectLoop less_than ((constant_vector 5 (1 : Int) false).Orrify 8).data
        ((constant_vector 5 (2 : Int) false).Orrify 8).data
        ((constant_vector 5 (0 : Int) false).Orrify 8).data
        (constant_vector 5 (1 : Int) false).count
        ((constant_vector 5 (1 : Int) false).Orrify 8).sel
        ((constant_vector 5 (2 : Int) false).Orrify 8).sel
        ((constant_vector 5 (0 : Int) false).Orrify 8).sel
        ((constant_vector 5 (1 : Int) false).Orrify 8).nullmask
        ((constant_vector 5 (2 : Int) false).Orrify 8).nullmask
        ((constant_vector 5 (0 : Int) false).Orrify 8).nullmask
        (zeroed_buffer 8) (zeroed_buffer 8) = .ok (returned, true_loop, false_loop) :=
  ⟨by decide,
    C19_Select_constant_agrees_with_loop 8 less_than (constant_vector 5 1 false)
      (constant_vector 5 2 false) (constant_vector 5 0 false)
      (zeroed_buffer 8) (zeroed_buffer 8) false false false 1 2 0
      (by decide) (by decide) (by decide) (by decide) (by decide) (by decide) (by decide)
      (by decide) (by decide) (by decide) (by decide)⟩

end duckdb
